import Mathlib

/-!
# The client-stream adapter of `module-client-node` (client-stream.c)

A shallow embedding of the node adapter that exposes a client node as a graph
node: the node interface functions `impl_node_*`, the two negotiation
routines `negotiate_format` and `negotiate_buffers`, the per-tick step
`impl_node_process`, the bring-up (`client_node_initialized` and
`try_link_controls`) and the teardown (`cleanup` and the destroy handlers).
The sample-format routines of `audioconvert` (fmt-ops.c) follow in a namespace
of their own, `FmtOps`.

Conventions of the embedding.

* Pointers are natural numbers, `0` is `NULL`.  A `struct spa_pod *` is an
  `Option Pod` (`none` is `NULL`) over an abstract pod value.
* The adapter never runs alone: it calls the adapter object, the adapter mix,
  the client node, the C allocator, the shared-memory allocator and the graph
  scheduler.  Every such call is recorded, in order, in `State.trace`, and
  what the callee answers is taken from the `World`: `World.reply tr c` is the
  answer to the call `c` made after the calls `tr`.  Theorems quantify over
  every `World`, so over every behaviour of the collaborators, including
  behaviour that depends on the history of calls.
* Constants and inline helpers of headers that are not part of the sources at
  hand (parameter ids, flag bits, `sizeof`s, the pod parser, the buffer layout
  planner) are fields of the `World` as well.
* The `spa_return_val_if_fail (node != NULL, ...)` guard on the node pointer
  itself is not modelled: a `State` is the state of an existing node.
* Logging (`spa_log_*`, `pw_log_*`, `spa_debug_*`) has no effect on the state
  and returns nothing that is read; it is left out.
* The IO areas live in `State.io_mem`; only the adapter's own stores to them
  are modelled.
* `debug_params` loops until the enumerated port answers `<= 0`; it is run
  with fuel, and `none` means that the fuel ran out.
* Destroying a node emits its destroy event to the listener hooks still
  attached; the two destroy handlers take what the event of the other node
  runs as an argument and are nested with fuel.
-/

namespace ClientStream

/-! ## Machine integers -/

/-- The value of an `int` converted to `uint32_t`. -/
def toU32 (x : Int) : Nat := (x % 4294967296).toNat

/-- The value of an `int` converted to `size_t` (64 bit). -/
def toSizeT (x : Int) : Nat := (x % 18446744073709551616).toNat

/-- The `int32_t` with the given 32-bit pattern. -/
def toI32 (n : Nat) : Int :=
  if n % 4294967296 < 2147483648 then ((n % 4294967296 : Nat) : Int)
  else ((n % 4294967296 : Nat) : Int) - 4294967296

/-- The C operator `|` on two `int`s (two's complement, 32 bit). -/
def int_or (a b : Int) : Int := toI32 (toU32 a ||| toU32 b)

/-- The C operator `&` on two `int`s (two's complement, 32 bit). -/
def int_and (a b : Int) : Int := toI32 (toU32 a &&& toU32 b)

/-- Linux `errno.h`. -/
def ENOMEM : Int := 12

/-- Linux `errno.h`. -/
def EINVAL : Int := 22

/-- Linux `errno.h` (`ENOTSUP` is `EOPNOTSUPP`). -/
def ENOTSUP : Int := 95

/-- The C `sizeof (float)`. -/
def sizeof_float : Nat := 4

/-! ## Data model -/

/-- A pointer; `0` is `NULL`. -/
abbrev Ptr := Nat

/-- An abstract parameter object (the contents of a `struct spa_pod`). -/
abbrev Pod := Nat

/-- The C `enum spa_direction`. -/
inductive spa_direction where
  | SPA_DIRECTION_INPUT
  | SPA_DIRECTION_OUTPUT
  deriving DecidableEq

open spa_direction

/-- Modelled from the spec: the macro `SPA_DIRECTION_REVERSE` of the headers,
which yields the opposite direction. -/
def SPA_DIRECTION_REVERSE : spa_direction → spa_direction
  | SPA_DIRECTION_INPUT => SPA_DIRECTION_OUTPUT
  | SPA_DIRECTION_OUTPUT => SPA_DIRECTION_INPUT

/-- The C `struct spa_io_buffers`: the IO area of a port. -/
structure spa_io_buffers where
  status : Int
  buffer_id : Nat
  deriving DecidableEq

/-- The C `struct spa_io_range`. -/
structure spa_io_range where
  offset : Nat
  min_size : Nat
  max_size : Nat
  deriving DecidableEq

/-- The part of `struct pw_port` the adapter reads: the port's mix node and
its two control lists, `control_list[SPA_DIRECTION_INPUT]` and
`control_list[SPA_DIRECTION_OUTPUT]`, each as the list of the controls linked
in it, first to last. -/
structure pw_port where
  mix : Ptr
  control_list_input : List Ptr := []
  control_list_output : List Ptr := []
  deriving DecidableEq

/-- The part of `struct pw_port_mix` the adapter reads: the IO area pointer. -/
structure pw_port_mix where
  io : Ptr
  deriving DecidableEq

/-- The C `struct impl`, the adapter's own state. -/
structure impl where
  direction : spa_direction
  cnode : Ptr
  adapter : Ptr
  adapter_mix : Ptr
  use_converter : Bool
  client_port : pw_port
  client_port_mix : pw_port_mix
  io : Ptr
  range : spa_io_range
  buffers : Ptr
  n_buffers : Nat
  mem : Ptr
  deriving DecidableEq

/-- One block descriptor as `negotiate_buffers` fills it in (`struct spa_data`):
`type` is always `SPA_DATA_MemPtr`, so only `maxsize` is kept. -/
structure spa_data where
  maxsize : Nat
  deriving DecidableEq

/-- The sizes computed by the layout planner (`struct spa_buffer_alloc_info`). -/
structure spa_buffer_alloc_info where
  skel_size : Nat
  meta_size : Nat
  chunk_size : Nat
  data_size : Nat
  deriving DecidableEq

/-- The four integers read from the fixated `SPA_PARAM_Buffers` object. -/
structure BufferParams where
  buffers : Int
  blocks : Int
  size : Int
  align : Int
  deriving DecidableEq

/-- The two `struct pw_node` objects `client_node_initialized` looks ports up
on: the client node's (`impl->client_node->node`) and the adapter's own
(`impl->this.node`). -/
inductive pw_node_ref where
  | client_node
  | this_node
  deriving DecidableEq

/-- The last component of the media class `client_node_initialized` registers
the node under, `"Stream/<dir>/<type>"`. -/
inductive media_class_type where
  | Audio
  | Video
  | Generic
  deriving DecidableEq

/-- A call the adapter makes on a collaborator.  The calls of
`client_node_initialized` on fixed arguments carry none: `pw_properties_get`
asks for `PW_NODE_PROP_EXCLUSIVE`, `pw_load_spa_interface` loads
`audioconvert`, `pw_node_register` and `pw_node_set_active` act on the
adapter's own node, and `pw_node_register` is given the two components of the
media class. -/
inductive Call where
  | send_command (node : Ptr) (command : Ptr)
  | get_n_ports (node : Ptr)
  | get_port_ids (node : Ptr) (n_input_ids n_output_ids : Nat)
  | add_port (node : Ptr) (direction : spa_direction) (port_id : Nat)
  | remove_port (node : Ptr) (direction : spa_direction) (port_id : Nat)
  | port_get_info (node : Ptr) (direction : spa_direction) (port_id : Nat)
  | port_enum_params (node : Ptr) (direction : spa_direction) (port_id : Nat)
      (id : Nat) (index : Nat) (filter : Option Pod)
  | port_set_param (node : Ptr) (direction : spa_direction) (port_id : Nat)
      (id : Nat) (flags : Nat) (param : Option Pod)
  | port_set_io (node : Ptr) (direction : spa_direction) (port_id : Nat)
      (id : Nat) (data : Ptr) (size : Nat)
  | port_use_buffers (node : Ptr) (direction : spa_direction) (port_id : Nat)
      (buffers : Ptr) (n_buffers : Nat)
  | port_alloc_buffers (node : Ptr) (direction : spa_direction) (port_id : Nat)
      (params : Ptr) (n_params : Nat) (buffers : Ptr) (n_buffers : Nat)
  | port_reuse_buffer (node : Ptr) (port_id : Nat) (buffer_id : Nat)
  | port_send_command (node : Ptr) (direction : spa_direction) (port_id : Nat)
      (command : Ptr)
  | process (node : Ptr)
  | calloc (nmemb : Nat) (size : Nat)
  | free (ptr : Ptr)
  | pw_memblock_alloc (flags : Nat) (size : Nat)
  | pw_memblock_free (mem : Ptr)
  | spa_buffer_alloc_layout_array (info : spa_buffer_alloc_info) (n_buffers : Nat)
      (buffers : Ptr) (skel : Ptr) (mem : Ptr)
  | spa_graph_run
  | pw_node_set_driver
  | pw_node_destroy
  | pw_client_node_destroy
  | pw_unload_spa_interface (iface : Ptr)
  | pw_node_get_implementation
  | pw_node_get_properties
  | pw_properties_get (props : Ptr)
  | pw_properties_parse_bool (str : Ptr)
  | pw_node_find_port (node : pw_node_ref) (direction : spa_direction) (port_id : Nat)
  | pw_port_init_mix (port : pw_port)
  | spa_format_parse (format : Option Pod)
  | pw_load_spa_interface
  | pw_node_register (direction : spa_direction) (type : media_class_type)
  | pw_control_link (output : Ptr) (input : Ptr)
  | pw_node_set_active (active : Bool)
  deriving DecidableEq

/-- What a collaborator answers to a call: the returned code and whatever it
stores through the pointers it was handed.

* `res`: the `int` the call returns;
* `pod`, `index`: for `port_enum_params`, the values of `*result` and `*index`
  after the call;
* `flags`: for `port_get_info`, the `flags` of the returned port info;
* `ptr`: for `calloc` the returned pointer, for `pw_memblock_alloc` the value
  of `*mem` after the call;
* `count`: for `port_alloc_buffers`, the value of `*n_buffers` after the call;
* the four port counts: for `get_n_ports`, the values stored through the
  non-`NULL` count pointers;
* `input_ids`, `output_ids`: for `get_port_ids`, the contents of the two id
  arrays after the call;
* `port`: for `pw_node_find_port`, the port found, `none` for `NULL`;
* `flag`: for `pw_properties_parse_bool`, the returned `bool`;
* `media_type`, `media_subtype`: for `spa_format_parse`, the values stored
  through the two pointers.

`ptr` is also the pointer returned by `pw_node_get_implementation`,
`pw_node_get_properties`, `pw_properties_get` and `pw_load_spa_interface`, and
for `pw_port_init_mix` the `io` pointer of the mix it fills in. -/
structure Reply where
  res : Int := 0
  pod : Option Pod := none
  index : Nat := 0
  flags : Nat := 0
  ptr : Ptr := 0
  count : Nat := 0
  n_input_ports : Nat := 0
  max_input_ports : Nat := 0
  n_output_ports : Nat := 0
  max_output_ports : Nat := 0
  input_ids : List Nat := []
  output_ids : List Nat := []
  port : Option pw_port := none
  flag : Bool := false
  media_type : Nat := 0
  media_subtype : Nat := 0
  deriving DecidableEq

/-- Everything the adapter's code depends on and does not define: the
behaviour of the collaborators and the constants and inline helpers of the
headers. -/
structure World where
  /-- The answer to a call, given the calls made before it. -/
  reply : List Call → Call → Reply
  /-- The library call `spa_pod_fixate`, as a function on pod values. -/
  spa_pod_fixate : Option Pod → Option Pod
  /-- The library call `spa_pod_object_parse` of the four buffer keys;
  `none` when it returns a negative code. -/
  spa_pod_object_parse : Option Pod → Option BufferParams
  /-- The layout planner `spa_buffer_alloc_fill_info (info, n_metas, metas,
  n_datas, datas, data_aligns)`. -/
  spa_buffer_alloc_fill_info :
    Nat → Nat → List spa_data → List Nat → spa_buffer_alloc_info
  SPA_PARAM_EnumFormat : Nat
  SPA_PARAM_Format : Nat
  SPA_PARAM_Buffers : Nat
  SPA_IO_Buffers : Nat
  SPA_IO_Range : Nat
  SPA_STATUS_NEED_BUFFER : Int
  SPA_STATUS_HAVE_BUFFER : Int
  SPA_PORT_INFO_FLAG_CAN_ALLOC_BUFFERS : Nat
  PW_MEMBLOCK_FLAG_WITH_FD : Nat
  PW_MEMBLOCK_FLAG_MAP_READWRITE : Nat
  PW_MEMBLOCK_FLAG_SEAL : Nat
  /-- The C `sizeof (void *)`. -/
  sizeof_pointer : Nat
  /-- The C `sizeof (struct spa_io_buffers)`. -/
  sizeof_spa_io_buffers : Nat
  SPA_MEDIA_TYPE_audio : Nat
  SPA_MEDIA_TYPE_video : Nat
  SPA_MEDIA_SUBTYPE_raw : Nat

/-- The state the adapter's functions run in. -/
structure State where
  /-- The adapter's `struct impl`. -/
  impl : impl
  /-- The address `&impl->range`. -/
  range_addr : Ptr
  /-- The contents of the IO areas, by address. -/
  io_mem : Ptr → spa_io_buffers
  /-- The flag `impl->this.node->driver`. -/
  driver : Bool
  /-- The quantum `impl->this.node->driver_node->rt.quantum->size`. -/
  quantum_size : Nat
  /-- The calls made on collaborators so far, oldest first. -/
  trace : List Call

/-- Make the call `c`: its answer, and the state with the call recorded. -/
def call (W : World) (s : State) (c : Call) : Reply × State :=
  (W.reply s.trace c, { s with trace := s.trace ++ [c] })

/-- Modelled from the spec: the macro `SPA_FLAG_CHECK (field, flag)` of the
headers, by which a port info declares a capability: all bits of `flag` are
set in `field`. -/
def SPA_FLAG_CHECK (field flag : Nat) : Bool := (field &&& flag) == flag

/-- Modelled from the spec: the macro `SPA_ROUND_UP_N (num, align)` of the
headers, which rounds `num` up to the next multiple of `align` (the 16-byte
skeleton boundary). -/
def SPA_ROUND_UP_N (num align : Nat) : Nat := (num + (align - 1)) / align * align

/-! ## The node interface: commands and port topology -/

/-- The C function `impl_node_send_command` (client-stream.c:115). -/
def impl_node_send_command (W : World) (s : State) (command : Ptr) : Int × State :=
  let a := call W s (Call.send_command s.impl.adapter command)
  if a.1.res < 0 then (a.1.res, a.2)
  else if a.2.impl.adapter ≠ a.2.impl.cnode then
    let c := call W a.2 (Call.send_command a.2.impl.cnode command)
    if c.1.res < 0 then (c.1.res, c.2) else (0, c.2)
  else (0, a.2)

/-- The four out-parameters of `get_n_ports`: `none` is a `NULL` pointer,
`some v` a cell holding `v`. -/
structure PortCounts where
  n_input_ports : Option Nat
  max_input_ports : Option Nat
  n_output_ports : Option Nat
  max_output_ports : Option Nat
  deriving DecidableEq

/-- The C function `impl_node_get_n_ports` (client-stream.c:153). -/
def impl_node_get_n_ports (W : World) (s : State) (out : PortCounts) :
    (Int × PortCounts) × State :=
  if s.impl.adapter ≠ 0 then
    let a := call W s (Call.get_n_ports s.impl.adapter)
    let o : PortCounts :=
      { n_input_ports := out.n_input_ports.map (fun _ => a.1.n_input_ports)
        max_input_ports := out.max_input_ports.map (fun _ => a.1.max_input_ports)
        n_output_ports := out.n_output_ports.map (fun _ => a.1.n_output_ports)
        max_output_ports := out.max_output_ports.map (fun _ => a.1.max_output_ports) }
    if a.2.impl.direction = SPA_DIRECTION_OUTPUT then
      ((0, { o with n_input_ports := o.n_input_ports.map (fun _ => 0)
                    max_input_ports := o.max_input_ports.map (fun _ => 0) }), a.2)
    else
      ((0, { o with n_output_ports := o.n_output_ports.map (fun _ => 0)
                    max_output_ports := o.max_output_ports.map (fun _ => 0) }), a.2)
  else
    let n_inputs : Nat := if s.impl.direction = SPA_DIRECTION_OUTPUT then 0 else 1
    let n_outputs : Nat := if s.impl.direction = SPA_DIRECTION_OUTPUT then 1 else 0
    ((0, { n_input_ports := out.n_input_ports.map (fun _ => n_inputs)
           max_input_ports := out.max_input_ports.map (fun _ => n_inputs)
           n_output_ports := out.n_output_ports.map (fun _ => n_outputs)
           max_output_ports := out.max_output_ports.map (fun _ => n_outputs) }), s)

/-- The C function `impl_node_get_port_ids` (client-stream.c:206).  An id
array is `none` for a `NULL` pointer and `some l` for an array holding `l`. -/
def impl_node_get_port_ids (W : World) (s : State) (input_ids : Option (List Nat))
    (n_input_ids : Nat) (output_ids : Option (List Nat)) (n_output_ids : Nat) :
    (Int × Option (List Nat) × Option (List Nat)) × State :=
  if s.impl.adapter ≠ 0 then
    let a := call W s (Call.get_port_ids s.impl.adapter n_input_ids n_output_ids)
    ((a.1.res, input_ids.map (fun _ => a.1.input_ids),
      output_ids.map (fun _ => a.1.output_ids)), a.2)
  else
    ((0, (if n_input_ids > 0 then input_ids.map (fun l => l.set 0 0) else input_ids),
      (if n_output_ids > 0 then output_ids.map (fun l => l.set 0 0) else output_ids)), s)

/-- The C function `impl_node_add_port` (client-stream.c:236). -/
def impl_node_add_port (W : World) (s : State) (direction : spa_direction)
    (port_id : Nat) : Int × State :=
  if direction ≠ s.impl.direction then (-EINVAL, s)
  else
    let a := call W s (Call.add_port s.impl.adapter_mix direction port_id)
    if a.1.res < 0 then (a.1.res, a.2)
    else
      let b := call W a.2 (Call.port_set_io a.2.impl.adapter_mix direction port_id
        W.SPA_IO_Range a.2.range_addr W.sizeof_pointer)
      if b.1.res < 0 then (b.1.res, b.2) else (b.1.res, b.2)

/-- The C function `impl_node_remove_port` (client-stream.c:264). -/
def impl_node_remove_port (W : World) (s : State) (direction : spa_direction)
    (port_id : Nat) : Int × State :=
  if direction ≠ s.impl.direction then (-EINVAL, s)
  else
    let a := call W s (Call.remove_port s.impl.adapter_mix direction port_id)
    (a.1.res, a.2)

/-- The C function `impl_node_port_get_info` (client-stream.c:281); `info` is
the caller's out-pointer. -/
def impl_node_port_get_info (W : World) (s : State) (direction : spa_direction)
    (port_id : Nat) (info : Ptr) : Int × State :=
  if info = 0 then (-EINVAL, s)
  else if direction ≠ s.impl.direction then (-EINVAL, s)
  else
    let a := call W s (Call.port_get_info s.impl.adapter direction port_id)
    (a.1.res, a.2)

/-- The C function `impl_node_port_enum_params` (client-stream.c:301); `index`
is `none` for a `NULL` index pointer, `builder` is the builder pointer. -/
def impl_node_port_enum_params (W : World) (s : State) (direction : spa_direction)
    (port_id : Nat) (id : Nat) (index : Option Nat) (filter : Option Pod)
    (builder : Ptr) : Int × State :=
  match index with
  | none => (-EINVAL, s)
  | some idx =>
    if builder = 0 then (-EINVAL, s)
    else if direction ≠ s.impl.direction then (-EINVAL, s)
    else
      let a := call W s (Call.port_enum_params s.impl.adapter direction port_id id
        idx filter)
      (a.1.res, a.2)

/-- The C function `impl_node_port_alloc_buffers` (client-stream.c:675). -/
def impl_node_port_alloc_buffers (W : World) (s : State) (direction : spa_direction)
    (port_id : Nat) (params : Ptr) (n_params : Nat) (buffers : Ptr)
    (n_buffers : Nat) : Int × State :=
  if direction ≠ s.impl.direction then (-EINVAL, s)
  else
    let a := call W s (Call.port_alloc_buffers s.impl.adapter_mix direction port_id
      params n_params buffers n_buffers)
    (a.1.res, a.2)

/-- The C function `impl_node_port_reuse_buffer` (client-stream.c:699). -/
def impl_node_port_reuse_buffer (W : World) (s : State) (port_id : Nat)
    (buffer_id : Nat) : Int × State :=
  let a := call W s (Call.port_reuse_buffer s.impl.adapter port_id buffer_id)
  (a.1.res, a.2)

/-- The C function `impl_node_port_send_command` (client-stream.c:713). -/
def impl_node_port_send_command (W : World) (s : State) (direction : spa_direction)
    (port_id : Nat) (command : Ptr) : Int × State :=
  if command = 0 then (-EINVAL, s)
  else if direction ≠ s.impl.direction then (-EINVAL, s)
  else
    let a := call W s (Call.port_send_command s.impl.adapter direction port_id command)
    if a.1.res < 0 then (a.1.res, a.2) else (a.1.res, a.2)

/-- The C function `impl_node_port_set_io` (client-stream.c:612). -/
def impl_node_port_set_io (W : World) (s : State) (direction : spa_direction)
    (port_id : Nat) (id : Nat) (data : Ptr) (size : Nat) : Int × State :=
  if direction ≠ s.impl.direction then (-EINVAL, s)
  else
    let a : Int × State :=
      if s.impl.use_converter then
        let c := call W s (Call.port_set_io s.impl.adapter_mix direction port_id id
          data size)
        (c.1.res, c.2)
      else (0, s)
    if id = W.SPA_IO_Buffers ∧ size ≥ W.sizeof_spa_io_buffers then
      (a.1, { a.2 with impl.io := data })
    else a

/-! ## Format and buffer negotiation -/

/-- The loop of `debug_params` (client-stream.c:339): enumerate the port's
parameters without a filter, from index `index`, until the port answers
`<= 0`.  One unit of fuel per enumeration call; `none` when the fuel runs
out before the port ends the enumeration. -/
def debug_params_loop (W : World) (node : Ptr) (direction : spa_direction)
    (port_id : Nat) (id : Nat) : Nat → State → Nat → Option State
  | 0, _, _ => none
  | fuel + 1, s, index =>
    let a := call W s (Call.port_enum_params node direction port_id id index none)
    if a.1.res ≤ 0 then some a.2
    else debug_params_loop W node direction port_id id fuel a.2 a.1.index

/-- The C function `debug_params` (client-stream.c:326).  The filter is only
printed. -/
def debug_params (W : World) (fuel : Nat) (s : State) (node : Ptr)
    (direction : spa_direction) (port_id : Nat) (id : Nat)
    (_filter : Option Pod) : Option (Int × State) :=
  (debug_params_loop W node direction port_id id fuel s 0).map (fun s1 => (0, s1))

/-- The C function `negotiate_format` (client-stream.c:361). -/
def negotiate_format (W : World) (fuel : Nat) (s : State) : Option (Int × State) :=
  let a := call W s (Call.port_enum_params s.impl.adapter_mix
    (SPA_DIRECTION_REVERSE s.impl.direction) 0 W.SPA_PARAM_EnumFormat 0 none)
  if a.1.res ≤ 0 then
    (debug_params W fuel a.2 a.2.impl.adapter_mix
      (SPA_DIRECTION_REVERSE a.2.impl.direction) 0 W.SPA_PARAM_EnumFormat none).map
      (fun d => (-ENOTSUP, d.2))
  else
    let b := call W a.2 (Call.port_enum_params a.2.impl.cnode a.2.impl.direction 0
      W.SPA_PARAM_EnumFormat 0 a.1.pod)
    if b.1.res ≤ 0 then
      (debug_params W fuel b.2 b.2.impl.cnode b.2.impl.direction 0
        W.SPA_PARAM_EnumFormat b.1.pod).map (fun d => (-ENOTSUP, d.2))
    else
      let format := W.spa_pod_fixate b.1.pod
      let c := call W b.2 (Call.port_set_param b.2.impl.adapter_mix
        (SPA_DIRECTION_REVERSE b.2.impl.direction) 0 W.SPA_PARAM_Format 0 format)
      if c.1.res < 0 then some (c.1.res, c.2)
      else
        let d := call W c.2 (Call.port_set_param c.2.impl.cnode c.2.impl.direction 0
          W.SPA_PARAM_Format 0 format)
        if d.1.res < 0 then some (d.1.res, d.2) else some (d.1.res, d.2)

/-- How a stretch of a C function ends: it returns from the function with a
code, or control goes on to the next stretch with a value. -/
inductive Step (α : Type) where
  | ret (res : Int) (s : State)
  | next (a : α) (s : State)

/-- What the first stretch of `negotiate_buffers` hands on: the fixated
parameter object and the two locals `in_alloc` and `out_alloc`. -/
structure BufQuery where
  param : Option Pod
  in_alloc : Bool
  out_alloc : Bool
  deriving DecidableEq

/-- Lines 433 to 474 of `negotiate_buffers`: enumerate the buffer
requirements of the two ports, fixate, read the two port infos and decide who
allocates. -/
def negotiate_buffers_query (W : World) (fuel : Nat) (s : State) :
    Option (Step BufQuery) :=
  let a := call W s (Call.port_enum_params s.impl.adapter_mix
    (SPA_DIRECTION_REVERSE s.impl.direction) 0 W.SPA_PARAM_Buffers 0 none)
  if a.1.res ≤ 0 then
    (debug_params W fuel a.2 a.2.impl.adapter_mix
      (SPA_DIRECTION_REVERSE a.2.impl.direction) 0 W.SPA_PARAM_Buffers a.1.pod).map
      (fun d => Step.ret (-ENOTSUP) d.2)
  else
    let param : Option Pod := if a.1.res = 0 then none else a.1.pod
    let b := call W a.2 (Call.port_enum_params a.2.impl.cnode a.2.impl.direction 0
      W.SPA_PARAM_Buffers 0 param)
    if b.1.res < 0 then
      (debug_params W fuel b.2 b.2.impl.cnode b.2.impl.direction 0
        W.SPA_PARAM_Buffers b.1.pod).map (fun d => Step.ret b.1.res d.2)
    else
      let param := W.spa_pod_fixate b.1.pod
      let o := call W b.2 (Call.port_get_info b.2.impl.cnode b.2.impl.direction 0)
      if o.1.res < 0 then some (Step.ret o.1.res o.2)
      else
        let i := call W o.2 (Call.port_get_info o.2.impl.adapter_mix
          (SPA_DIRECTION_REVERSE o.2.impl.direction) 0)
        if i.1.res < 0 then some (Step.ret i.1.res i.2)
        else
          let in_alloc := SPA_FLAG_CHECK i.1.flags W.SPA_PORT_INFO_FLAG_CAN_ALLOC_BUFFERS
          let out_alloc := SPA_FLAG_CHECK o.1.flags W.SPA_PORT_INFO_FLAG_CAN_ALLOC_BUFFERS
          let in_alloc := if out_alloc || in_alloc then
              (if out_alloc then false else in_alloc)
            else in_alloc
          some (Step.next { param := param, in_alloc := in_alloc, out_alloc := out_alloc } i.2)

/-- Lines 476 to 522 of `negotiate_buffers`: parse the fixated parameters,
plan the layout, replace the buffer array and the backing memory block, record
the count and lay out the buffers. -/
def negotiate_buffers_alloc (W : World) (s : State) (q : BufQuery) : Step BufQuery :=
  match W.spa_pod_object_parse q.param with
  | none => Step.ret (-EINVAL) s
  | some p =>
    let datas := List.replicate p.blocks.toNat ({ maxsize := toU32 p.size } : spa_data)
    let aligns := List.replicate p.blocks.toNat (toU32 p.align)
    let info0 := W.spa_buffer_alloc_fill_info 0 (toU32 p.blocks) datas aligns
    let info := { info0 with skel_size := SPA_ROUND_UP_N info0.skel_size 16 }
    let s1 := if s.impl.buffers ≠ 0 then (call W s (Call.free s.impl.buffers)).2 else s
    let c := call W s1 (Call.calloc (toSizeT p.buffers) (W.sizeof_pointer + info.skel_size))
    let s2 : State := { c.2 with impl.buffers := c.1.ptr }
    if s2.impl.buffers = 0 then Step.ret (-ENOMEM) s2
    else
      let skel := s2.impl.buffers + W.sizeof_pointer * toSizeT p.buffers
      let data_size := (info.meta_size + info.chunk_size + info.data_size) % 4294967296
      let s3 : State := if s2.impl.mem ≠ 0 then
          { (call W s2 (Call.pw_memblock_free s2.impl.mem)).2 with impl.mem := 0 }
        else s2
      let m := call W s3 (Call.pw_memblock_alloc
        (W.PW_MEMBLOCK_FLAG_WITH_FD ||| W.PW_MEMBLOCK_FLAG_MAP_READWRITE |||
          W.PW_MEMBLOCK_FLAG_SEAL)
        (toU32 p.buffers * data_size % 4294967296))
      let s4 : State := { m.2 with impl.mem := m.1.ptr }
      if m.1.res < 0 then Step.ret m.1.res s4
      else
        let s5 : State := { s4 with impl.n_buffers := toU32 p.buffers }
        let l := call W s5 (Call.spa_buffer_alloc_layout_array info s5.impl.n_buffers
          s5.impl.buffers skel s5.impl.mem)
        Step.next q l.2

/-- Lines 524 to 551 of `negotiate_buffers`: hand the buffers to the adapter
mix port, then to the client port's mix. -/
def negotiate_buffers_handoff (W : World) (s : State) (q : BufQuery) : Int × State :=
  let h1 : Reply × State :=
    if q.in_alloc then
      let r := call W s (Call.port_alloc_buffers s.impl.adapter_mix
        (SPA_DIRECTION_REVERSE s.impl.direction) 0 0 0 s.impl.buffers s.impl.n_buffers)
      (r.1, { r.2 with impl.n_buffers := r.1.count })
    else
      call W s (Call.port_use_buffers s.impl.adapter_mix
        (SPA_DIRECTION_REVERSE s.impl.direction) 0 s.impl.buffers s.impl.n_buffers)
  if h1.1.res < 0 then (h1.1.res, h1.2)
  else
    let h2 : Reply × State :=
      if q.out_alloc then
        let r := call W h1.2 (Call.port_alloc_buffers h1.2.impl.client_port.mix
          h1.2.impl.direction 0 0 0 h1.2.impl.buffers h1.2.impl.n_buffers)
        (r.1, { r.2 with impl.n_buffers := r.1.count })
      else
        call W h1.2 (Call.port_use_buffers h1.2.impl.client_port.mix
          h1.2.impl.direction 0 h1.2.impl.buffers h1.2.impl.n_buffers)
    if h2.1.res < 0 then (h2.1.res, h2.2) else (0, h2.2)

/-- The C function `negotiate_buffers` (client-stream.c:412): the early
return on an existing pool, then the three stretches in order. -/
def negotiate_buffers (W : World) (fuel : Nat) (s : State) : Option (Int × State) :=
  if s.impl.n_buffers > 0 then some (0, s)
  else
    match negotiate_buffers_query W fuel s with
    | none => none
    | some (Step.ret res s1) => some (res, s1)
    | some (Step.next q s1) =>
      match negotiate_buffers_alloc W s1 q with
      | Step.ret res s2 => some (res, s2)
      | Step.next q2 s2 => some (negotiate_buffers_handoff W s2 q2)

/-- The C function `impl_node_port_set_param` (client-stream.c:574). -/
def impl_node_port_set_param (W : World) (fuel : Nat) (s : State)
    (direction : spa_direction) (port_id : Nat) (id : Nat) (flags : Nat)
    (param : Option Pod) : Option (Int × State) :=
  if direction ≠ s.impl.direction then some (-EINVAL, s)
  else
    let a := call W s (Call.port_set_param s.impl.adapter_mix direction port_id id
      flags param)
    if a.1.res < 0 then some (a.1.res, a.2)
    else if id = W.SPA_PARAM_Format ∧ a.2.impl.use_converter = true then
      match param with
      | none =>
        let b := call W a.2 (Call.port_set_param a.2.impl.adapter_mix
          (SPA_DIRECTION_REVERSE direction) 0 id 0 none)
        if b.1.res < 0 then some (b.1.res, b.2)
        else some (b.1.res, { b.2 with impl.n_buffers := 0 })
      | some _ =>
        if port_id = 0 then negotiate_format W fuel a.2 else some (a.1.res, a.2)
    else some (a.1.res, a.2)

/-- The C function `impl_node_port_use_buffers` (client-stream.c:642). -/
def impl_node_port_use_buffers (W : World) (fuel : Nat) (s : State)
    (direction : spa_direction) (port_id : Nat) (buffers : Ptr) (n_buffers : Nat) :
    Option (Int × State) :=
  if direction ≠ s.impl.direction then some (-EINVAL, s)
  else
    let a := call W s (Call.port_use_buffers s.impl.adapter_mix direction port_id
      buffers n_buffers)
    if a.1.res < 0 then some (a.1.res, a.2)
    else if n_buffers > 0 ∧ a.2.impl.use_converter = true then
      if port_id = 0 then negotiate_buffers W fuel a.2 else some (a.1.res, a.2)
    else some (a.1.res, a.2)

/-! ## The per-tick step -/

/-- The C function `impl_node_process` (client-stream.c:737). -/
def impl_node_process (W : World) (s : State) : Int × State :=
  let size := s.quantum_size * sizeof_float % 4294967296
  let s0 : State := { s with impl.range.min_size := size, impl.range.max_size := size }
  let p : Int × State :=
    if s0.impl.use_converter then
      let r := call W s0 (Call.process s0.impl.adapter)
      (r.1.res, r.2)
    else
      let tmp := s0.io_mem s0.impl.io
      let m1 := Function.update s0.io_mem s0.impl.io (s0.io_mem s0.impl.client_port_mix.io)
      let m2 := Function.update m1 s0.impl.client_port_mix.io tmp
      (int_or (m2 s0.impl.client_port_mix.io).status (m2 s0.impl.io).status,
        { s0 with io_mem := m2 })
  let trigger : Int :=
    if p.2.impl.direction = SPA_DIRECTION_OUTPUT then int_and p.1 W.SPA_STATUS_NEED_BUFFER
    else int_and p.1 W.SPA_STATUS_HAVE_BUFFER
  if trigger ≠ 0 ∧ p.2.driver = false then (p.1, (call W p.2 Call.spa_graph_run).2)
  else (p.1, p.2)

/-! ## Concrete worlds and states

Small, fully concrete collaborators on which the functions above can be
evaluated. -/

/-- Whether a call is a `port_enum_params` call. -/
def Call.is_enum_params : Call → Bool
  | Call.port_enum_params _ _ _ _ _ _ => true
  | _ => false

/-- Whether a call is a `port_alloc_buffers` call. -/
def Call.is_alloc_buffers : Call → Bool
  | Call.port_alloc_buffers _ _ _ _ _ _ _ => true
  | _ => false

/-- Whether a call is a `port_use_buffers` call. -/
def Call.is_use_buffers : Call → Bool
  | Call.port_use_buffers _ _ _ _ _ => true
  | _ => false

/-- The node a call is made on, if it is a call on a node. -/
def Call.node : Call → Option Ptr
  | Call.send_command n _ => some n
  | Call.get_n_ports n => some n
  | Call.get_port_ids n _ _ => some n
  | Call.add_port n _ _ => some n
  | Call.remove_port n _ _ => some n
  | Call.port_get_info n _ _ => some n
  | Call.port_enum_params n _ _ _ _ _ => some n
  | Call.port_set_param n _ _ _ _ _ => some n
  | Call.port_set_io n _ _ _ _ _ => some n
  | Call.port_use_buffers n _ _ _ _ => some n
  | Call.port_alloc_buffers n _ _ _ _ _ _ => some n
  | Call.port_reuse_buffer n _ _ => some n
  | Call.port_send_command n _ _ _ => some n
  | Call.process n => some n
  | _ => none

/-- A sample collaborator set.  Node `1` is the client node, node `2` the
converter and node `3` the client port's mix.  Every port enumerates exactly
one parameter object (pod `7`, filtered or not); the port info of the converter
carries `flags_in`, that of the client node `flags_out`; `calloc` returns the
address `4096` and the memory allocator the block `8192`; a hand-off to the
converter returns `handoff_in`, one to the client port's mix `handoff_out`;
`port_alloc_buffers` leaves the count alone; `send_command` on the client node
returns `cmd_client`; `process` returns `3`; `get_n_ports` reports 5 of 6
inputs and 7 of 8 outputs.  Every other call returns `0`. -/
def sampleReply (flags_in flags_out : Nat) (handoff_in handoff_out cmd_client : Int) :
    List Call → Call → Reply
  | _, Call.port_enum_params _ _ _ _ index f =>
    if index = 0 then { res := 1, pod := some 7, index := 1 }
    else { res := 0, pod := f, index := index }
  | _, Call.port_get_info n _ _ => { res := 0, flags := if n = 2 then flags_in else flags_out }
  | _, Call.calloc _ _ => { ptr := 4096 }
  | _, Call.pw_memblock_alloc _ _ => { res := 0, ptr := 8192 }
  | _, Call.port_use_buffers n _ _ _ _ => { res := if n = 2 then handoff_in else handoff_out }
  | _, Call.port_alloc_buffers n _ _ _ _ _ c =>
    { res := if n = 2 then handoff_in else handoff_out, count := c }
  | _, Call.send_command n _ => { res := if n = 1 then cmd_client else 0 }
  | _, Call.process _ => { res := 3 }
  | _, Call.get_n_ports _ =>
    { res := 0, n_input_ports := 5, max_input_ports := 6, n_output_ports := 7,
      max_output_ports := 8 }
  | _, _ => { }

/-- A sample world around a reply function and a parser for the fixated buffer
parameters.  The layout planner asks for a 16-byte header and 24 bytes per
block in the skeleton, 16 bytes of chunk per block and the sum of the block
sizes as data. -/
def sampleWorld (reply : List Call → Call → Reply)
    (parse : Option Pod → Option BufferParams) : World :=
  { reply := reply
    spa_pod_fixate := fun p => p
    spa_pod_object_parse := parse
    spa_buffer_alloc_fill_info := fun _ n_datas datas _ =>
      { skel_size := 16 + 24 * n_datas, meta_size := 0, chunk_size := 16 * n_datas,
        data_size := (datas.map (fun d => d.maxsize)).sum }
    SPA_PARAM_EnumFormat := 3
    SPA_PARAM_Format := 4
    SPA_PARAM_Buffers := 5
    SPA_IO_Buffers := 1
    SPA_IO_Range := 2
    SPA_STATUS_NEED_BUFFER := 1
    SPA_STATUS_HAVE_BUFFER := 2
    SPA_PORT_INFO_FLAG_CAN_ALLOC_BUFFERS := 4
    PW_MEMBLOCK_FLAG_WITH_FD := 1
    PW_MEMBLOCK_FLAG_MAP_READWRITE := 4
    PW_MEMBLOCK_FLAG_SEAL := 8
    sizeof_pointer := 8
    sizeof_spa_io_buffers := 8
    SPA_MEDIA_TYPE_audio := 1
    SPA_MEDIA_TYPE_video := 2
    SPA_MEDIA_SUBTYPE_raw := 1 }

/-- A parser that reads `buffers` buffers of one block of 1024 bytes, aligned
to 16, from every non-`NULL` object, and fails on `NULL`. -/
def sampleParse (buffers : Int) : Option Pod → Option BufferParams
  | some _ => some { buffers := buffers, blocks := 1, size := 1024, align := 16 }
  | none => none

/-- A sample adapter in converter mode for an input client: client node `1`,
converter `2` (adapter and adapter mix), client port mix `3`, IO areas at `100`
(client side) and `200` (adapter side), no pool. -/
def sampleConverter : State :=
  { impl :=
      { direction := SPA_DIRECTION_INPUT, cnode := 1, adapter := 2, adapter_mix := 2,
        use_converter := true, client_port := { mix := 3 },
        client_port_mix := { io := 100 }, io := 200,
        range := { offset := 0, min_size := 0, max_size := 0 },
        buffers := 0, n_buffers := 0, mem := 0 }
    range_addr := 300
    io_mem := fun p => if p = 100 then { status := 2, buffer_id := 5 }
      else { status := 1, buffer_id := 9 }
    driver := false
    quantum_size := 1024
    trace := [] }

/-- A sample adapter in pass-through mode for an output client: the client
node `1` is the adapter, the client port's mix `3` the adapter mix. -/
def samplePassThrough : State :=
  { sampleConverter with
    impl := { sampleConverter.impl with
      direction := SPA_DIRECTION_OUTPUT, adapter := 1, adapter_mix := 3,
      use_converter := false } }

/-- The unfiltered enumeration of parameter `id` on a port, continued from
index `index` after the calls `tr`, answers `<= 0` (end of the list, or an
error) at one of its first `n` calls.  This is a property of the port: it is
what makes the loop of `debug_params` stop. -/
def enum_ends (W : World) (node : Ptr) (direction : spa_direction) (port_id : Nat)
    (id : Nat) : Nat → List Call → Nat → Bool
  | 0, _, _ => false
  | n + 1, tr, index =>
    decide ((W.reply tr (Call.port_enum_params node direction port_id id index none)).res ≤ 0)
      || enum_ends W node direction port_id id n
          (tr ++ [Call.port_enum_params node direction port_id id index none])
          (W.reply tr (Call.port_enum_params node direction port_id id index none)).index

/-- The first call of `negotiate_format`: the format enumeration on the
adapter mix port of the reverse direction, without a filter. -/
def format_enum_graph (W : World) (s : State) : Call :=
  Call.port_enum_params s.impl.adapter_mix (SPA_DIRECTION_REVERSE s.impl.direction) 0
    W.SPA_PARAM_EnumFormat 0 none

/-- The second call of `negotiate_format`: the format enumeration on the
client node's port, filtered by what the first call stored. -/
def format_enum_client (W : World) (s : State) : Call :=
  Call.port_enum_params s.impl.cnode s.impl.direction 0 W.SPA_PARAM_EnumFormat 0
    (W.reply s.trace (format_enum_graph W s)).pod

/-- Sample collaborators with no common format: an enumeration with a filter
finds nothing (`0`), an enumeration without a filter lists one object (pod
`7`) and then ends.  Every other call returns `0`. -/
def noIntersectionReply : List Call → Call → Reply
  | _, Call.port_enum_params _ _ _ _ index f =>
    match f with
    | some q => { res := 0, pod := some q, index := index }
    | none =>
      if index = 0 then { res := 1, pod := some 7, index := 1 }
      else { res := 0, pod := none, index := index }
  | _, _ => { }

/-- The first call of `negotiate_buffers`: the buffer-requirement enumeration
on the adapter mix port of the reverse direction (the graph-facing port). -/
def buffers_enum_graph (W : World) (s : State) : Call :=
  Call.port_enum_params s.impl.adapter_mix (SPA_DIRECTION_REVERSE s.impl.direction) 0
    W.SPA_PARAM_Buffers 0 none

/-- The second call of `negotiate_buffers`: the buffer-requirement enumeration
on the client node's port (the client-facing port), filtered by what the first
call stored. -/
def buffers_enum_client (W : World) (s : State) : Call :=
  Call.port_enum_params s.impl.cnode s.impl.direction 0 W.SPA_PARAM_Buffers 0
    (if (W.reply s.trace (buffers_enum_graph W s)).res = 0 then none
      else (W.reply s.trace (buffers_enum_graph W s)).pod)

/-- The third call of `negotiate_buffers`: the port info of the client node's
port. -/
def info_client (s : State) : Call :=
  Call.port_get_info s.impl.cnode s.impl.direction 0

/-- The fourth call of `negotiate_buffers`: the port info of the adapter mix
port of the reverse direction. -/
def info_graph (s : State) : Call :=
  Call.port_get_info s.impl.adapter_mix (SPA_DIRECTION_REVERSE s.impl.direction) 0

/-- The four calls of a first stretch of `negotiate_buffers` that does not
return early, in order. -/
def query_calls (W : World) (s : State) : List Call :=
  [buffers_enum_graph W s, buffers_enum_client W s, info_client s, info_graph s]

/-- The fixated parameter object a first stretch of `negotiate_buffers` that
does not return early hands on. -/
def query_param (W : World) (s : State) : Option Pod :=
  W.spa_pod_fixate
    (W.reply (s.trace ++ [buffers_enum_graph W s]) (buffers_enum_client W s)).pod

/-- Whether the client-facing port declares `CAN_ALLOC_BUFFERS` in the port
info that `negotiate_buffers` reads. -/
def client_declares_alloc (W : World) (s : State) : Bool :=
  SPA_FLAG_CHECK
    (W.reply (s.trace ++ [buffers_enum_graph W s, buffers_enum_client W s])
      (info_client s)).flags
    W.SPA_PORT_INFO_FLAG_CAN_ALLOC_BUFFERS

/-- Whether the graph-facing port declares `CAN_ALLOC_BUFFERS` in the port
info that `negotiate_buffers` reads. -/
def graph_declares_alloc (W : World) (s : State) : Bool :=
  SPA_FLAG_CHECK
    (W.reply (s.trace ++ [buffers_enum_graph W s, buffers_enum_client W s, info_client s])
      (info_graph s)).flags
    W.SPA_PORT_INFO_FLAG_CAN_ALLOC_BUFFERS

/-- A hand-off of the pool to a port: the self-allocate call when `alloc`
holds, the supply call otherwise. -/
def handoff_call (alloc : Bool) (node : Ptr) (direction : spa_direction)
    (buffers : Ptr) (n_buffers : Nat) : Call :=
  if alloc then Call.port_alloc_buffers node direction 0 0 0 buffers n_buffers
  else Call.port_use_buffers node direction 0 buffers n_buffers

/-- The value of `impl->n_buffers` after a hand-off call made after the calls
`tr`: a self-allocate call stores the count through the pointer it is given,
a supply call leaves `n_buffers` alone. -/
def count_after (W : World) (tr : List Call) (c : Call) (n_buffers : Nat) : Nat :=
  if c.is_alloc_buffers then (W.reply tr c).count else n_buffers

/-- Whether a call is one of the two allocation calls, `calloc` or
`pw_memblock_alloc`. -/
def Call.is_allocation : Call → Bool
  | Call.calloc _ _ => true
  | Call.pw_memblock_alloc _ _ => true
  | _ => false

/-- The hand-off call to the graph-facing port in a run of `negotiate_buffers`
entered in state `s` that reaches the hand-off in state `s2`: self-allocation
when that port declares it and the client-facing port does not. -/
def handoff_graph (W : World) (s s2 : State) : Call :=
  handoff_call (graph_declares_alloc W s && !client_declares_alloc W s)
    s.impl.adapter_mix (SPA_DIRECTION_REVERSE s.impl.direction)
    s2.impl.buffers s2.impl.n_buffers

/-- The hand-off call to the client-facing port in a run of
`negotiate_buffers` entered in state `s` that reaches the hand-off in state
`s2`: self-allocation when that port declares it. -/
def handoff_client (W : World) (s s2 : State) : Call :=
  handoff_call (client_declares_alloc W s)
    s.impl.client_port.mix s.impl.direction
    s2.impl.buffers (count_after W s2.trace (handoff_graph W s s2) s2.impl.n_buffers)

/-- The calls of a run that are allocation calls, in order. -/
def allocations (tr : List Call) : List Call := tr.filter Call.is_allocation

/-- The hand-off calls of a run, in order: the `port_alloc_buffers` and
`port_use_buffers` calls of its trace. -/
def handoffs (tr : List Call) : List Call :=
  tr.filter (fun c => c.is_alloc_buffers || c.is_use_buffers)

/-- The layout sizes `negotiate_buffers` works with for the parsed parameters
`p`: what the planner computes for `p.blocks` blocks of `p.size` bytes, with
the skeleton size rounded up to 16. -/
def alloc_info (W : World) (p : BufferParams) : spa_buffer_alloc_info :=
  { W.spa_buffer_alloc_fill_info 0 (toU32 p.blocks)
      (List.replicate p.blocks.toNat ({ maxsize := toU32 p.size } : spa_data))
      (List.replicate p.blocks.toNat (toU32 p.align)) with
    skel_size := SPA_ROUND_UP_N (W.spa_buffer_alloc_fill_info 0 (toU32 p.blocks)
      (List.replicate p.blocks.toNat ({ maxsize := toU32 p.size } : spa_data))
      (List.replicate p.blocks.toNat (toU32 p.align))).skel_size 16 }

/-- The `calloc` call of `negotiate_buffers` for the parsed parameters `p`. -/
def calloc_call (W : World) (p : BufferParams) : Call :=
  Call.calloc (toSizeT p.buffers) (W.sizeof_pointer + (alloc_info W p).skel_size)

/-- The local `data_size` of `negotiate_buffers`, a `uint32_t`: the planner's
meta, chunk and data sizes of one buffer, added up. -/
def buffer_data_size (W : World) (p : BufferParams) : Nat :=
  ((alloc_info W p).meta_size + (alloc_info W p).chunk_size + (alloc_info W p).data_size)
    % 4294967296

/-- The number of bytes `negotiate_buffers` asks the shared-memory allocator
for: `buffers * data_size`, a product of an `int32_t` and a `uint32_t`
evaluated in 32 bits. -/
def memblock_request (W : World) (p : BufferParams) : Nat :=
  toU32 p.buffers * buffer_data_size W p % 4294967296

/-- The `pw_memblock_alloc` call of `negotiate_buffers` for the parsed
parameters `p`. -/
def memblock_call (W : World) (p : BufferParams) : Call :=
  Call.pw_memblock_alloc
    (W.PW_MEMBLOCK_FLAG_WITH_FD ||| W.PW_MEMBLOCK_FLAG_MAP_READWRITE |||
      W.PW_MEMBLOCK_FLAG_SEAL)
    (memblock_request W p)

/-- The trace at the `calloc` call of an allocation stretch entered in state
`s`: the old buffer array, if any, has been freed. -/
def trace_at_calloc (s : State) : List Call :=
  s.trace ++ (if s.impl.buffers ≠ 0 then [Call.free s.impl.buffers] else [])

/-- The trace at the `pw_memblock_alloc` call of an allocation stretch entered
in state `s`: after the `calloc` call the old memory block, if any, has been
released. -/
def trace_at_memblock (W : World) (s : State) (p : BufferParams) : List Call :=
  trace_at_calloc s ++ [calloc_call W p] ++
    (if s.impl.mem ≠ 0 then [Call.pw_memblock_free s.impl.mem] else [])

/-- Sample collaborators whose C allocator is exhausted: `calloc` returns
`NULL`; every other call is answered as by `sampleReply 0 0 0 0 0`. -/
def callocFailsReply : List Call → Call → Reply
  | _, Call.calloc _ _ => { ptr := 0 }
  | tr, c => sampleReply 0 0 0 0 0 tr c

/-- The `spa_buffer_alloc_layout_array` call of an allocation stretch entered
in state `s`, for the parsed parameters `p`. -/
def layout_call (W : World) (s : State) (p : BufferParams) : Call :=
  Call.spa_buffer_alloc_layout_array (alloc_info W p) (toU32 p.buffers)
    (W.reply (trace_at_calloc s) (calloc_call W p)).ptr
    ((W.reply (trace_at_calloc s) (calloc_call W p)).ptr +
      W.sizeof_pointer * toSizeT p.buffers)
    (W.reply (trace_at_memblock W s p) (memblock_call W p)).ptr

/-- A parser that reads 64 buffers of one block of 64 MiB, aligned to 16, from
every non-`NULL` object. -/
def largeParse : Option Pod → Option BufferParams
  | some _ => some { buffers := 64, blocks := 1, size := 67108864, align := 16 }
  | none => none

/-- Sample collaborators whose client-facing port has no buffer requirement
that fits a filter: an enumeration with a filter returns `0` and leaves the
result pointer on the filter; every other call is answered as by
`sampleReply 0 0 0 0 0`. -/
def clientNoBuffersReply : List Call → Call → Reply
  | _, Call.port_enum_params _ _ _ _ index (some f) =>
    { res := 0, pod := some f, index := index }
  | tr, c => sampleReply 0 0 0 0 0 tr c

/-- Sample collaborators whose client node fails every enumeration with
`-22`; every other call is answered as by `sampleReply 0 0 0 0 0`. -/
def clientEnumFailsReply : List Call → Call → Reply
  | tr, Call.port_enum_params n d p i index f =>
    if n = 1 then { res := -22, pod := f, index := index }
    else sampleReply 0 0 0 0 0 tr (Call.port_enum_params n d p i index f)
  | tr, c => sampleReply 0 0 0 0 0 tr c

/-- The fixated format `negotiate_format` commits: the result of the
client-facing enumeration, fixated. -/
def format_fixated (W : World) (s : State) : Option Pod :=
  W.spa_pod_fixate
    (W.reply (s.trace ++ [format_enum_graph W s]) (format_enum_client W s)).pod

/-- The third call of `negotiate_format`: the set-format commit on the adapter
mix port of the reverse direction (the graph-facing port). -/
def format_commit_graph (W : World) (s : State) : Call :=
  Call.port_set_param s.impl.adapter_mix (SPA_DIRECTION_REVERSE s.impl.direction) 0
    W.SPA_PARAM_Format 0 (format_fixated W s)

/-- The fourth call of `negotiate_format`: the set-format commit on the client
node's port (the client-facing port). -/
def format_commit_client (W : World) (s : State) : Call :=
  Call.port_set_param s.impl.cnode s.impl.direction 0 W.SPA_PARAM_Format 0
    (format_fixated W s)

/-- Modelled from the spec: a port holds the format of the last set-format
call it accepted (a `port_set_param` of the Format parameter on port `0` that
returned `>= 0`).  The function replays the calls `new`, made after the calls
`pre`, from the format `cur` the port held before: `none` is no format,
`some f` the committed format `f`. -/
def port_format (W : World) (node : Ptr) (direction : spa_direction) :
    List Call → List Call → Option Pod → Option Pod
  | _, [], cur => cur
  | pre, c :: rest, cur =>
    port_format W node direction (pre ++ [c]) rest
      (match c with
        | Call.port_set_param n d p id _ param =>
          if n = node ∧ d = direction ∧ p = 0 ∧ id = W.SPA_PARAM_Format ∧
              0 ≤ (W.reply pre c).res then param else cur
        | _ => cur)

/-- Sample collaborators whose client node rejects every `port_set_param` with
`-22`; every other call is answered as by `sampleReply 0 0 0 0 0`. -/
def clientRejectsFormatReply : List Call → Call → Reply
  | _, Call.port_set_param n _ _ _ _ _ => { res := if n = 1 then -22 else 0 }
  | tr, c => sampleReply 0 0 0 0 0 tr c

/-- The state after the call `c` has been made and recorded. -/
def State.after (s : State) (c : Call) : State :=
  { s with trace := s.trace ++ [c] }

/-- The call `impl_node_port_set_param` forwards first when it is given the
Format parameter and the adapter's own direction. -/
def set_format_forward (W : World) (s : State) (port_id flags : Nat)
    (param : Option Pod) : Call :=
  Call.port_set_param s.impl.adapter_mix s.impl.direction port_id W.SPA_PARAM_Format
    flags param

/-- The call by which `impl_node_port_set_param` clears the format on the
adapter mix port of the reverse direction. -/
def set_format_clear (W : World) (s : State) : Call :=
  Call.port_set_param s.impl.adapter_mix (SPA_DIRECTION_REVERSE s.impl.direction) 0
    W.SPA_PARAM_Format 0 none

/-- The sample converter adapter with a pool of four buffers in place: the
array at `4096`, the memory block `8192`. -/
def samplePool : State :=
  { sampleConverter with
    impl := { sampleConverter.impl with buffers := 4096, n_buffers := 4, mem := 8192 } }

/-- Sample collaborators whose graph-facing port (node `2`) fails every
enumeration with `-22` and whose adapter object fails `get_n_ports` with `-5`;
every other call is answered as by `sampleReply 0 0 0 0 0`. -/
def graphEnumFailsReply : List Call → Call → Reply
  | tr, Call.port_enum_params n d p i index f =>
    if n = 2 then { res := -22, pod := f, index := index }
    else sampleReply 0 0 0 0 0 tr (Call.port_enum_params n d p i index f)
  | _, Call.get_n_ports _ => { res := -5 }
  | tr, c => sampleReply 0 0 0 0 0 tr c

/-- The format negotiation as the specification words it: feed each
candidate of the graph-facing port, most preferred first, to the client's
filter and take the first non-empty intersection; `none` when no candidate
intersects. -/
def spec_negotiate_format (cands : List Pod) (inter : Pod → Option Pod) : Option Pod :=
  cands.findSome? inter

/-- Collaborators given by lists: the graph-facing port (node `graph`)
enumerates the candidates `cands` in order, one per index; the client-facing
port (node `client`) answers an enumeration with the filter `c` by the
intersection `inter c` at index `0` (`0` results when the intersection is
empty) and an enumeration without a filter by its own list `own`.  Every
other call returns `0`. -/
def listReply (graph client : Ptr) (cands : List Pod) (inter : Pod → Option Pod)
    (own : List Pod) : List Call → Call → Reply
  | _, Call.port_enum_params n _ _ _ index f =>
    if n = client then
      match f with
      | some c =>
        if index = 0 then
          match inter c with
          | some r => { res := 1, pod := some r, index := 1 }
          | none => { res := 0, pod := some c, index := index }
        else { res := 0, pod := some c, index := index }
      | none =>
        match own[index]? with
        | some o => { res := 1, pod := some o, index := index + 1 }
        | none => { res := 0, pod := none, index := index }
    else if n = graph then
      match cands[index]? with
      | some c => { res := 1, pod := some c, index := index + 1 }
      | none => { res := 0, pod := none, index := index }
    else { }
  | _, _ => { }

/-- The world of the list collaborators, with `fix` as `spa_pod_fixate`. -/
def listWorld (graph client : Ptr) (cands : List Pod) (inter : Pod → Option Pod)
    (own : List Pod) (fix : Option Pod → Option Pod) : World :=
  { sampleWorld (listReply graph client cands inter own) (fun _ => none) with
    spa_pod_fixate := fix }

/-! ## Teardown -/

/-- The state the teardown functions run in: the adapter's state, the address
of its `struct impl`, whether each of the two listener hooks is still attached
(`node_listener` to the adapter's node, `client_node_listener` to the client
node), and how often `cleanup` has run. -/
structure Teardown where
  st : State
  impl_addr : Ptr
  node_listener : Bool
  client_node_listener : Bool
  cleanups : Nat

/-- Record a call that returns nothing. -/
def Teardown.record (t : Teardown) (c : Call) : Teardown :=
  { t with st := t.st.after c }

/-- Modelled from the spec: destroying a node emits its destroy event, and the
event runs the handler of a listener hook only while the hook is attached; a
hook that was removed first is not called. -/
def emit_destroy (attached : Bool) (handler : Teardown → Option Teardown)
    (t : Teardown) : Option Teardown :=
  if attached then handler t else some t

/-- The C function `cleanup` (client-stream.c:959). -/
def cleanup (t : Teardown) : Teardown :=
  let t1 := if t.st.impl.use_converter = true ∧ t.st.impl.adapter ≠ 0 then
      t.record (Call.pw_unload_spa_interface t.st.impl.adapter)
    else t
  let t2 := if t1.st.impl.buffers ≠ 0 then t1.record (Call.free t1.st.impl.buffers) else t1
  let t3 : Teardown := if t2.st.impl.mem ≠ 0 then
      { (t2.record (Call.pw_memblock_free t2.st.impl.mem)) with
        st := { (t2.record (Call.pw_memblock_free t2.st.impl.mem)).st with impl.mem := 0 } }
    else t2
  { (t3.record (Call.free t3.impl_addr)) with cleanups := t3.cleanups + 1 }

/-- The C function `client_node_destroy` (client-stream.c:975), the handler of
the client node's destroy event.  `on_node_destroy` is what the destroy event
of the adapter's node runs on hooks still attached. -/
def client_node_destroy (on_node_destroy : Teardown → Option Teardown)
    (t : Teardown) : Option Teardown :=
  let t1 := t.record Call.pw_node_set_driver
  let t2 : Teardown := { t1 with client_node_listener := false }
  let t3 : Teardown := { t2 with node_listener := false }
  let t4 := t3.record Call.pw_node_destroy
  (emit_destroy t4.node_listener on_node_destroy t4).map cleanup

/-- The C function `node_destroy` (client-stream.c:1013), the handler of the
adapter node's destroy event.  `on_client_destroy` is what the destroy event
of the client node runs on hooks still attached. -/
def node_destroy (on_client_destroy : Teardown → Option Teardown)
    (t : Teardown) : Option Teardown :=
  let t1 : Teardown := { t with node_listener := false }
  let t2 : Teardown := { t1 with client_node_listener := false }
  let t3 := t2.record Call.pw_client_node_destroy
  (emit_destroy t3.client_node_listener on_client_destroy t3).map cleanup

/-- The two destroy handlers, each with the other as what a destroy event may
run, nested `fuel` deep: the first component is `client_node_destroy`, the
second `node_destroy`. -/
def destroy_handlers :
    Nat → (Teardown → Option Teardown) × (Teardown → Option Teardown)
  | 0 => (fun _ => none, fun _ => none)
  | fuel + 1 =>
    (client_node_destroy (destroy_handlers fuel).2,
      node_destroy (destroy_handlers fuel).1)

/-- The C function `pw_client_stream_destroy` (client-stream.c:1123): destroy
the client node, whose destroy event runs `client_node_destroy` if its hook is
attached. -/
def pw_client_stream_destroy (fuel : Nat) (t : Teardown) : Option Teardown :=
  let t1 := t.record Call.pw_client_node_destroy
  emit_destroy t1.client_node_listener (destroy_handlers fuel).1 t1

/-- The calls of `cleanup` on the adapter state `s` whose `struct impl` is at
`impl_addr`, in order. -/
def cleanup_calls (s : State) (impl_addr : Ptr) : List Call :=
  (if s.impl.use_converter = true ∧ s.impl.adapter ≠ 0 then
      [Call.pw_unload_spa_interface s.impl.adapter] else []) ++
    (if s.impl.buffers ≠ 0 then [Call.free s.impl.buffers] else []) ++
    (if s.impl.mem ≠ 0 then [Call.pw_memblock_free s.impl.mem] else []) ++
    [Call.free impl_addr]

/-- The sample converter adapter with its pool, both hooks attached, its
`struct impl` at address `500`, before any teardown. -/
def sampleTeardown : Teardown :=
  { st := samplePool, impl_addr := 500, node_listener := true,
    client_node_listener := true, cleanups := 0 }

/-- The sample input-side adapter before an adapter object is selected:
`impl->adapter` is still `NULL`. -/
def sampleNoAdapter : State :=
  { sampleConverter with
    impl := { sampleConverter.impl with
      adapter := 0, adapter_mix := 0, use_converter := false } }

/-- Sample collaborators whose nodes have one input and one output port, both
with id `0`: `get_port_ids` writes `[0]` into either array.  Every other call
is answered as by `sampleReply 0 0 0 0 0`. -/
def bothIdsReply : List Call → Call → Reply
  | _, Call.get_port_ids _ _ _ => { res := 0, input_ids := [0], output_ids := [0] }
  | tr, c => sampleReply 0 0 0 0 0 tr c

/-- The backing blocks an adapter whose `impl->mem` is `m` holds: none for
`NULL`, else the one block. -/
def held (m : Ptr) : List Ptr := if m ≠ 0 then [m] else []

/-- Whether a call is one of the two calls on the shared-memory allocator. -/
def Call.is_memblock : Call → Bool
  | Call.pw_memblock_alloc _ _ => true
  | Call.pw_memblock_free _ => true
  | _ => false

/-- The effect of the call `c`, made after the trace `pre`, on the list of live
backing blocks: `pw_memblock_free` retires the block it is given, a
`pw_memblock_alloc` that does not fail adds the block it stored. -/
def block_step (W : World) (pre : List Call) (c : Call) (live : List Ptr) : List Ptr :=
  match c with
  | Call.pw_memblock_free m => live.erase m
  | Call.pw_memblock_alloc _ _ =>
    if (W.reply pre c).res < 0 then live else (W.reply pre c).ptr :: live
  | _ => live

/-- The backing blocks live after the calls `cs` were made on top of the trace
`pre`, `live` being those live before. -/
def live_blocks (W : World) : List Call → List Call → List Ptr → List Ptr
  | _, [], live => live
  | pre, c :: cs, live => live_blocks W (pre ++ [c]) cs (block_step W pre c live)

/-- The largest number of backing blocks live at any time while the calls `cs`
were made on top of the trace `pre`, `live` being those live before. -/
def peak_blocks (W : World) : List Call → List Call → List Ptr → Nat
  | _, [], live => live.length
  | pre, c :: cs, live =>
    max live.length (peak_blocks W (pre ++ [c]) cs (block_step W pre c live))

/-- The calls of a run of `negotiate_buffers` that builds a pool, entered in
state `s` with the queries done in state `s1`, for the parsed parameters `p`:
the four queries, the release of the old array, `calloc`, and unless `calloc`
returned `NULL` the release of the old block, `pw_memblock_alloc` and the calls
`tail` that follow. -/
def rebuild_calls (W : World) (s s1 : State) (p : BufferParams) (tail : List Call) :
    List Call :=
  query_calls W s ++ (if s.impl.buffers ≠ 0 then [Call.free s.impl.buffers] else []) ++
    [calloc_call W p] ++
    (if (W.reply (trace_at_calloc s1) (calloc_call W p)).ptr = 0 then []
     else (if s.impl.mem ≠ 0 then [Call.pw_memblock_free s.impl.mem] else []) ++
       memblock_call W p :: tail)

/-- The sample converter adapter with count `0` but still holding the array
`4096` and the memory block `8192` of an earlier pool: the state after a format
was cleared. -/
def sampleStalePool : State :=
  { sampleConverter with impl.buffers := 4096, impl.mem := 8192 }

/-! ## Bring-up: `client_node_initialized` and `try_link_controls` -/

/-- How a stretch of a `void` function ends: `stop` when the function has
returned, `go` when it goes on, with the locals the rest reads. -/
inductive Flow (α : Type) where
  | stop (s : State)
  | go (a : α) (s : State)

/-- The C function `try_link_controls` (client-stream.c:554): two nested list
walks, each attempt one `pw_control_link (cout, cin)`; a negative result is
logged and nothing else. -/
def try_link_controls (W : World) (s : State) (port target : pw_port) : State :=
  let s1 := port.control_list_output.foldl (fun st cout =>
    target.control_list_input.foldl (fun st2 cin =>
      (call W st2 (Call.pw_control_link cout cin)).2) st) s
  port.control_list_input.foldl (fun st cin =>
    target.control_list_output.foldl (fun st2 cout =>
      (call W st2 (Call.pw_control_link cout cin)).2) st) s1

/-- Lines 838 to 876 of `client_node_initialized`: find the client node, its
direction, its `exclusive` property and its port, and attach the IO area.  The
stretch hands on `exclusive`.  A `NULL` `impl->client_port` is kept as the port
with mix `0` and no controls; the function returns at once on it.  The
assignment to the client node's `rt.driver` touches nothing the adapter reads
and is left out. -/
def client_node_initialized_setup (W : World) (s : State) : Flow Bool :=
  let a := call W s Call.pw_node_get_implementation
  let s1 : State := { a.2 with impl.cnode := a.1.ptr }
  let b := call W s1 (Call.get_n_ports s1.impl.cnode)
  if b.1.res < 0 then Flow.stop b.2
  else
    let s2 : State := { b.2 with
      impl.direction := if b.1.n_input_ports > 0 then SPA_DIRECTION_INPUT
        else SPA_DIRECTION_OUTPUT }
    let pr := call W s2 Call.pw_node_get_properties
    let ex : Bool × State :=
      if pr.1.ptr ≠ 0 then
        let g := call W pr.2 (Call.pw_properties_get pr.1.ptr)
        if g.1.ptr ≠ 0 then
          let pb := call W g.2 (Call.pw_properties_parse_bool g.1.ptr)
          (pb.1.flag, pb.2)
        else (false, g.2)
      else (false, pr.2)
    let f := call W ex.2
      (Call.pw_node_find_port pw_node_ref.client_node ex.2.impl.direction 0)
    match f.1.port with
    | none => Flow.stop { f.2 with impl.client_port := { mix := 0 } }
    | some port =>
      let s3 : State := { f.2 with impl.client_port := port }
      let m := call W s3 (Call.pw_port_init_mix s3.impl.client_port)
      let s4 : State := { m.2 with impl.client_port_mix := { io := m.1.ptr } }
      if m.1.res < 0 then Flow.stop s4
      else
        let i := call W s4 (Call.port_set_io s4.impl.client_port.mix s4.impl.direction 0
          W.SPA_IO_Buffers s4.impl.client_port_mix.io W.sizeof_pointer)
        if i.1.res < 0 then Flow.stop i.2 else Flow.go ex.1 i.2

/-- Lines 878 to 913 of `client_node_initialized`: ask the client node for its
first format and select the adapter.  The stretch hands on `media_type`. -/
def client_node_initialized_select (W : World) (s : State) (exclusive : Bool) : Flow Nat :=
  let e := call W s (Call.port_enum_params s.impl.cnode s.impl.direction 0
    W.SPA_PARAM_EnumFormat 0 none)
  if e.1.res ≤ 0 then
    Flow.stop { e.2 with
      impl.adapter := e.2.impl.cnode
      impl.adapter_mix := e.2.impl.client_port.mix
      impl.use_converter := false }
  else
    let f := call W e.2 (Call.spa_format_parse e.1.pod)
    if f.1.res < 0 then Flow.stop f.2
    else if exclusive = false ∧ f.1.media_type = W.SPA_MEDIA_TYPE_audio ∧
        f.1.media_subtype = W.SPA_MEDIA_SUBTYPE_raw then
      let l := call W f.2 Call.pw_load_spa_interface
      let s1 : State := { l.2 with impl.adapter := l.1.ptr }
      if s1.impl.adapter = 0 then Flow.stop s1
      else
        Flow.go f.1.media_type { s1 with
          impl.adapter_mix := s1.impl.adapter
          impl.use_converter := true }
    else
      Flow.go f.1.media_type { f.2 with
        impl.adapter := f.2.impl.cnode
        impl.adapter_mix := f.2.impl.client_port.mix
        impl.use_converter := false }

/-- Lines 915 to 956 of `client_node_initialized`: attach the IO area to the
converter, register the node, link the controls and activate the node. -/
def client_node_initialized_finish (W : World) (s : State) (media_type : Nat) : State :=
  let a : Flow Unit :=
    if s.impl.use_converter then
      let i := call W s (Call.port_set_io s.impl.adapter_mix
        (SPA_DIRECTION_REVERSE s.impl.direction) 0 W.SPA_IO_Buffers
        s.impl.client_port_mix.io W.sizeof_pointer)
      if i.1.res < 0 then Flow.stop i.2 else Flow.go () i.2
    else Flow.go () s
  match a with
  | Flow.stop s1 => s1
  | Flow.go _ s1 =>
    let type : media_class_type :=
      if media_type = W.SPA_MEDIA_TYPE_audio then media_class_type.Audio
      else if media_type = W.SPA_MEDIA_TYPE_video then media_class_type.Video
      else media_class_type.Generic
    let r := call W s1 (Call.pw_node_register s1.impl.direction type)
    let s2 : State :=
      if r.2.impl.use_converter then
        let p := call W r.2
          (Call.pw_node_find_port pw_node_ref.this_node r.2.impl.direction 0)
        match p.1.port with
        | some adapter_port => try_link_controls W p.2 p.2.impl.client_port adapter_port
        | none => p.2
      else r.2
    (call W s2 (Call.pw_node_set_active true)).2

/-- The C function `client_node_initialized` (client-stream.c:822): the three
stretches in order. -/
def client_node_initialized (W : World) (s : State) : State :=
  match client_node_initialized_setup W s with
  | Flow.stop s1 => s1
  | Flow.go exclusive s1 =>
    match client_node_initialized_select W s1 exclusive with
    | Flow.stop s2 => s2
    | Flow.go media_type s2 => client_node_initialized_finish W s2 media_type

/-- The link attempts between the ports `port` and `target` in the order the
claim lists them: one `pw_control_link (cout, cin)` for every output control
`cout` of `port` and input control `cin` of `target`, then one for every input
control `cin` of `port` and output control `cout` of `target`. -/
def spec_link_attempts (port target : pw_port) : List Call :=
  port.control_list_output.flatMap (fun cout =>
    target.control_list_input.map (fun cin => Call.pw_control_link cout cin)) ++
  port.control_list_input.flatMap (fun cin =>
    target.control_list_output.map (fun cout => Call.pw_control_link cout cin))

/-- The last component of the media class registered for `media_type`. -/
def stream_type (W : World) (media_type : Nat) : media_class_type :=
  if media_type = W.SPA_MEDIA_TYPE_audio then media_class_type.Audio
  else if media_type = W.SPA_MEDIA_TYPE_video then media_class_type.Video
  else media_class_type.Generic

/-- The call by which `client_node_initialized` attaches the IO area to the
converter. -/
def converter_set_io (W : World) (s : State) : Call :=
  Call.port_set_io s.impl.adapter_mix (SPA_DIRECTION_REVERSE s.impl.direction) 0
    W.SPA_IO_Buffers s.impl.client_port_mix.io W.sizeof_pointer

/-- The port `client_node_initialized` finds on the adapter's own node, looked
up after the IO area was attached and the node registered for `media_type`;
`none` for `NULL`. -/
def adapter_port (W : World) (s : State) (media_type : Nat) : Option pw_port :=
  (W.reply (s.trace ++ [converter_set_io W s,
      Call.pw_node_register s.impl.direction (stream_type W media_type)])
    (Call.pw_node_find_port pw_node_ref.this_node s.impl.direction 0)).port

/-- A sample client port, mix `3`, with one input control `30` and two output
controls `31` and `32`. -/
def sampleClientPort : pw_port :=
  { mix := 3, control_list_input := [30], control_list_output := [31, 32] }

/-- A sample adapter port, mix `4`, with two input controls `40` and `41` and
one output control `42`. -/
def sampleAdapterPort : pw_port :=
  { mix := 4, control_list_input := [40, 41], control_list_output := [42] }

/-- Sample collaborators for the bring-up.  The client node is node `1` with
one input port, `sampleClientPort`, whose mix gets the IO area `100`; it has no
properties; its first format is pod `7`, on which `spa_format_parse` returns
`parse` and stores the media type `media_type` and the subtype
`media_subtype`.  Loading the converter returns `converter`; the adapter's own
node has the port `sampleAdapterPort`; every `pw_control_link` returns `link`.
Every other call returns `0`. -/
def bringUpReply (parse : Int) (media_type media_subtype : Nat) (converter : Ptr)
    (link : Int) : List Call → Call → Reply
  | _, Call.pw_node_get_implementation => { ptr := 1 }
  | _, Call.get_n_ports _ => { res := 0, n_input_ports := 1, max_input_ports := 1 }
  | _, Call.pw_node_find_port pw_node_ref.client_node _ _ => { port := some sampleClientPort }
  | _, Call.pw_node_find_port pw_node_ref.this_node _ _ => { port := some sampleAdapterPort }
  | _, Call.pw_port_init_mix _ => { res := 0, ptr := 100 }
  | _, Call.port_enum_params _ _ _ _ _ _ => { res := 1, pod := some 7, index := 1 }
  | _, Call.spa_format_parse _ =>
    { res := parse, media_type := media_type, media_subtype := media_subtype }
  | _, Call.pw_load_spa_interface => { ptr := converter }
  | _, Call.pw_control_link _ _ => { res := link }
  | _, _ => { }

/-- The adapter as `pw_client_stream_new` leaves it: a zeroed `struct impl`. -/
def sampleFresh : State :=
  { impl :=
      { direction := SPA_DIRECTION_INPUT, cnode := 0, adapter := 0, adapter_mix := 0,
        use_converter := false, client_port := { mix := 0 },
        client_port_mix := { io := 0 }, io := 0,
        range := { offset := 0, min_size := 0, max_size := 0 },
        buffers := 0, n_buffers := 0, mem := 0 }
    range_addr := 300
    io_mem := fun _ => { status := 0, buffer_id := 0 }
    driver := false
    quantum_size := 1024
    trace := [] }

/-- The call by which `client_node_initialized` asks the client node for its
first format. -/
def first_format_call (W : World) (s : State) : Call :=
  Call.port_enum_params s.impl.cnode s.impl.direction 0 W.SPA_PARAM_EnumFormat 0 none

/-- The client node's answer to `first_format_call`. -/
def first_format (W : World) (s : State) : Reply :=
  W.reply s.trace (first_format_call W s)

/-- The `spa_format_parse` call of `client_node_initialized` and its answer. -/
def parsed_format (W : World) (s : State) : Reply :=
  W.reply (s.trace ++ [first_format_call W s])
    (Call.spa_format_parse (first_format W s).pod)

/-- The pointer `pw_load_spa_interface` returns when `client_node_initialized`
loads the converter. -/
def loaded_converter (W : World) (s : State) : Ptr :=
  (W.reply (s.trace ++ [first_format_call W s,
      Call.spa_format_parse (first_format W s).pod])
    Call.pw_load_spa_interface).ptr

/-- The condition under which `client_node_initialized` loads a converter: the
client is not exclusive and its first format is raw audio. -/
def wants_converter (W : World) (s : State) (exclusive : Bool) : Prop :=
  exclusive = false ∧ (parsed_format W s).media_type = W.SPA_MEDIA_TYPE_audio ∧
    (parsed_format W s).media_subtype = W.SPA_MEDIA_SUBTYPE_raw

instance (W : World) (s : State) (exclusive : Bool) :
    Decidable (wants_converter W s exclusive) := by
  unfold wants_converter
  exact inferInstance

/-- The fresh sample adapter after the first stretch of the bring-up: client
node `1`, client port `sampleClientPort`, IO area `100`. -/
def sampleSetUp : State :=
  { sampleFresh with
    impl := { sampleFresh.impl with
      cnode := 1, client_port := sampleClientPort, client_port_mix := { io := 100 } } }

/-- Whether a call releases or allocates a part of the pool: `free`, `calloc`,
`pw_memblock_free` or `pw_memblock_alloc`. -/
def Call.is_pool_call : Call → Bool
  | Call.free _ => true
  | Call.calloc _ _ => true
  | Call.pw_memblock_free _ => true
  | Call.pw_memblock_alloc _ _ => true
  | _ => false

/-- The client node's implementation as `client_node_initialized` gets it from
`pw_node_get_implementation`, its first call. -/
def setup_cnode (W : World) (s : State) : Ptr :=
  (W.reply s.trace Call.pw_node_get_implementation).ptr

/-- The trace of `client_node_initialized` when it asks for the client node's
properties. -/
def trace_at_properties (W : World) (s : State) : List Call :=
  s.trace ++ [Call.pw_node_get_implementation, Call.get_n_ports (setup_cnode W s)]

/-- The property set `pw_node_get_properties` returns for the client node;
`0` for `NULL`. -/
def client_props (W : World) (s : State) : Ptr :=
  (W.reply (trace_at_properties W s) Call.pw_node_get_properties).ptr

/-- The string `pw_properties_get` returns for `PW_NODE_PROP_EXCLUSIVE` in the
client node's properties; `0` for `NULL`. -/
def client_exclusive_str (W : World) (s : State) : Ptr :=
  (W.reply (trace_at_properties W s ++ [Call.pw_node_get_properties])
    (Call.pw_properties_get (client_props W s))).ptr

/-- Whether the client is exclusive: its node has properties, they hold
`PW_NODE_PROP_EXCLUSIVE`, and `pw_properties_parse_bool` reads the value as
true. -/
def client_exclusive (W : World) (s : State) : Bool :=
  decide (client_props W s ≠ 0) && decide (client_exclusive_str W s ≠ 0) &&
    (W.reply (trace_at_properties W s ++ [Call.pw_node_get_properties,
        Call.pw_properties_get (client_props W s)])
      (Call.pw_properties_parse_bool (client_exclusive_str W s))).flag

/-- The calls by which `client_node_initialized` reads the `exclusive`
property: the lookup in the property set only if there is one, the parse only
if the property is there. -/
def property_calls (W : World) (s : State) : List Call :=
  Call.pw_node_get_properties ::
    (if client_props W s ≠ 0 then
      Call.pw_properties_get (client_props W s) ::
        (if client_exclusive_str W s ≠ 0 then
          [Call.pw_properties_parse_bool (client_exclusive_str W s)]
         else [])
     else [])

/-- Sample collaborators for the bring-up of an exclusive client: the client
node has the property set `50`, which holds `PW_NODE_PROP_EXCLUSIVE` as the
string `51`, read as true.  Every other call is answered as by
`bringUpReply 0 1 1 2 0`: the client offers raw audio and the converter `2`
could be loaded. -/
def exclusiveReply : List Call → Call → Reply
  | _, Call.pw_node_get_properties => { ptr := 50 }
  | _, Call.pw_properties_get _ => { ptr := 51 }
  | _, Call.pw_properties_parse_bool _ => { flag := true }
  | tr, c => bringUpReply 0 1 1 2 0 tr c

end ClientStream

/-!
# The sample-format routines of `audioconvert` (fmt-ops.c)

The conversion table `conv_table` with its lookup `find_conv_info`, the
interleave and deinterleave routines, and `conv_f32_to_s24`.  The routines
walk arrays through pointers; here an array is a function from the index to
the cell, a table of channel pointers a function from the slot to the array,
and a pointer that the routine moves is kept as its distance from where it
started.  Sizes and counts are natural numbers: the routines are given
non-negative `int`s.
-/

namespace FmtOps

/-- The members of `struct spa_type_audio_format` that `conv_table` refers to
by `offsetof`. -/
inductive audio_format_member where
  | U8
  | S16
  | S24
  | S24_32
  | S32
  | F32
  deriving DecidableEq

/-- A `struct spa_type_audio_format` as far as the table reads it: the format
id stored in each of the six members. -/
abbrev spa_type_audio_format := audio_format_member → Nat

/-- The conversion routines named in `conv_table`. -/
inductive convert_func where
  | conv_copy
  | conv_u8_to_f32 | conv_u8_to_f32d | conv_u8d_to_f32
  | conv_s16_to_f32 | conv_s16_to_f32d | conv_s16d_to_f32
  | conv_s32_to_f32 | conv_s32_to_f32d | conv_s32d_to_f32
  | conv_s24_to_f32 | conv_s24_to_f32d | conv_s24d_to_f32
  | conv_s24_32_to_f32 | conv_s24_32_to_f32d | conv_s24_32d_to_f32
  | conv_f32_to_u8 | conv_f32_to_u8d | conv_f32d_to_u8
  | conv_f32_to_s16 | conv_f32_to_s16d | conv_f32d_to_s16
  | conv_f32_to_s32 | conv_f32_to_s32d | conv_f32d_to_s32
  | conv_f32_to_s24 | conv_f32_to_s24d | conv_f32d_to_s24
  | conv_f32_to_s24_32 | conv_f32_to_s24_32d | conv_f32d_to_s24_32
  | deinterleave_8 | deinterleave_16 | deinterleave_24 | deinterleave_32
  | interleave_8 | interleave_16 | interleave_24 | interleave_32
  deriving DecidableEq

/-- The C `struct conv_info`: the two member offsets and the three routines
(interleaved to interleaved, interleaved to planar, planar to interleaved). -/
structure conv_info where
  src_fmt : audio_format_member
  dst_fmt : audio_format_member
  i2i : convert_func
  i2d : convert_func
  d2i : convert_func
  deriving DecidableEq

/-- The C array `conv_table` (fmt-ops.c:662). -/
def conv_table : List conv_info :=
  [ ⟨.U8, .F32, .conv_u8_to_f32, .conv_u8_to_f32d, .conv_u8d_to_f32⟩,
    ⟨.S16, .F32, .conv_s16_to_f32, .conv_s16_to_f32d, .conv_s16d_to_f32⟩,
    ⟨.F32, .F32, .conv_copy, .deinterleave_32, .interleave_32⟩,
    ⟨.S32, .F32, .conv_s32_to_f32, .conv_s32_to_f32d, .conv_s32d_to_f32⟩,
    ⟨.S24, .F32, .conv_s24_to_f32, .conv_s24_to_f32d, .conv_s24d_to_f32⟩,
    ⟨.S24_32, .F32, .conv_s24_32_to_f32, .conv_s24_32_to_f32d, .conv_s24_32d_to_f32⟩,
    ⟨.F32, .U8, .conv_f32_to_u8, .conv_f32_to_u8d, .conv_f32d_to_u8⟩,
    ⟨.F32, .S16, .conv_f32_to_s16, .conv_f32_to_s16d, .conv_f32d_to_s16⟩,
    ⟨.F32, .S32, .conv_f32_to_s32, .conv_f32_to_s32d, .conv_f32d_to_s32⟩,
    ⟨.F32, .S24, .conv_f32_to_s24, .conv_f32_to_s24d, .conv_f32d_to_s24⟩,
    ⟨.F32, .S24_32, .conv_f32_to_s24_32, .conv_f32_to_s24_32d, .conv_f32d_to_s24_32⟩,
    ⟨.U8, .U8, .conv_copy, .deinterleave_8, .interleave_8⟩,
    ⟨.S16, .S16, .conv_copy, .deinterleave_16, .interleave_16⟩,
    ⟨.S32, .S32, .conv_copy, .deinterleave_32, .interleave_32⟩,
    ⟨.S24, .S24, .conv_copy, .deinterleave_24, .interleave_24⟩,
    ⟨.S24_32, .S24_32, .conv_copy, .deinterleave_32, .interleave_32⟩ ]

/-- The loop of `find_conv_info` over the entries not yet looked at. -/
def find_conv_info_loop (audio_format : spa_type_audio_format) (src_fmt dst_fmt : Nat) :
    List conv_info → Option conv_info
  | [] => none
  | e :: rest =>
    if audio_format e.src_fmt = src_fmt ∧ audio_format e.dst_fmt = dst_fmt then some e
    else find_conv_info_loop audio_format src_fmt dst_fmt rest

/-- The C function `find_conv_info` (fmt-ops.c:734); `none` is `NULL`. -/
def find_conv_info (audio_format : spa_type_audio_format) (src_fmt dst_fmt : Nat) :
    Option conv_info :=
  find_conv_info_loop audio_format src_fmt dst_fmt conv_table

/-- Sample format ids: the six members hold `1` to `6`. -/
def sampleAudioFormat : spa_type_audio_format
  | .U8 => 1
  | .S16 => 2
  | .S24 => 3
  | .S24_32 => 4
  | .S32 => 5
  | .F32 => 6

/-! ## The interleave and deinterleave routines

A sample array is a function from the index to the cell's bit pattern, read as
an unsigned number; a table of channel pointers is a function from the slot in
the table to the array that slot points to. -/

/-- The C loop `for (k = 0; k < n; k++) body`, on the state the body changes. -/
def for_loop {σ : Type} (body : Nat → σ → σ) : Nat → σ → σ
  | 0, st => st
  | n + 1, st => body n (for_loop body n st)

/-- The assignment `d[k] = v` on one array. -/
def store (d : Nat → Nat) (k : Nat) (v : Nat) : Nat → Nat :=
  fun a => if a = k then v else d a

/-- The assignment `d[i][j] = v` through a table of channel pointers. -/
def store2 (d : Nat → Nat → Nat) (i j : Nat) (v : Nat) : Nat → Nat → Nat :=
  fun a b => if a = i ∧ b = j then v else d a b

/-- The value of a cell of `bits` bits holding the pattern `b`, read through a
signed type (`int8_t`, `int16_t`, `int32_t`). -/
def as_signed (bits : Nat) (b : Nat) : Int :=
  if b < 2 ^ (bits - 1) then (b : Int) else (b : Int) - 2 ^ bits

/-- The conversion of the value `v` to an unsigned type of `bits` bits. -/
def as_unsigned (bits : Nat) (v : Int) : Nat :=
  (v % 2 ^ bits).toNat

/-- The common text of `deinterleave_8`, `deinterleave_16` and
`deinterleave_32`, which differ in the sample type only; `size` is its
`sizeof`.  The local `s` is kept as its distance from `src[0]`, in samples. -/
def deinterleave_n (size : Nat) (n_dst n_bytes : Nat) (src0 : Nat → Nat)
    (dst : Nat → Nat → Nat) : Nat → Nat → Nat :=
  let n_bytes := n_bytes / (size * n_dst)
  (for_loop (fun j st =>
    for_loop (fun i st2 => (st2.1 + 1, store2 st2.2 i j (src0 st2.1))) n_dst st)
    n_bytes (0, dst)).2

/-- The C function `deinterleave_8` (fmt-ops.c:541). -/
def deinterleave_8 (n_dst n_bytes : Nat) (src0 : Nat → Nat) (dst : Nat → Nat → Nat) :
    Nat → Nat → Nat :=
  deinterleave_n 1 n_dst n_bytes src0 dst

/-- The C function `deinterleave_16` (fmt-ops.c:555). -/
def deinterleave_16 (n_dst n_bytes : Nat) (src0 : Nat → Nat) (dst : Nat → Nat → Nat) :
    Nat → Nat → Nat :=
  deinterleave_n 2 n_dst n_bytes src0 dst

/-- The C function `deinterleave_32` (fmt-ops.c:586). -/
def deinterleave_32 (n_dst n_bytes : Nat) (src0 : Nat → Nat) (dst : Nat → Nat → Nat) :
    Nat → Nat → Nat :=
  deinterleave_n 4 n_dst n_bytes src0 dst

/-- The common text of `interleave_8`, `interleave_16` and `interleave_32`:
the source is read through the signed sample type and stored through the
unsigned one; `size` is the `sizeof` of the sample type.  The local `d` is
kept as its distance from `dst[0]`, in samples. -/
def interleave_n (size : Nat) (n_src n_bytes : Nat) (src : Nat → Nat → Nat)
    (dst0 : Nat → Nat) : Nat → Nat :=
  let n_bytes := n_bytes / size
  (for_loop (fun j st =>
    for_loop (fun i st2 =>
      (st2.1 + 1, store st2.2 st2.1 (as_unsigned (8 * size) (as_signed (8 * size) (src i j)))))
      n_src st)
    n_bytes (0, dst0)).2

/-- The C function `interleave_8` (fmt-ops.c:600). -/
def interleave_8 (n_src n_bytes : Nat) (src : Nat → Nat → Nat) (dst0 : Nat → Nat) :
    Nat → Nat :=
  interleave_n 1 n_src n_bytes src dst0

/-- The C function `interleave_16` (fmt-ops.c:614). -/
def interleave_16 (n_src n_bytes : Nat) (src : Nat → Nat → Nat) (dst0 : Nat → Nat) :
    Nat → Nat :=
  interleave_n 2 n_src n_bytes src dst0

/-- The C function `interleave_32` (fmt-ops.c:645). -/
def interleave_32 (n_src n_bytes : Nat) (src : Nat → Nat → Nat) (dst0 : Nat → Nat) :
    Nat → Nat :=
  interleave_n 4 n_src n_bytes src dst0

/-- The layout the claim describes for a pair of routines on samples of `size`
bytes, for `C` channels and `n` frames of cells that hold `size` bytes each:
`deint` puts sample `(j, i)` of the interleaved array at index `j` of channel
`i`, `inter` puts sample `j` of channel `i` at index `j * C + i`, and each
undoes the other on the `n * C` samples. -/
def spec_layout (size : Nat)
    (deint : Nat → Nat → (Nat → Nat) → (Nat → Nat → Nat) → Nat → Nat → Nat)
    (inter : Nat → Nat → (Nat → Nat → Nat) → (Nat → Nat) → Nat → Nat) : Prop :=
  ∀ (C n : Nat) (flat d2 : Nat → Nat) (planes d1 : Nat → Nat → Nat), 1 ≤ C →
    (∀ k, flat k < 2 ^ (8 * size)) → (∀ i j, planes i j < 2 ^ (8 * size)) →
    (∀ i j, i < C → j < n → deint C (n * C * size) flat d1 i j = flat (j * C + i)) ∧
    (∀ i j, i < C → j < n → inter C (n * size) planes d2 (j * C + i) = planes i j) ∧
    (∀ k, k < n * C →
      inter C (n * size) (deint C (n * C * size) flat d1) d2 k = flat k) ∧
    (∀ i j, i < C → j < n →
      deint C (n * C * size) (inter C (n * size) planes d2) d1 i j = planes i j)

/-! ## The 24-bit routines -/

/-- The C macro `READ24` on the three operands after their cast to
`uint32_t`: `(s0 << 16) | (s1 << 8) | s2`, in 32 bits. -/
def READ24 (s0 s1 s2 : Nat) : Nat :=
  (s0 <<< 16) % 4294967296 ||| (s1 <<< 8) % 4294967296 ||| s2

/-- The cast `(uint32_t)` of a byte read through `const uint8_t *`. -/
def u8_to_u32 (b : Nat) : Nat := b

/-- The cast `(uint32_t)` of a byte read through `const int8_t *`: the value
is sign-extended. -/
def s8_to_u32 (b : Nat) : Nat := as_unsigned 32 (as_signed 8 b)

/-- The C macro `WRITE24 (d, v)` on one array, `d` being `off` bytes into it:
`d[0] = (uint8_t) (v >> 16)`, `d[1] = (uint8_t) (v >> 8)`,
`d[2] = (uint8_t) v`. -/
def WRITE24 (mem : Nat → Nat) (off : Nat) (v : Nat) : Nat → Nat :=
  store (store (store mem off ((v >>> 16) % 256)) (off + 1) ((v >>> 8) % 256))
    (off + 2) (v % 256)

/-- The C macro `WRITE24 (d[i], v)` through a table of channel pointers:
the write goes to the start of the array that the slot `slot` of the table
points to. -/
def WRITE24_slot (mem : Nat → Nat → Nat) (slot : Nat) (v : Nat) : Nat → Nat → Nat :=
  store2 (store2 (store2 mem slot 0 ((v >>> 16) % 256)) slot 1 ((v >>> 8) % 256))
    slot 2 (v % 256)

/-- The two pointers a 24-bit routine moves: `table`, the distance of the
pointer into the table of channel pointers from the table's start, in slots;
`bytes`, the distance of the pointer into the interleaved array from its
start, in bytes. -/
structure Cursor where
  table : Nat
  bytes : Nat

/-- The C function `deinterleave_24` (fmt-ops.c:569).  `d` is the pointer
into the table `dst` and `d += 3` moves it by three slots, so `d[i]` is the
slot `table + i`; slots past the table are what lies behind it in memory. -/
def deinterleave_24 (n_dst n_bytes : Nat) (src0 : Nat → Nat) (dst : Nat → Nat → Nat) :
    Nat → Nat → Nat :=
  let n_bytes := n_bytes / (3 * n_dst)
  (for_loop (fun _ st =>
    for_loop (fun i (st2 : Cursor × (Nat → Nat → Nat)) =>
      ({ table := st2.1.table + 3, bytes := st2.1.bytes + 3 },
        WRITE24_slot st2.2 (st2.1.table + i)
          (READ24 (u8_to_u32 (src0 st2.1.bytes)) (u8_to_u32 (src0 (st2.1.bytes + 1)))
            (u8_to_u32 (src0 (st2.1.bytes + 2)))))) n_dst st)
    n_bytes ({ table := 0, bytes := 0 }, dst)).2

/-- The C function `interleave_24` (fmt-ops.c:628).  `s` is the pointer into
the table `src` and `s += 3` moves it by three slots, so `s[i]` is the slot
`table + i`, read from its start through `const int8_t *`. -/
def interleave_24 (n_src n_bytes : Nat) (src : Nat → Nat → Nat) (dst0 : Nat → Nat) :
    Nat → Nat :=
  let n_bytes := n_bytes / 3
  (for_loop (fun _ st =>
    for_loop (fun i (st2 : Cursor × (Nat → Nat)) =>
      ({ table := st2.1.table + 3, bytes := st2.1.bytes + 3 },
        WRITE24 st2.2 st2.1.bytes
          (READ24 (s8_to_u32 (src (st2.1.table + i) 0)) (s8_to_u32 (src (st2.1.table + i) 1))
            (s8_to_u32 (src (st2.1.table + i) 2))))) n_src st)
    n_bytes ({ table := 0, bytes := 0 }, dst0)).2

/-- The C `sizeof (float)`. -/
def sizeof_float : Nat := 4

/-- The C function `conv_f32_to_s24` (fmt-ops.c:449), for any sample type and
any conversion `F32_TO_S24` of a sample to the `uint32_t` that `WRITE24`
stores.  The inner `for` has no braces: its body is the `WRITE24` alone, and
`d += 3` runs once after it, on a `d` that is not read again. -/
def conv_f32_to_s24 {α : Type} (F32_TO_S24 : α → Nat) (n_src n_bytes : Nat)
    (src : Nat → Nat → α) (dst : Nat → Nat → Nat) : Nat → Nat → Nat :=
  let n_bytes := n_bytes / sizeof_float
  for_loop (fun i mem =>
    let d := 0
    let mem1 := for_loop (fun j m =>
      Function.update m i (WRITE24 (m i) d (F32_TO_S24 (src i j)))) n_bytes mem
    let _d := d + 3
    mem1) n_src dst

/-- A sample interleaved array, the bytes `1, 2, 3, ...`. -/
def sampleBytes : Nat → Nat := fun k => k + 1

/-- Sample channels: channel `i` holds the bytes `10 * i + 1`, `10 * i + 2`,
`10 * i + 3`, ... -/
def sampleChannels : Nat → Nat → Nat := fun i k => 10 * i + k + 1

/-- One sample channel whose only sample is the bytes `1, 2, 128`. -/
def sampleHighByte : Nat → Nat → Nat := fun _ k => if k = 2 then 128 else k + 1

end FmtOps

namespace ClientStream

open spa_direction

/-! ## Theorems -/

/-- C1. An operation addressed to the wrong direction fails with `-EINVAL`
and has no effect: for each of the nine port operations that take a direction,
if the direction differs from `impl->direction` the call returns `-EINVAL` and
the state it returns is the state it was given, so no call was made on any
collaborator (the trace is the same) and `io`, `n_buffers`, `buffers`, `mem`
and `range` are unchanged. -/
theorem wrong_direction_rejected (W : World) (s : State) (direction : spa_direction)
    (h : direction ≠ s.impl.direction) :
    (∀ port_id, impl_node_add_port W s direction port_id = (-EINVAL, s)) ∧
    (∀ port_id, impl_node_remove_port W s direction port_id = (-EINVAL, s)) ∧
    (∀ port_id info, impl_node_port_get_info W s direction port_id info = (-EINVAL, s)) ∧
    (∀ port_id id index filter builder,
      impl_node_port_enum_params W s direction port_id id index filter builder
        = (-EINVAL, s)) ∧
    (∀ fuel port_id id flags param,
      impl_node_port_set_param W fuel s direction port_id id flags param
        = some (-EINVAL, s)) ∧
    (∀ port_id id data size,
      impl_node_port_set_io W s direction port_id id data size = (-EINVAL, s)) ∧
    (∀ fuel port_id buffers n_buffers,
      impl_node_port_use_buffers W fuel s direction port_id buffers n_buffers
        = some (-EINVAL, s)) ∧
    (∀ port_id params n_params buffers n_buffers,
      impl_node_port_alloc_buffers W s direction port_id params n_params buffers n_buffers
        = (-EINVAL, s)) ∧
    (∀ port_id command,
      impl_node_port_send_command W s direction port_id command = (-EINVAL, s)) := by
  refine ⟨?_, ?_, ?_, ?_, ?_, ?_, ?_, ?_, ?_⟩
  · intro port_id
    simp [impl_node_add_port, h]
  · intro port_id
    simp [impl_node_remove_port, h]
  · intro port_id info
    simp [impl_node_port_get_info, h]
  · intro port_id id index filter builder
    cases index <;> simp [impl_node_port_enum_params, h]
  · intro fuel port_id id flags param
    simp [impl_node_port_set_param, h]
  · intro port_id id data size
    simp [impl_node_port_set_io, h]
  · intro fuel port_id buffers n_buffers
    simp [impl_node_port_use_buffers, h]
  · intro port_id params n_params buffers n_buffers
    simp [impl_node_port_alloc_buffers, h]
  · intro port_id command
    simp [impl_node_port_send_command, h]

/-- C1, at a concrete input: `port_set_param` with direction output on the
sample input-only adapter. -/
theorem wrong_direction_rejected_witness :
    SPA_DIRECTION_OUTPUT ≠ sampleConverter.impl.direction ∧
    impl_node_port_set_param (sampleWorld (sampleReply 0 0 0 0 0) (sampleParse 4)) 3
      sampleConverter SPA_DIRECTION_OUTPUT 0 4 0 (some 7) = some (-EINVAL, sampleConverter) :=
  ⟨by decide,
    (wrong_direction_rejected (sampleWorld (sampleReply 0 0 0 0 0) (sampleParse 4))
      sampleConverter SPA_DIRECTION_OUTPUT (by decide)).2.2.2.2.1 3 0 4 0 (some 7)⟩

/-- C2. In pass-through mode one `impl_node_process` exchanges the two IO
areas: afterwards the area at `impl->io` holds what the area at
`client_port_mix.io` held before and conversely, every other area and both
pointers are untouched, and a second `impl_node_process` right after the first
(no store to the areas in between) restores the whole IO memory. -/
theorem process_swaps_io_areas (W : World) (s : State)
    (h : s.impl.use_converter = false) :
    (impl_node_process W s).2.io_mem s.impl.io = s.io_mem s.impl.client_port_mix.io ∧
    (impl_node_process W s).2.io_mem s.impl.client_port_mix.io = s.io_mem s.impl.io ∧
    (∀ p, p ≠ s.impl.io → p ≠ s.impl.client_port_mix.io →
      (impl_node_process W s).2.io_mem p = s.io_mem p) ∧
    (impl_node_process W s).2.impl.io = s.impl.io ∧
    (impl_node_process W s).2.impl.client_port_mix.io = s.impl.client_port_mix.io ∧
    (impl_node_process W s).2.impl.use_converter = false ∧
    (impl_node_process W (impl_node_process W s).2).2.io_mem = s.io_mem := by
  have key : ∀ t : State, t.impl.use_converter = false →
      (impl_node_process W t).2.io_mem =
        Function.update (Function.update t.io_mem t.impl.io
          (t.io_mem t.impl.client_port_mix.io)) t.impl.client_port_mix.io
          (t.io_mem t.impl.io) ∧
      (impl_node_process W t).2.impl.io = t.impl.io ∧
      (impl_node_process W t).2.impl.client_port_mix.io = t.impl.client_port_mix.io ∧
      (impl_node_process W t).2.impl.use_converter = false := by
    intro t ht
    unfold impl_node_process
    simp only [ht, call]
    refine ⟨?_, ?_, ?_, ?_⟩ <;> split_ifs <;> simp_all
  obtain ⟨k1, k2, k3, k4⟩ := key s h
  obtain ⟨j1, _, _, _⟩ := key _ k4
  refine ⟨?_, ?_, ?_, k2, k3, k4, ?_⟩
  · rw [k1]
    by_cases e : s.impl.io = s.impl.client_port_mix.io
    · rw [← e]; simp
    · simp [Function.update, e]
  · rw [k1]; simp
  · intro p hp hq
    rw [k1]; simp [Function.update, hp, hq]
  · rw [j1, k2, k3, k1]
    funext p
    by_cases e1 : p = s.impl.client_port_mix.io
    · subst e1
      by_cases e2 : s.impl.client_port_mix.io = s.impl.io
      · simp [Function.update, e2]
      · simp only [Function.update, e2, dite_eq_ite, eq_rec_constant, if_true, if_false]
        split_ifs with e3
        · exact absurd e3.symm e2
        · rfl
    · by_cases e2 : p = s.impl.io
      · subst e2
        simp [Function.update, e1]
      · simp [Function.update, e1, e2]

/-- C2, at a concrete input: the sample pass-through adapter. -/
theorem process_swaps_io_areas_witness :
    samplePassThrough.impl.use_converter = false ∧
    (impl_node_process (sampleWorld (sampleReply 0 0 0 0 0) (sampleParse 4))
      samplePassThrough).2.io_mem 200 = { status := 2, buffer_id := 5 } :=
  ⟨by decide,
    (process_swaps_io_areas (sampleWorld (sampleReply 0 0 0 0 0) (sampleParse 4))
      samplePassThrough (by decide)).1⟩

/-- C3. With a pool in place (`n_buffers > 0`) `negotiate_buffers` returns `0`
at once, whatever the fuel: the state it returns is the state it was given, so
no call was made (no enumerate, get-info, allocator, free or hand-off call)
and `n_buffers`, `buffers` and `mem` are unchanged; and calling it again on
the state it returned is the same as calling it once. -/
theorem negotiate_buffers_existing_pool (W : World) (fuel : Nat) (s : State)
    (h : s.impl.n_buffers > 0) :
    negotiate_buffers W fuel s = some (0, s) ∧
    (negotiate_buffers W fuel s).bind (fun r => negotiate_buffers W fuel r.2)
      = negotiate_buffers W fuel s := by
  have e : negotiate_buffers W fuel s = some (0, s) := by
    simp [negotiate_buffers, h]
  refine ⟨e, ?_⟩
  rw [e]
  simpa using e

/-- C3, at a concrete input: the sample converter adapter after it recorded a
pool of four buffers, with no fuel at all. -/
theorem negotiate_buffers_existing_pool_witness :
    ({ sampleConverter with impl.n_buffers := 4 } : State).impl.n_buffers > 0 ∧
    negotiate_buffers (sampleWorld (sampleReply 0 0 0 0 0) (sampleParse 4)) 0
      { sampleConverter with impl.n_buffers := 4 }
      = some (0, { sampleConverter with impl.n_buffers := 4 }) :=
  ⟨by decide,
    (negotiate_buffers_existing_pool (sampleWorld (sampleReply 0 0 0 0 0) (sampleParse 4)) 0
      { sampleConverter with impl.n_buffers := 4 } (by decide)).1⟩

/-- C4. `impl_node_send_command` forwards the command to the adapter first.
If that call returns a negative code, that code is returned and no other call
is made.  Otherwise the same command goes to the client node exactly when the
adapter is not the client node, and a negative code of that call is returned;
with no failing call the result is `0`.  So the operation fails exactly when a
forwarded call fails, the command reaches the client node object at most
once, and the adapter's own state is unchanged. -/
theorem send_command_broadcast (W : World) (s : State) (command : Ptr) :
    (impl_node_send_command W s command).2.trace =
      s.trace ++ [Call.send_command s.impl.adapter command] ++
        (if 0 ≤ (W.reply s.trace (Call.send_command s.impl.adapter command)).res ∧
            s.impl.adapter ≠ s.impl.cnode
          then [Call.send_command s.impl.cnode command] else []) ∧
    (impl_node_send_command W s command).1 =
      (if (W.reply s.trace (Call.send_command s.impl.adapter command)).res < 0
        then (W.reply s.trace (Call.send_command s.impl.adapter command)).res
        else if s.impl.adapter ≠ s.impl.cnode ∧
            (W.reply (s.trace ++ [Call.send_command s.impl.adapter command])
              (Call.send_command s.impl.cnode command)).res < 0
          then (W.reply (s.trace ++ [Call.send_command s.impl.adapter command])
              (Call.send_command s.impl.cnode command)).res
          else 0) ∧
    ((impl_node_send_command W s command).1 < 0 ↔
      (W.reply s.trace (Call.send_command s.impl.adapter command)).res < 0 ∨
      (0 ≤ (W.reply s.trace (Call.send_command s.impl.adapter command)).res ∧
        s.impl.adapter ≠ s.impl.cnode ∧
        (W.reply (s.trace ++ [Call.send_command s.impl.adapter command])
          (Call.send_command s.impl.cnode command)).res < 0)) ∧
    (∃ new, (impl_node_send_command W s command).2.trace = s.trace ++ new ∧
      new.count (Call.send_command s.impl.cnode command) ≤ 1) ∧
    (impl_node_send_command W s command).2.impl = s.impl := by
  have ht : (impl_node_send_command W s command).2.trace =
      s.trace ++ [Call.send_command s.impl.adapter command] ++
        (if 0 ≤ (W.reply s.trace (Call.send_command s.impl.adapter command)).res ∧
            s.impl.adapter ≠ s.impl.cnode
          then [Call.send_command s.impl.cnode command] else []) := by
    unfold impl_node_send_command
    simp only [call]
    split_ifs <;> simp_all
    omega
  refine ⟨ht, ?_, ?_, ?_, ?_⟩
  · unfold impl_node_send_command
    simp only [call]
    split_ifs <;> simp_all
  · unfold impl_node_send_command
    simp only [call]
    split_ifs <;> simp_all
  · refine ⟨_, by rw [ht, List.append_assoc], ?_⟩
    by_cases e : s.impl.adapter = s.impl.cnode
    · simp [e]
    · split_ifs
      · simp [List.count_cons, e]
      · simp [List.count_cons, e]
  · unfold impl_node_send_command
    simp only [call]
    split_ifs <;> rfl

/-- C5. With an adapter object set, `impl_node_get_n_ports` returns `0`,
makes the one `get_n_ports` call on the adapter object, and each count cell the
caller passed (`some`) holds afterwards: for the adapter's own direction the
current and maximum count the adapter object reported, and for the opposite
direction `0`, whatever the adapter object reported for it. -/
theorem get_n_ports_own_direction_only (W : World) (s : State) (out : PortCounts)
    (h : s.impl.adapter ≠ 0) :
    (impl_node_get_n_ports W s out).1.1 = 0 ∧
    (impl_node_get_n_ports W s out).2.trace = s.trace ++ [Call.get_n_ports s.impl.adapter] ∧
    (s.impl.direction = SPA_DIRECTION_OUTPUT →
      (impl_node_get_n_ports W s out).1.2 =
        { n_input_ports := out.n_input_ports.map (fun _ => 0)
          max_input_ports := out.max_input_ports.map (fun _ => 0)
          n_output_ports := out.n_output_ports.map
            (fun _ => (W.reply s.trace (Call.get_n_ports s.impl.adapter)).n_output_ports)
          max_output_ports := out.max_output_ports.map
            (fun _ => (W.reply s.trace (Call.get_n_ports s.impl.adapter)).max_output_ports) }) ∧
    (s.impl.direction = SPA_DIRECTION_INPUT →
      (impl_node_get_n_ports W s out).1.2 =
        { n_input_ports := out.n_input_ports.map
            (fun _ => (W.reply s.trace (Call.get_n_ports s.impl.adapter)).n_input_ports)
          max_input_ports := out.max_input_ports.map
            (fun _ => (W.reply s.trace (Call.get_n_ports s.impl.adapter)).max_input_ports)
          n_output_ports := out.n_output_ports.map (fun _ => 0)
          max_output_ports := out.max_output_ports.map (fun _ => 0) }) := by
  unfold impl_node_get_n_ports
  simp only [call, h, ne_eq, not_false_eq_true, if_true]
  cases hd : s.impl.direction <;> simp [Option.map_map, Function.comp_def]

/-- C5, at a concrete input: the sample input-side converter adapter, whose
adapter object reports 5 of 6 inputs and 7 of 8 outputs. -/
theorem get_n_ports_own_direction_only_witness :
    sampleConverter.impl.adapter ≠ 0 ∧
    (impl_node_get_n_ports (sampleWorld (sampleReply 0 0 0 0 0) (sampleParse 4))
      sampleConverter ⟨some 0, some 0, some 0, some 0⟩).1.2 = ⟨some 5, some 6, some 0, some 0⟩ :=
  ⟨by decide,
    ((get_n_ports_own_direction_only (sampleWorld (sampleReply 0 0 0 0 0) (sampleParse 4))
      sampleConverter ⟨some 0, some 0, some 0, some 0⟩ (by decide)).2.2.2 rfl).trans
      (by decide)⟩

/-- Converting to `uint32_t` gives a value below `2^32`. -/
theorem toU32_lt (x : Int) : toU32 x < 4294967296 := by
  unfold toU32
  omega

/-- An `int` keeps its 32-bit pattern: the pattern of `toI32 n` is `n`
reduced modulo `2^32`. -/
theorem toU32_toI32 (n : Nat) : toU32 (toI32 n) = n % 4294967296 := by
  unfold toU32 toI32
  split_ifs <;> omega

/-- An `int` is determined by its 32-bit pattern. -/
theorem toI32_toU32 (x : Int) (h1 : -2147483648 ≤ x) (h2 : x < 2147483648) :
    toI32 (toU32 x) = x := by
  unfold toU32 toI32
  split_ifs <;> omega

/-- The `int` with the pattern `n` is zero exactly when the pattern is. -/
theorem toI32_eq_zero (n : Nat) (h : n < 4294967296) : toI32 n = 0 ↔ n = 0 := by
  unfold toI32
  split_ifs <;> omega

/-- Bit by bit, `int_and` is the conjunction of the two patterns. -/
theorem int_and_testBit (a b : Int) (i : Nat) :
    (toU32 (int_and a b)).testBit i = ((toU32 a).testBit i && (toU32 b).testBit i) := by
  have hlt : toU32 a &&& toU32 b < 4294967296 :=
    lt_of_le_of_lt Nat.and_le_left (toU32_lt a)
  unfold int_and
  rw [toU32_toI32, Nat.mod_eq_of_lt hlt, Nat.testBit_land]

/-- Bit by bit, `int_or` is the disjunction of the two patterns. -/
theorem int_or_testBit (a b : Int) (i : Nat) :
    (toU32 (int_or a b)).testBit i = ((toU32 a).testBit i || (toU32 b).testBit i) := by
  have hlt : toU32 a ||| toU32 b < 4294967296 := by
    have h := @Nat.or_lt_two_pow (toU32 a) (toU32 b) 32 (toU32_lt a) (toU32_lt b)
    exact h
  unfold int_or
  rw [toU32_toI32, Nat.mod_eq_of_lt hlt, Nat.testBit_lor]

/-- The C test `a & b` is taken exactly when the two patterns have a set bit
in common. -/
theorem int_and_ne_zero (a b : Int) :
    int_and a b ≠ 0 ↔ ∃ i, (toU32 a).testBit i = true ∧ (toU32 b).testBit i = true := by
  have hlt : toU32 a &&& toU32 b < 4294967296 :=
    lt_of_le_of_lt Nat.and_le_left (toU32_lt a)
  unfold int_and
  rw [Ne, toI32_eq_zero _ hlt]
  constructor
  · intro h
    obtain ⟨i, hi⟩ := Nat.ne_zero_implies_bit_true h
    rw [Nat.testBit_land, Bool.and_eq_true] at hi
    exact ⟨i, hi⟩
  · rintro ⟨i, h1, h2⟩ h
    have : (toU32 a &&& toU32 b).testBit i = true := by
      rw [Nat.testBit_land, h1, h2]
      rfl
    rw [h] at this
    simp at this

/-- The value of `int_or` is an `int`. -/
theorem int_or_range (a b : Int) :
    -2147483648 ≤ int_or a b ∧ int_or a b < 2147483648 := by
  unfold int_or toI32
  split_ifs <;> omega

/-- The status and the calls of one tick: `impl_node_process` returns the
converter's `process` result in converter mode and the OR of the two IO areas'
status fields in pass-through mode (the same after the swap as before); its
calls are `process` in converter mode only, then `spa_graph_run` when the
node is not the driver and `status & flag` is not zero. -/
theorem impl_node_process_status_trace (W : World) (s : State) :
    (impl_node_process W s).1 =
      (if s.impl.use_converter = true then (W.reply s.trace (Call.process s.impl.adapter)).res
        else int_or (s.io_mem s.impl.io).status (s.io_mem s.impl.client_port_mix.io).status) ∧
    (s.impl.use_converter = false →
      (impl_node_process W s).1 =
        int_or ((impl_node_process W s).2.io_mem s.impl.client_port_mix.io).status
          ((impl_node_process W s).2.io_mem s.impl.io).status) ∧
    (impl_node_process W s).2.trace =
      s.trace ++ (if s.impl.use_converter = true then [Call.process s.impl.adapter] else []) ++
        (if s.driver = false ∧
            int_and (impl_node_process W s).1
              (if s.impl.direction = SPA_DIRECTION_OUTPUT then W.SPA_STATUS_NEED_BUFFER
                else W.SPA_STATUS_HAVE_BUFFER) ≠ 0
          then [Call.spa_graph_run] else []) ∧
    (s.driver = true →
      (impl_node_process W s).2.trace =
        s.trace ++ (if s.impl.use_converter = true then [Call.process s.impl.adapter] else [])) := by
  have comm : ∀ a b : Int, int_or a b = int_or b a := by
    intro a b
    simp only [int_or, Nat.lor_comm]
  have swap : ∀ (m : Ptr → spa_io_buffers) (p q : Ptr),
      int_or ((Function.update (Function.update m p (m q)) q (m p)) q).status
        ((Function.update (Function.update m p (m q)) q (m p)) p).status
        = int_or (m p).status (m q).status := by
    intro m p q
    by_cases e : p = q
    · subst e; simp
    · simp [Function.update, e, comm]
  have hres : (impl_node_process W s).1 =
      (if s.impl.use_converter = true then (W.reply s.trace (Call.process s.impl.adapter)).res
        else int_or (s.io_mem s.impl.io).status (s.io_mem s.impl.client_port_mix.io).status) := by
    unfold impl_node_process
    simp only [call]
    split_ifs <;> first | rfl | exact swap _ _ _
  have hmem : s.impl.use_converter = false →
      (impl_node_process W s).2.io_mem =
        Function.update (Function.update s.io_mem s.impl.io
          (s.io_mem s.impl.client_port_mix.io)) s.impl.client_port_mix.io
          (s.io_mem s.impl.io) := by
    intro hc
    unfold impl_node_process
    simp only [hc, call]
    split_ifs <;> simp_all
  have htr : (impl_node_process W s).2.trace =
      s.trace ++ (if s.impl.use_converter = true then [Call.process s.impl.adapter] else []) ++
        (if s.driver = false ∧
            int_and (impl_node_process W s).1
              (if s.impl.direction = SPA_DIRECTION_OUTPUT then W.SPA_STATUS_NEED_BUFFER
                else W.SPA_STATUS_HAVE_BUFFER) ≠ 0
          then [Call.spa_graph_run] else []) := by
    rw [hres]
    unfold impl_node_process
    simp only [call]
    split_ifs <;> simp_all
  refine ⟨hres, ?_, htr, ?_⟩
  · intro hc
    rw [hmem hc, swap, hres]
    simp [hc]
  · intro hd
    rw [htr]
    simp [hd]

/-- C6. `impl_node_process` returns the tick's status and runs the graph
exactly when the node is not the driver and the status has the deciding bit:
`SPA_STATUS_NEED_BUFFER` for an output adapter, `SPA_STATUS_HAVE_BUFFER` for an
input adapter.  The status is the converter's `process` result in converter
mode; in pass-through mode it is the OR of the two IO areas' status fields
after the swap, which is the OR of the same two fields before the swap: an
`int` whose 32-bit pattern has a bit set exactly when one of the two fields
has it set.  The calls of one tick are: `process` on the adapter in converter
mode only, then one `spa_graph_run` exactly when the node is not the driver
and the patterns of the status and of the deciding flag have a set bit in
common, which for a flag of the single bit `k` is bit `k` of the status; so a
driver never runs the graph. -/
theorem process_trigger (W : World) (s : State) :
    (impl_node_process W s).1 =
      (if s.impl.use_converter = true then (W.reply s.trace (Call.process s.impl.adapter)).res
        else int_or (s.io_mem s.impl.io).status (s.io_mem s.impl.client_port_mix.io).status) ∧
    (s.impl.use_converter = false →
      (impl_node_process W s).1 =
        int_or ((impl_node_process W s).2.io_mem s.impl.client_port_mix.io).status
          ((impl_node_process W s).2.io_mem s.impl.io).status) ∧
    (impl_node_process W s).2.trace =
      s.trace ++ (if s.impl.use_converter = true then [Call.process s.impl.adapter] else []) ++
        (if s.driver = false ∧
            int_and (impl_node_process W s).1
              (if s.impl.direction = SPA_DIRECTION_OUTPUT then W.SPA_STATUS_NEED_BUFFER
                else W.SPA_STATUS_HAVE_BUFFER) ≠ 0
          then [Call.spa_graph_run] else []) ∧
    (s.driver = true →
      (impl_node_process W s).2.trace =
        s.trace ++ (if s.impl.use_converter = true then [Call.process s.impl.adapter] else [])) ∧
    (s.impl.use_converter = false →
      -2147483648 ≤ (impl_node_process W s).1 ∧ (impl_node_process W s).1 < 2147483648 ∧
      ∀ i, (toU32 (impl_node_process W s).1).testBit i =
        ((toU32 (s.io_mem s.impl.io).status).testBit i ||
          (toU32 (s.io_mem s.impl.client_port_mix.io).status).testBit i)) ∧
    ((s.driver = false ∧ ∃ i, (toU32 (impl_node_process W s).1).testBit i = true ∧
        (toU32 (if s.impl.direction = SPA_DIRECTION_OUTPUT then W.SPA_STATUS_NEED_BUFFER
          else W.SPA_STATUS_HAVE_BUFFER)).testBit i = true) →
      (impl_node_process W s).2.trace =
        s.trace ++ (if s.impl.use_converter = true then [Call.process s.impl.adapter] else []) ++
          [Call.spa_graph_run]) ∧
    (¬ (s.driver = false ∧ ∃ i, (toU32 (impl_node_process W s).1).testBit i = true ∧
        (toU32 (if s.impl.direction = SPA_DIRECTION_OUTPUT then W.SPA_STATUS_NEED_BUFFER
          else W.SPA_STATUS_HAVE_BUFFER)).testBit i = true) →
      (impl_node_process W s).2.trace =
        s.trace ++ (if s.impl.use_converter = true then [Call.process s.impl.adapter] else [])) ∧
    (∀ k, toU32 (if s.impl.direction = SPA_DIRECTION_OUTPUT then W.SPA_STATUS_NEED_BUFFER
          else W.SPA_STATUS_HAVE_BUFFER) = 2 ^ k →
      ((∃ i, (toU32 (impl_node_process W s).1).testBit i = true ∧
        (toU32 (if s.impl.direction = SPA_DIRECTION_OUTPUT then W.SPA_STATUS_NEED_BUFFER
          else W.SPA_STATUS_HAVE_BUFFER)).testBit i = true) ↔
        (toU32 (impl_node_process W s).1).testBit k = true)) := by
  obtain ⟨h1, h2, h3, h4⟩ := impl_node_process_status_trace W s
  refine ⟨h1, h2, h3, h4, ?_, ?_, ?_, ?_⟩
  · intro hc
    rw [h1]
    simp only [hc, Bool.false_eq_true, if_false]
    exact ⟨(int_or_range _ _).1, (int_or_range _ _).2, fun i => int_or_testBit _ _ i⟩
  · intro hcond
    have hp : s.driver = false ∧
        int_and (impl_node_process W s).1
          (if s.impl.direction = SPA_DIRECTION_OUTPUT then W.SPA_STATUS_NEED_BUFFER
            else W.SPA_STATUS_HAVE_BUFFER) ≠ 0 :=
      ⟨hcond.1, (int_and_ne_zero _ _).mpr hcond.2⟩
    rw [h3, if_pos hp]
  · intro hcond
    have hn : ¬ (s.driver = false ∧
        int_and (impl_node_process W s).1
          (if s.impl.direction = SPA_DIRECTION_OUTPUT then W.SPA_STATUS_NEED_BUFFER
            else W.SPA_STATUS_HAVE_BUFFER) ≠ 0) := by
      intro h
      exact hcond ⟨h.1, (int_and_ne_zero _ _).mp h.2⟩
    rw [h3, if_neg hn, List.append_nil]
  · intro k hk
    rw [hk]
    constructor
    · rintro ⟨i, hi1, hi2⟩
      rw [Nat.testBit_two_pow] at hi2
      have e : k = i := by simpa using hi2
      rw [e]
      exact hi1
    · intro h
      exact ⟨k, h, by rw [Nat.testBit_two_pow]; simp⟩

/-- C6 at concrete inputs, flags `NEED_BUFFER = 1` and `HAVE_BUFFER = 2`.  The
sample input-side converter whose `process` returns `3` runs the graph after
it; when `process` returns `1`, which lacks the `HAVE_BUFFER` bit, it does
not.  The sample output-side pass-through adapter, whose IO areas hold the
statuses `1` and `2`, returns `3` and runs the graph; as the driver it does
not. -/
theorem process_trigger_witness :
    (impl_node_process (sampleWorld (sampleReply 0 0 0 0 0) (sampleParse 4))
      sampleConverter).2.trace = [Call.process 2, Call.spa_graph_run] ∧
    (impl_node_process (sampleWorld (fun _ _ => { res := 1 }) (sampleParse 4))
      sampleConverter).2.trace = [Call.process 2] ∧
    (impl_node_process (sampleWorld (sampleReply 0 0 0 0 0) (sampleParse 4))
      samplePassThrough).1 = 3 ∧
    (impl_node_process (sampleWorld (sampleReply 0 0 0 0 0) (sampleParse 4))
      samplePassThrough).2.trace = [Call.spa_graph_run] ∧
    (impl_node_process (sampleWorld (sampleReply 0 0 0 0 0) (sampleParse 4))
      { samplePassThrough with driver := true }).2.trace = [] :=
  ⟨(process_trigger (sampleWorld (sampleReply 0 0 0 0 0) (sampleParse 4))
      sampleConverter).2.2.2.2.2.1 ⟨rfl, 1, by decide, by decide⟩,
    (process_trigger (sampleWorld (fun _ _ => { res := 1 }) (sampleParse 4))
      sampleConverter).2.2.2.2.2.2.1 (by
        rintro ⟨-, i, h1, h2⟩
        have e1 : (impl_node_process (sampleWorld (fun _ _ => { res := 1 }) (sampleParse 4))
          sampleConverter).1 = 1 := by decide
        rw [e1] at h1
        have e2 : toU32 1 = 1 := by decide
        have e3 : toU32 (if sampleConverter.impl.direction = SPA_DIRECTION_OUTPUT
          then (sampleWorld (fun _ _ => { res := 1 }) (sampleParse 4)).SPA_STATUS_NEED_BUFFER
          else (sampleWorld (fun _ _ => { res := 1 }) (sampleParse 4)).SPA_STATUS_HAVE_BUFFER)
            = 2 ^ 1 := by decide
        rw [e2] at h1
        rw [e3, Nat.testBit_two_pow] at h2
        have e : 1 = i := by simpa using h2
        subst e
        exact absurd h1 (by decide)),
    (process_trigger (sampleWorld (sampleReply 0 0 0 0 0) (sampleParse 4))
      samplePassThrough).1.trans (by decide),
    (process_trigger (sampleWorld (sampleReply 0 0 0 0 0) (sampleParse 4))
      samplePassThrough).2.2.2.2.2.1 ⟨rfl, 0, by decide, by decide⟩,
    (process_trigger (sampleWorld (sampleReply 0 0 0 0 0) (sampleParse 4))
      { samplePassThrough with driver := true }).2.2.2.1 rfl⟩

/-- When the port ends its enumeration within `n` calls, the loop of
`debug_params` returns for every fuel of at least `n`; it only adds
`port_enum_params` calls to the trace and changes nothing else. -/
theorem debug_params_loop_returns (W : World) (node : Ptr) (direction : spa_direction)
    (port_id : Nat) (id : Nat) :
    ∀ (n fuel : Nat) (s : State) (index : Nat),
      enum_ends W node direction port_id id n s.trace index = true → n ≤ fuel →
      ∃ new, debug_params_loop W node direction port_id id fuel s index
          = some { s with trace := s.trace ++ new } ∧
        ∀ c ∈ new, c.is_enum_params = true := by
  intro n
  induction n with
  | zero =>
    intro fuel s index h _
    simp [enum_ends] at h
  | succ n ih =>
    intro fuel s index h hle
    obtain ⟨f, rfl⟩ : ∃ f, fuel = f + 1 := ⟨fuel - 1, by omega⟩
    simp only [enum_ends, Bool.or_eq_true, decide_eq_true_eq] at h
    by_cases h0 : (W.reply s.trace
        (Call.port_enum_params node direction port_id id index none)).res ≤ 0
    · refine ⟨[Call.port_enum_params node direction port_id id index none], ?_, ?_⟩
      · simp [debug_params_loop, call, h0]
      · intro c hc
        simp only [List.mem_singleton] at hc
        subst hc
        rfl
    · have h1 := h.resolve_left h0
      obtain ⟨new, e, hnew⟩ := ih f
        { s with trace := s.trace ++ [Call.port_enum_params node direction port_id id index none] }
        (W.reply s.trace (Call.port_enum_params node direction port_id id index none)).index
        h1 (by omega)
      refine ⟨Call.port_enum_params node direction port_id id index none :: new, ?_, ?_⟩
      · simp only [debug_params_loop, call, h0, if_false]
        rw [e]
        simp
      · intro c hc
        rcases List.mem_cons.mp hc with hc | hc
        · subst hc; rfl
        · exact hnew c hc

/-- C7. If the format enumeration on the graph-facing port yields no result
(`<= 0`), or it yields one and the filtered enumeration on the client-facing
port yields none (`<= 0`), then `negotiate_format` returns `-ENOTSUP`: the
diagnostic enumeration being finite (it ends within `n` calls) and given at
least that much fuel, the call returns, all it did was `port_enum_params`
calls, so no set-format call on either port, and apart from the trace the
state is unchanged: `n_buffers`, `buffers` and `mem` are as before and no pool
exists because of the failed negotiation. -/
theorem negotiate_format_not_supported (W : World) (fuel n : Nat) (s : State)
    (hn : n ≤ fuel)
    (h : ((W.reply s.trace (format_enum_graph W s)).res ≤ 0 ∧
          enum_ends W s.impl.adapter_mix (SPA_DIRECTION_REVERSE s.impl.direction) 0
            W.SPA_PARAM_EnumFormat n (s.trace ++ [format_enum_graph W s]) 0 = true) ∨
        (0 < (W.reply s.trace (format_enum_graph W s)).res ∧
          (W.reply (s.trace ++ [format_enum_graph W s]) (format_enum_client W s)).res ≤ 0 ∧
          enum_ends W s.impl.cnode s.impl.direction 0 W.SPA_PARAM_EnumFormat n
            (s.trace ++ [format_enum_graph W s] ++ [format_enum_client W s]) 0 = true)) :
    ∃ new, negotiate_format W fuel s = some (-ENOTSUP, { s with trace := s.trace ++ new }) ∧
      (∀ c ∈ new, c.is_enum_params = true) ∧
      (∀ node d p i f q, Call.port_set_param node d p i f q ∉ new) := by
  have noset : ∀ new : List Call, (∀ c ∈ new, c.is_enum_params = true) →
      ∀ node d p i f q, Call.port_set_param node d p i f q ∉ new := by
    intro new hnew node d p i f q hmem
    have := hnew _ hmem
    simp [Call.is_enum_params] at this
  rcases h with ⟨h1, hends⟩ | ⟨h1, h2, hends⟩
  · obtain ⟨new, e, hnew⟩ := debug_params_loop_returns W s.impl.adapter_mix
      (SPA_DIRECTION_REVERSE s.impl.direction) 0 W.SPA_PARAM_EnumFormat n fuel
      { s with trace := s.trace ++ [format_enum_graph W s] } 0 hends hn
    have hall : ∀ c ∈ format_enum_graph W s :: new, c.is_enum_params = true := by
      intro c hc
      rcases List.mem_cons.mp hc with hc | hc
      · subst hc; rfl
      · exact hnew c hc
    refine ⟨format_enum_graph W s :: new, ?_, hall, noset _ hall⟩
    unfold negotiate_format
    simp only [format_enum_graph] at h1 e ⊢
    simp only [call, h1, if_true, debug_params, e]
    simp
  · obtain ⟨new, e, hnew⟩ := debug_params_loop_returns W s.impl.cnode
      s.impl.direction 0 W.SPA_PARAM_EnumFormat n fuel
      { s with trace := s.trace ++ [format_enum_graph W s] ++ [format_enum_client W s] } 0
      hends hn
    have hall : ∀ c ∈ format_enum_graph W s :: format_enum_client W s :: new,
        c.is_enum_params = true := by
      intro c hc
      rcases List.mem_cons.mp hc with hc | hc
      · subst hc; rfl
      · rcases List.mem_cons.mp hc with hc | hc
        · subst hc; rfl
        · exact hnew c hc
    refine ⟨format_enum_graph W s :: format_enum_client W s :: new, ?_, hall, noset _ hall⟩
    have h1n : ¬ (W.reply s.trace (format_enum_graph W s)).res ≤ 0 := not_le.mpr h1
    unfold negotiate_format
    simp only [format_enum_graph, format_enum_client] at h1n h2 e ⊢
    simp only [call, h1n, h2, if_true, if_false, debug_params, e]
    simp

/-- C7, at a concrete input: the sample converter adapter against
collaborators with no common format; the client's own list ends at its second
entry. -/
theorem negotiate_format_not_supported_witness :
    ∃ new, negotiate_format (sampleWorld noIntersectionReply (sampleParse 4)) 2 sampleConverter
        = some (-ENOTSUP, { sampleConverter with trace := sampleConverter.trace ++ new }) ∧
      (∀ c ∈ new, c.is_enum_params = true) ∧
      (∀ node d p i f q, Call.port_set_param node d p i f q ∉ new) :=
  negotiate_format_not_supported (sampleWorld noIntersectionReply (sampleParse 4)) 2 2
    sampleConverter (by decide) (Or.inr ⟨by decide, by decide, by decide⟩)

/-- A first stretch of `negotiate_buffers` that goes on to the allocation has
made exactly the four query calls and changed nothing else; it hands on the
fixated object, the client port's declaration as `out_alloc`, and as `in_alloc`
the graph port's declaration unless the client port declares as well. -/
theorem negotiate_buffers_query_next (W : World) (fuel : Nat) (s s1 : State) (q : BufQuery)
    (h : negotiate_buffers_query W fuel s = some (Step.next q s1)) :
    s1 = { s with trace := s.trace ++ query_calls W s } ∧
    q = { param := query_param W s
          in_alloc := graph_declares_alloc W s && !client_declares_alloc W s
          out_alloc := client_declares_alloc W s } := by
  unfold negotiate_buffers_query at h
  simp only [call, debug_params] at h
  by_cases h1 : (W.reply s.trace (Call.port_enum_params s.impl.adapter_mix
      (SPA_DIRECTION_REVERSE s.impl.direction) 0 W.SPA_PARAM_Buffers 0 none)).res ≤ 0
  · simp [h1] at h
  · have h1z : (W.reply s.trace (Call.port_enum_params s.impl.adapter_mix
        (SPA_DIRECTION_REVERSE s.impl.direction) 0 W.SPA_PARAM_Buffers 0 none)).res ≠ 0 := by
      omega
    simp only [h1, h1z, if_false] at h
    split_ifs at h with h2 h3 h4 h5 h6
    all_goals first
      | (simp at h; done)
      | (simp only [Option.some.injEq, Step.next.injEq] at h
         obtain ⟨hq, hs⟩ := h
         subst hq hs
         refine ⟨?_, ?_⟩
         · simp [query_calls, buffers_enum_graph, buffers_enum_client, info_client,
             info_graph, h1z]
         · simp only [query_param, graph_declares_alloc, client_declares_alloc,
             buffers_enum_graph, buffers_enum_client, info_client, info_graph, h1z, if_false,
             List.append_assoc, List.singleton_append, List.cons_append,
             List.nil_append] at *
           simp_all)

/-- The loop of `debug_params` never touches the adapter's `struct impl`. -/
theorem debug_params_loop_impl (W : World) (node : Ptr) (direction : spa_direction)
    (port_id : Nat) (id : Nat) :
    ∀ (fuel : Nat) (s s1 : State) (index : Nat),
      debug_params_loop W node direction port_id id fuel s index = some s1 →
      s1.impl = s.impl := by
  intro fuel
  induction fuel with
  | zero =>
    intro s s1 index h
    simp [debug_params_loop] at h
  | succ f ih =>
    intro s s1 index h
    simp only [debug_params_loop, call] at h
    split_ifs at h
    · simp only [Option.some.injEq] at h
      subst h
      rfl
    · have e := ih _ _ _ h
      exact e

/-- A first stretch of `negotiate_buffers` that returns early leaves the
adapter's `struct impl` as it was. -/
theorem negotiate_buffers_query_ret (W : World) (fuel : Nat) (s s1 : State) (res : Int)
    (h : negotiate_buffers_query W fuel s = some (Step.ret res s1)) :
    s1.impl = s.impl := by
  unfold negotiate_buffers_query at h
  simp only [call, debug_params] at h
  split_ifs at h
  all_goals first
    | (simp at h; done)
    | (simp at h
       obtain ⟨hd, -⟩ := h
       have e := debug_params_loop_impl W _ _ _ _ _ _ _ _ hd
       exact e)
    | (simp at h
       obtain ⟨-, rfl⟩ := h
       rfl)

/-- The allocation stretch of `negotiate_buffers` sets `n_buffers` only when
it goes on to the hand-off: an early return leaves it as it was. -/
theorem negotiate_buffers_alloc_ret (W : World) (s s2 : State) (q : BufQuery) (res : Int)
    (h : negotiate_buffers_alloc W s q = Step.ret res s2) :
    s2.impl.n_buffers = s.impl.n_buffers := by
  unfold negotiate_buffers_alloc at h
  simp only [call] at h
  split at h
  · simp only [Step.ret.injEq] at h
    obtain ⟨-, rfl⟩ := h
    rfl
  · split_ifs at h
    all_goals
      simp only [Step.ret.injEq] at h
      obtain ⟨-, rfl⟩ := h
      rfl

/-- An allocation stretch of `negotiate_buffers` that goes on to the hand-off
parsed the parameters, recorded their buffer count in `n_buffers`, hands the
query result on unchanged and left the node pointers and the direction of the
adapter alone. -/
theorem negotiate_buffers_alloc_next (W : World) (s s2 : State) (q q2 : BufQuery)
    (h : negotiate_buffers_alloc W s q = Step.next q2 s2) :
    q2 = q ∧
    (∃ p, W.spa_pod_object_parse q.param = some p ∧ s2.impl.n_buffers = toU32 p.buffers) ∧
    s2.impl.direction = s.impl.direction ∧
    s2.impl.adapter_mix = s.impl.adapter_mix ∧
    s2.impl.client_port = s.impl.client_port := by
  unfold negotiate_buffers_alloc at h
  simp only [call] at h
  split at h
  · simp at h
  · rename_i p hp
    split_ifs at h
    all_goals first
      | (simp at h; done)
      | (simp only [Step.next.injEq] at h
         obtain ⟨rfl, rfl⟩ := h
         exact ⟨rfl, ⟨p, hp, rfl⟩, rfl, rfl, rfl⟩)

/-- The hand-off stretch of `negotiate_buffers`, call by call: the first
hand-off, and the second one unless the first failed; the result is the code
of the failing hand-off, or `0`. -/
theorem negotiate_buffers_handoff_calls (W : World) (s : State) (q : BufQuery) :
    (negotiate_buffers_handoff W s q).2.trace =
      s.trace ++
        handoff_call q.in_alloc s.impl.adapter_mix (SPA_DIRECTION_REVERSE s.impl.direction)
          s.impl.buffers s.impl.n_buffers ::
        (if (W.reply s.trace (handoff_call q.in_alloc s.impl.adapter_mix
              (SPA_DIRECTION_REVERSE s.impl.direction) s.impl.buffers s.impl.n_buffers)).res < 0
          then []
          else [handoff_call q.out_alloc s.impl.client_port.mix s.impl.direction s.impl.buffers
            (count_after W s.trace (handoff_call q.in_alloc s.impl.adapter_mix
              (SPA_DIRECTION_REVERSE s.impl.direction) s.impl.buffers s.impl.n_buffers)
              s.impl.n_buffers)]) ∧
    (negotiate_buffers_handoff W s q).1 =
      (if (W.reply s.trace (handoff_call q.in_alloc s.impl.adapter_mix
            (SPA_DIRECTION_REVERSE s.impl.direction) s.impl.buffers s.impl.n_buffers)).res < 0
        then (W.reply s.trace (handoff_call q.in_alloc s.impl.adapter_mix
            (SPA_DIRECTION_REVERSE s.impl.direction) s.impl.buffers s.impl.n_buffers)).res
        else if (W.reply (s.trace ++ [handoff_call q.in_alloc s.impl.adapter_mix
            (SPA_DIRECTION_REVERSE s.impl.direction) s.impl.buffers s.impl.n_buffers])
            (handoff_call q.out_alloc s.impl.client_port.mix s.impl.direction s.impl.buffers
              (count_after W s.trace (handoff_call q.in_alloc s.impl.adapter_mix
                (SPA_DIRECTION_REVERSE s.impl.direction) s.impl.buffers s.impl.n_buffers)
                s.impl.n_buffers))).res < 0
          then (W.reply (s.trace ++ [handoff_call q.in_alloc s.impl.adapter_mix
            (SPA_DIRECTION_REVERSE s.impl.direction) s.impl.buffers s.impl.n_buffers])
            (handoff_call q.out_alloc s.impl.client_port.mix s.impl.direction s.impl.buffers
              (count_after W s.trace (handoff_call q.in_alloc s.impl.adapter_mix
                (SPA_DIRECTION_REVERSE s.impl.direction) s.impl.buffers s.impl.n_buffers)
                s.impl.n_buffers))).res
          else 0) := by
  unfold negotiate_buffers_handoff
  cases hi : q.in_alloc <;> cases ho : q.out_alloc <;>
    simp only [call, handoff_call, count_after, Call.is_alloc_buffers, if_true, if_false,
      Bool.false_eq_true] <;>
    constructor <;> split_ifs <;> simp_all

/-- C8, refuted as stated: on the sample converter adapter with an empty pool
and fixated parameters `buffers = 0`, `blocks = 1`, `negotiate_buffers` does
not return `-EINVAL`: it calls `calloc (0, 56)` and `pw_memblock_alloc` for
`0` bytes, hands the empty pool to both ports and returns `0`. -/
theorem negotiate_buffers_zero_buffers_allocates :
    sampleConverter.impl.n_buffers = 0 ∧
    (sampleWorld (sampleReply 0 0 0 0 0) (sampleParse 0)).spa_pod_object_parse
      (query_param (sampleWorld (sampleReply 0 0 0 0 0) (sampleParse 0)) sampleConverter)
      = some { buffers := 0, blocks := 1, size := 1024, align := 16 } ∧
    (negotiate_buffers (sampleWorld (sampleReply 0 0 0 0 0) (sampleParse 0)) 0
      sampleConverter).map (fun r => (r.1, allocations r.2.trace))
      = some (0, [Call.calloc 0 56, Call.pw_memblock_alloc 13 0]) := by
  decide

/-- C8, amended. On an empty pool, when the query stretch succeeds and the
fixated parameter object cannot be parsed (`spa_pod_object_parse` returns a
negative code: a required key is missing or malformed), `negotiate_buffers`
returns `-EINVAL`; all it did was the four query calls, so neither `calloc`
nor `pw_memblock_alloc` has been called, and the adapter's state is otherwise
unchanged. -/
theorem negotiate_buffers_unparsable (W : World) (fuel : Nat) (s s1 : State) (q : BufQuery)
    (h0 : s.impl.n_buffers = 0)
    (hq : negotiate_buffers_query W fuel s = some (Step.next q s1))
    (hp : W.spa_pod_object_parse (query_param W s) = none) :
    negotiate_buffers W fuel s
      = some (-EINVAL, { s with trace := s.trace ++ query_calls W s }) ∧
    (∀ c ∈ query_calls W s, c.is_allocation = false) := by
  obtain ⟨hs1, hqv⟩ := negotiate_buffers_query_next W fuel s s1 q hq
  have hp2 : W.spa_pod_object_parse q.param = none := by
    rw [hqv]; exact hp
  refine ⟨?_, ?_⟩
  · unfold negotiate_buffers
    simp only [h0, gt_iff_lt, lt_self_iff_false, if_false, hq]
    unfold negotiate_buffers_alloc
    simp only [hp2, hs1]
  · intro c hc
    simp only [query_calls, buffers_enum_graph, buffers_enum_client, info_client,
      info_graph, List.mem_cons, List.mem_singleton, List.not_mem_nil, or_false] at hc
    rcases hc with rfl | rfl | rfl | rfl <;> rfl

/-- C8 amended, at a concrete input: the sample converter adapter with a
parser that rejects every object. -/
theorem negotiate_buffers_unparsable_witness :
    negotiate_buffers (sampleWorld (sampleReply 0 0 0 0 0) (fun _ => none)) 0 sampleConverter
      = some (-EINVAL, { sampleConverter with
          trace := sampleConverter.trace ++
            query_calls (sampleWorld (sampleReply 0 0 0 0 0) (fun _ => none)) sampleConverter }) :=
  (negotiate_buffers_unparsable (sampleWorld (sampleReply 0 0 0 0 0) (fun _ => none)) 0
    sampleConverter
    { sampleConverter with
      trace := sampleConverter.trace ++
        query_calls (sampleWorld (sampleReply 0 0 0 0 0) (fun _ => none)) sampleConverter }
    { param := some 7, in_alloc := false, out_alloc := false }
    (by decide) (by rfl) (by rfl)).1

/-- A run of `negotiate_buffers` on an empty pool that reaches the hand-off in
state `s2` returns the result of the hand-off stretch, whose two calls are
`handoff_graph` and `handoff_client`. -/
theorem negotiate_buffers_reaches_handoff (W : World) (fuel : Nat) (s s1 s2 : State)
    (q q2 : BufQuery) (h0 : s.impl.n_buffers = 0)
    (hq : negotiate_buffers_query W fuel s = some (Step.next q s1))
    (ha : negotiate_buffers_alloc W s1 q = Step.next q2 s2) :
    negotiate_buffers W fuel s = some (negotiate_buffers_handoff W s2 q2) ∧
    (negotiate_buffers_handoff W s2 q2).2.trace =
      s2.trace ++ handoff_graph W s s2 ::
        (if (W.reply s2.trace (handoff_graph W s s2)).res < 0 then []
          else [handoff_client W s s2]) ∧
    (negotiate_buffers_handoff W s2 q2).1 =
      (if (W.reply s2.trace (handoff_graph W s s2)).res < 0
        then (W.reply s2.trace (handoff_graph W s s2)).res
        else if (W.reply (s2.trace ++ [handoff_graph W s s2]) (handoff_client W s s2)).res < 0
          then (W.reply (s2.trace ++ [handoff_graph W s s2]) (handoff_client W s s2)).res
          else 0) := by
  obtain ⟨hs1, hqv⟩ := negotiate_buffers_query_next W fuel s s1 q hq
  obtain ⟨hq2, -, hd, hm, hc⟩ := negotiate_buffers_alloc_next W s1 s2 q q2 ha
  have hd2 : s2.impl.direction = s.impl.direction := by rw [hd, hs1]
  have hm2 : s2.impl.adapter_mix = s.impl.adapter_mix := by rw [hm, hs1]
  have hc2 : s2.impl.client_port = s.impl.client_port := by rw [hc, hs1]
  have hin : q2.in_alloc = (graph_declares_alloc W s && !client_declares_alloc W s) := by
    rw [hq2, hqv]
  have hout : q2.out_alloc = client_declares_alloc W s := by
    rw [hq2, hqv]
  obtain ⟨t1, t2⟩ := negotiate_buffers_handoff_calls W s2 q2
  rw [hin, hout, hd2, hm2, hc2] at t1 t2
  refine ⟨?_, t1, t2⟩
  unfold negotiate_buffers
  simp only [h0, gt_iff_lt, lt_self_iff_false, if_false, hq, ha]

/-- C9, refuted as stated: on the sample converter adapter with an empty pool
and four buffers negotiated, the first hand-off (to the graph-facing port)
returns `-22`; `negotiate_buffers` returns `-22` and leaves `n_buffers = 4`,
not `0`, and the following `negotiate_buffers` returns `0` at once: the trace
still has the eight calls of the first run, nothing is negotiated again. -/
theorem negotiate_buffers_failed_handoff_keeps_count :
    sampleConverter.impl.n_buffers = 0 ∧
    (negotiate_buffers (sampleWorld (sampleReply 0 0 (-22) 0 0) (sampleParse 4)) 0
      sampleConverter).map (fun r => (r.1, r.2.impl.n_buffers, r.2.trace.length))
      = some (-22, 4, 8) ∧
    ((negotiate_buffers (sampleWorld (sampleReply 0 0 (-22) 0 0) (sampleParse 4)) 0
      sampleConverter).bind
      (fun r => negotiate_buffers (sampleWorld (sampleReply 0 0 (-22) 0 0) (sampleParse 4)) 0
        r.2)).map (fun r => (r.1, r.2.impl.n_buffers, r.2.trace.length))
      = some (0, 4, 8) := by
  decide

/-- C9, amended. For every run of `negotiate_buffers` that starts with
`n_buffers = 0`: `n_buffers` is non-zero afterwards only if the run reached the
hand-off (the parameters were parsed and the buffer array and the memory block
allocated); a run that reaches the hand-off has recorded the fixated buffer
count in `n_buffers` before the first hand-off call, it returns, and if either
hand-off returns a negative code it returns that code (`0` when neither
does). -/
theorem negotiate_buffers_handoff_result (W : World) (fuel : Nat) (s : State)
    (h0 : s.impl.n_buffers = 0) :
    (∀ r s3, negotiate_buffers W fuel s = some (r, s3) → s3.impl.n_buffers ≠ 0 →
      ∃ q s1 s2, negotiate_buffers_query W fuel s = some (Step.next q s1) ∧
        negotiate_buffers_alloc W s1 q = Step.next q s2) ∧
    (∀ q s1 s2, negotiate_buffers_query W fuel s = some (Step.next q s1) →
      negotiate_buffers_alloc W s1 q = Step.next q s2 →
      (∃ p, W.spa_pod_object_parse (query_param W s) = some p ∧
        s2.impl.n_buffers = toU32 p.buffers) ∧
      ∃ s3, negotiate_buffers W fuel s =
        some ((if (W.reply s2.trace (handoff_graph W s s2)).res < 0
            then (W.reply s2.trace (handoff_graph W s s2)).res
            else if (W.reply (s2.trace ++ [handoff_graph W s s2])
                (handoff_client W s s2)).res < 0
              then (W.reply (s2.trace ++ [handoff_graph W s s2]) (handoff_client W s s2)).res
              else 0), s3)) := by
  refine ⟨?_, ?_⟩
  · intro r s3 hr hn
    unfold negotiate_buffers at hr
    simp only [h0, gt_iff_lt, lt_self_iff_false, if_false] at hr
    cases hq : negotiate_buffers_query W fuel s with
    | none => simp [hq] at hr
    | some st =>
      cases st with
      | ret res s1 =>
        simp only [hq, Option.some.injEq, Prod.mk.injEq] at hr
        obtain ⟨-, rfl⟩ := hr
        have e := negotiate_buffers_query_ret W fuel s s1 res hq
        rw [e] at hn
        exact absurd h0 hn
      | next q s1 =>
        have hs1 := (negotiate_buffers_query_next W fuel s s1 q hq).1
        cases ha : negotiate_buffers_alloc W s1 q with
        | ret res s2 =>
          simp only [hq, ha, Option.some.injEq, Prod.mk.injEq] at hr
          obtain ⟨-, rfl⟩ := hr
          have e := negotiate_buffers_alloc_ret W s1 s2 q res ha
          rw [e, hs1] at hn
          exact absurd h0 hn
        | next q2 s2 =>
          have e := (negotiate_buffers_alloc_next W s1 s2 q q2 ha).1
          subst e
          exact ⟨q2, s1, s2, rfl, ha⟩
  · intro q s1 s2 hq ha
    obtain ⟨e, -, t2⟩ := negotiate_buffers_reaches_handoff W fuel s s1 s2 q q h0 hq ha
    obtain ⟨-, hqv⟩ := negotiate_buffers_query_next W fuel s s1 q hq
    obtain ⟨-, ⟨p, hp, hn⟩, -⟩ := negotiate_buffers_alloc_next W s1 s2 q q ha
    refine ⟨⟨p, ?_, hn⟩, (negotiate_buffers_handoff W s2 q).2, ?_⟩
    · rw [hqv] at hp
      exact hp
    · rw [e, ← t2]

/-- C9 amended, at a concrete input: the sample converter adapter, whose
first hand-off fails with `-22`. -/
theorem negotiate_buffers_handoff_result_witness :
    sampleConverter.impl.n_buffers = 0 ∧
    ∃ q s1 s2,
      negotiate_buffers_query (sampleWorld (sampleReply 0 0 (-22) 0 0) (sampleParse 4)) 0
        sampleConverter = some (Step.next q s1) ∧
      negotiate_buffers_alloc (sampleWorld (sampleReply 0 0 (-22) 0 0) (sampleParse 4)) s1 q
        = Step.next q s2 :=
  ⟨by decide,
    (negotiate_buffers_handoff_result (sampleWorld (sampleReply 0 0 (-22) 0 0) (sampleParse 4))
      0 sampleConverter (by decide)).1 (-22) _ (by rfl) (by decide)⟩

/-- C10. In every run of `negotiate_buffers` on an empty pool that reaches the
hand-off, the run returns and its hand-off calls are: one call on the adapter
mix (the graph-facing port), then, unless that call failed, one call on the
client port's mix.  The first is the self-allocate call `port_alloc_buffers`
exactly when the graph-facing port declares `CAN_ALLOC_BUFFERS` and the
client-facing port does not; the second is the self-allocate call exactly when
the client-facing port declares it.  So never both: at most one port is handed
the buffers through `port_alloc_buffers`, every other hand-off is the supply
call `port_use_buffers`, and both are supply calls when neither port declares
the flag.  This covers the four combinations of the two flags. -/
theorem handoff_at_most_one_self_alloc (W : World) (fuel : Nat) (s s1 s2 : State)
    (q q2 : BufQuery) (h0 : s.impl.n_buffers = 0)
    (hq : negotiate_buffers_query W fuel s = some (Step.next q s1))
    (ha : negotiate_buffers_alloc W s1 q = Step.next q2 s2) :
    (∃ r s3, negotiate_buffers W fuel s = some (r, s3) ∧
      s3.trace = s2.trace ++ handoff_graph W s s2 ::
        (if (W.reply s2.trace (handoff_graph W s s2)).res < 0 then []
          else [handoff_client W s s2])) ∧
    (handoff_graph W s s2).node = some s.impl.adapter_mix ∧
    (handoff_client W s s2).node = some s.impl.client_port.mix ∧
    ((handoff_graph W s s2).is_alloc_buffers = true ↔
      graph_declares_alloc W s = true ∧ client_declares_alloc W s = false) ∧
    ((handoff_client W s s2).is_alloc_buffers = true ↔ client_declares_alloc W s = true) ∧
    ¬ ((handoff_graph W s s2).is_alloc_buffers = true ∧
        (handoff_client W s s2).is_alloc_buffers = true) ∧
    ((handoff_graph W s s2).is_alloc_buffers = false →
      (handoff_graph W s s2).is_use_buffers = true) ∧
    ((handoff_client W s s2).is_alloc_buffers = false →
      (handoff_client W s s2).is_use_buffers = true) ∧
    (graph_declares_alloc W s = false → client_declares_alloc W s = false →
      (handoff_graph W s s2).is_use_buffers = true ∧
      (handoff_client W s s2).is_use_buffers = true) := by
  obtain ⟨e, t1, -⟩ := negotiate_buffers_reaches_handoff W fuel s s1 s2 q q2 h0 hq ha
  refine ⟨⟨_, _, e, t1⟩, ?_⟩
  unfold handoff_graph handoff_client handoff_call
  cases graph_declares_alloc W s <;> cases client_declares_alloc W s <;>
    simp [Call.node, Call.is_alloc_buffers, Call.is_use_buffers]

/-- C10, at a concrete input: the sample converter adapter with both ports
declaring `CAN_ALLOC_BUFFERS` (flags `4`); the graph-facing port gets the
supply call and the client-facing port the self-allocate call. -/
theorem handoff_at_most_one_self_alloc_witness :
    ∃ r s3, negotiate_buffers (sampleWorld (sampleReply 4 4 0 0 0) (sampleParse 4)) 0
        sampleConverter = some (r, s3) ∧
      s3.trace.drop 7 =
        [Call.port_use_buffers 2 SPA_DIRECTION_OUTPUT 0 4096 4,
          Call.port_alloc_buffers 3 SPA_DIRECTION_INPUT 0 0 0 4096 4] :=
  (handoff_at_most_one_self_alloc (sampleWorld (sampleReply 4 4 0 0 0) (sampleParse 4)) 0
    sampleConverter
    { sampleConverter with
      trace := query_calls (sampleWorld (sampleReply 4 4 0 0 0) (sampleParse 4)) sampleConverter }
    (match negotiate_buffers_alloc (sampleWorld (sampleReply 4 4 0 0 0) (sampleParse 4))
        { sampleConverter with
          trace := query_calls (sampleWorld (sampleReply 4 4 0 0 0) (sampleParse 4))
            sampleConverter }
        { param := some 7, in_alloc := false, out_alloc := true } with
      | Step.next _ s2 => s2
      | Step.ret _ s2 => s2)
    { param := some 7, in_alloc := false, out_alloc := true }
    { param := some 7, in_alloc := false, out_alloc := true }
    (by decide) (by rfl) (by rfl)).1.imp
    (fun _ h => h.imp (fun _ h2 => ⟨h2.1, by rw [h2.2]; decide⟩))

/-- C11, refuted as stated: on the sample converter adapter both ports declare
`CAN_ALLOC_BUFFERS` (flags `4`); the graph-facing port (node `2`, direction
output) is then handed the two buffers through `port_use_buffers` and the
client-facing port (mix `3`) through `port_alloc_buffers`: it is the
graph-facing port's self-allocation that is forced off. -/
theorem graph_port_self_alloc_forced_off :
    graph_declares_alloc (sampleWorld (sampleReply 4 4 0 0 0) (sampleParse 2))
      sampleConverter = true ∧
    client_declares_alloc (sampleWorld (sampleReply 4 4 0 0 0) (sampleParse 2))
      sampleConverter = true ∧
    (negotiate_buffers (sampleWorld (sampleReply 4 4 0 0 0) (sampleParse 2)) 0
      sampleConverter).map (fun r => (r.1, handoffs r.2.trace))
      = some (0, [Call.port_use_buffers 2 SPA_DIRECTION_OUTPUT 0 4096 2,
          Call.port_alloc_buffers 3 SPA_DIRECTION_INPUT 0 0 0 4096 2]) := by
  decide

/-- C11, amended. In every run of `negotiate_buffers` on an empty pool that
reaches the hand-off: when the graph-facing port (the adapter mix port of the
reverse direction) declares `CAN_ALLOC_BUFFERS` and the client-facing port
does not, the graph-facing port is handed the buffers through
`port_alloc_buffers` and the client-facing port through `port_use_buffers`;
when the client-facing port declares `CAN_ALLOC_BUFFERS`, also together with
the graph-facing port, it is the graph-facing port's self-allocation that is
off: the graph-facing port gets `port_use_buffers` and the client-facing port
`port_alloc_buffers`.  The second hand-off is made unless the first returned a
negative code. -/
theorem handoff_client_alloc_wins (W : World) (fuel : Nat) (s s1 s2 : State)
    (q q2 : BufQuery) (h0 : s.impl.n_buffers = 0)
    (hq : negotiate_buffers_query W fuel s = some (Step.next q s1))
    (ha : negotiate_buffers_alloc W s1 q = Step.next q2 s2) :
    (∃ r s3, negotiate_buffers W fuel s = some (r, s3) ∧
      s3.trace = s2.trace ++ handoff_graph W s s2 ::
        (if (W.reply s2.trace (handoff_graph W s s2)).res < 0 then []
          else [handoff_client W s s2])) ∧
    (graph_declares_alloc W s = true → client_declares_alloc W s = false →
      handoff_graph W s s2 = Call.port_alloc_buffers s.impl.adapter_mix
        (SPA_DIRECTION_REVERSE s.impl.direction) 0 0 0 s2.impl.buffers s2.impl.n_buffers ∧
      handoff_client W s s2 = Call.port_use_buffers s.impl.client_port.mix
        s.impl.direction 0 s2.impl.buffers (W.reply s2.trace (handoff_graph W s s2)).count) ∧
    (client_declares_alloc W s = true →
      handoff_graph W s s2 = Call.port_use_buffers s.impl.adapter_mix
        (SPA_DIRECTION_REVERSE s.impl.direction) 0 s2.impl.buffers s2.impl.n_buffers ∧
      handoff_client W s s2 = Call.port_alloc_buffers s.impl.client_port.mix
        s.impl.direction 0 0 0 s2.impl.buffers s2.impl.n_buffers) := by
  obtain ⟨e, t1, -⟩ := negotiate_buffers_reaches_handoff W fuel s s1 s2 q q2 h0 hq ha
  refine ⟨⟨_, _, e, t1⟩, ?_, ?_⟩
  · intro hg hc
    simp [handoff_graph, handoff_client, handoff_call, count_after, Call.is_alloc_buffers,
      hg, hc]
  · intro hc
    simp [handoff_graph, handoff_client, handoff_call, count_after, Call.is_alloc_buffers,
      hc]

/-- C11 amended, at a concrete input: on the sample converter adapter only the
graph-facing port declares `CAN_ALLOC_BUFFERS`; it is handed the buffers
through `port_alloc_buffers`. -/
theorem handoff_client_alloc_wins_witness :
    ∃ s2, handoff_graph (sampleWorld (sampleReply 4 0 0 0 0) (sampleParse 4)) sampleConverter s2
      = Call.port_alloc_buffers 2 SPA_DIRECTION_OUTPUT 0 0 0 s2.impl.buffers
          s2.impl.n_buffers :=
  ⟨_, ((handoff_client_alloc_wins (sampleWorld (sampleReply 4 0 0 0 0) (sampleParse 4)) 0
    sampleConverter
    { sampleConverter with
      trace := query_calls (sampleWorld (sampleReply 4 0 0 0 0) (sampleParse 4)) sampleConverter }
    (match negotiate_buffers_alloc (sampleWorld (sampleReply 4 0 0 0 0) (sampleParse 4))
        { sampleConverter with
          trace := query_calls (sampleWorld (sampleReply 4 0 0 0 0) (sampleParse 4))
            sampleConverter }
        { param := some 7, in_alloc := true, out_alloc := false } with
      | Step.next _ s2 => s2
      | Step.ret _ s2 => s2)
    { param := some 7, in_alloc := true, out_alloc := false }
    { param := some 7, in_alloc := true, out_alloc := false }
    (by decide) (by rfl) (by rfl)).2.1 (by decide) (by decide)).1⟩

/-- The allocation stretch of `negotiate_buffers`, case by case, for
parameters that parse to `p`: `calloc` returns `NULL` and the stretch returns
`-ENOMEM` with `mem` untouched; or the shared-memory allocator returns a
negative code and the stretch returns it, `mem` being what the allocator
stored; or the count is recorded and the buffers are laid out. -/
theorem negotiate_buffers_alloc_eq (W : World) (s : State) (q : BufQuery)
    (p : BufferParams) (hp : W.spa_pod_object_parse q.param = some p) :
    negotiate_buffers_alloc W s q =
      if (W.reply (trace_at_calloc s) (calloc_call W p)).ptr = 0 then
        Step.ret (-ENOMEM)
          { s with trace := trace_at_calloc s ++ [calloc_call W p], impl.buffers := 0 }
      else if (W.reply (trace_at_memblock W s p) (memblock_call W p)).res < 0 then
        Step.ret (W.reply (trace_at_memblock W s p) (memblock_call W p)).res
          { s with
            trace := trace_at_memblock W s p ++ [memblock_call W p]
            impl.buffers := (W.reply (trace_at_calloc s) (calloc_call W p)).ptr
            impl.mem := (W.reply (trace_at_memblock W s p) (memblock_call W p)).ptr }
      else
        Step.next q
          { s with
            trace := trace_at_memblock W s p ++ [memblock_call W p, layout_call W s p]
            impl.buffers := (W.reply (trace_at_calloc s) (calloc_call W p)).ptr
            impl.mem := (W.reply (trace_at_memblock W s p) (memblock_call W p)).ptr
            impl.n_buffers := toU32 p.buffers } := by
  unfold negotiate_buffers_alloc
  simp only [hp, call]
  by_cases hb : s.impl.buffers = 0 <;> by_cases hmem : s.impl.mem = 0 <;>
    simp only [layout_call, trace_at_memblock, memblock_call, memblock_request,
      buffer_data_size, trace_at_calloc, calloc_call, alloc_info, hb, hmem, ne_eq,
      not_true_eq_false, not_false_eq_true, if_true, if_false, List.append_nil,
      List.append_assoc, List.singleton_append, List.cons_append, List.nil_append] <;>
    split_ifs with h1 h2 <;> first | rfl | rw [h1]

/-- C16, refuted as stated: the sample converter adapter has count `0` but
still holds the array `4096` and the memory block `8192` of an earlier pool
(the state after a format was cleared); `calloc` returns `NULL`.
`negotiate_buffers` returns `-ENOMEM` with `n_buffers = 0`, but the memory
block `8192` is still held. -/
theorem negotiate_buffers_calloc_failure_keeps_block :
    ({ sampleConverter with impl.buffers := 4096, impl.mem := 8192 } : State).impl.n_buffers
      = 0 ∧
    (negotiate_buffers (sampleWorld callocFailsReply (sampleParse 4)) 0
      { sampleConverter with impl.buffers := 4096, impl.mem := 8192 }).map
      (fun r => (r.1, r.2.impl.n_buffers, r.2.impl.mem, handoffs r.2.trace))
      = some (-ENOMEM, 0, 8192, []) := by
  decide

/-- C16, amended. In a run of `negotiate_buffers` on an empty pool whose
parameters parse: if `calloc` returns `NULL` the run returns `-ENOMEM` and
`mem` is what it was (a block held from an earlier pool is still held, none is
held if none was); if `calloc` succeeds and `pw_memblock_alloc` returns a
negative code the run returns that code and `mem` is what the allocator stored
through the pointer, the block held before having been released.  In both
cases `n_buffers` is `0` afterwards and no call of the run is a hand-off to a
port. -/
theorem negotiate_buffers_allocation_failure (W : World) (fuel : Nat) (s s1 : State)
    (q : BufQuery) (p : BufferParams) (h0 : s.impl.n_buffers = 0)
    (hq : negotiate_buffers_query W fuel s = some (Step.next q s1))
    (hp : W.spa_pod_object_parse (query_param W s) = some p) :
    ((W.reply (trace_at_calloc s1) (calloc_call W p)).ptr = 0 →
      ∃ s3 new, negotiate_buffers W fuel s = some (-ENOMEM, s3) ∧
        s3.impl.n_buffers = 0 ∧ s3.impl.mem = s.impl.mem ∧ s3.impl.buffers = 0 ∧
        s3.trace = s.trace ++ new ∧
        ∀ c ∈ new, c.is_alloc_buffers = false ∧ c.is_use_buffers = false) ∧
    ((W.reply (trace_at_calloc s1) (calloc_call W p)).ptr ≠ 0 →
      (W.reply (trace_at_memblock W s1 p) (memblock_call W p)).res < 0 →
      ∃ s3 new, negotiate_buffers W fuel s
          = some ((W.reply (trace_at_memblock W s1 p) (memblock_call W p)).res, s3) ∧
        s3.impl.n_buffers = 0 ∧
        s3.impl.mem = (W.reply (trace_at_memblock W s1 p) (memblock_call W p)).ptr ∧
        (s.impl.mem ≠ 0 → Call.pw_memblock_free s.impl.mem ∈ new) ∧
        s3.trace = s.trace ++ new ∧
        ∀ c ∈ new, c.is_alloc_buffers = false ∧ c.is_use_buffers = false) := by
  obtain ⟨hs1, hqv⟩ := negotiate_buffers_query_next W fuel s s1 q hq
  have hp2 : W.spa_pod_object_parse q.param = some p := by
    rw [hqv]; exact hp
  have hrun : negotiate_buffers W fuel s =
      match negotiate_buffers_alloc W s1 q with
      | Step.ret res s2 => some (res, s2)
      | Step.next q2 s2 => some (negotiate_buffers_handoff W s2 q2) := by
    unfold negotiate_buffers
    simp only [h0, gt_iff_lt, lt_self_iff_false, if_false, hq]
  have hquery : ∀ c ∈ query_calls W s, c.is_alloc_buffers = false ∧ c.is_use_buffers = false := by
    intro c hc
    simp only [query_calls, buffers_enum_graph, buffers_enum_client, info_client,
      info_graph, List.mem_cons, List.mem_singleton, List.not_mem_nil, or_false] at hc
    rcases hc with rfl | rfl | rfl | rfl <;> exact ⟨rfl, rfl⟩
  have hfree : ∀ c ∈ (if s.impl.buffers ≠ 0 then [Call.free s.impl.buffers] else []),
      c.is_alloc_buffers = false ∧ c.is_use_buffers = false := by
    intro c hc
    split_ifs at hc
    · simp only [List.mem_singleton] at hc
      subst hc
      exact ⟨rfl, rfl⟩
    · simp at hc
  have hrel : ∀ c ∈ (if s.impl.mem ≠ 0 then [Call.pw_memblock_free s.impl.mem] else []),
      c.is_alloc_buffers = false ∧ c.is_use_buffers = false := by
    intro c hc
    split_ifs at hc
    · simp only [List.mem_singleton] at hc
      subst hc
      exact ⟨rfl, rfl⟩
    · simp at hc
  refine ⟨?_, ?_⟩
  · intro hc
    rw [hrun, negotiate_buffers_alloc_eq W s1 q p hp2, if_pos hc]
    refine ⟨_, query_calls W s ++
      (if s.impl.buffers ≠ 0 then [Call.free s.impl.buffers] else []) ++ [calloc_call W p],
      rfl, ?_, ?_, rfl, ?_, ?_⟩
    · simp [hs1, h0]
    · simp [hs1]
    · simp [hs1, trace_at_calloc, List.append_assoc]
    · intro c hc
      simp only [List.mem_append, List.mem_singleton] at hc
      rcases hc with (hc | hc) | hc
      · exact hquery c hc
      · exact hfree c hc
      · subst hc
        exact ⟨rfl, rfl⟩
  · intro hc hm
    rw [hrun, negotiate_buffers_alloc_eq W s1 q p hp2, if_neg hc, if_pos hm]
    refine ⟨_, query_calls W s ++
      (if s.impl.buffers ≠ 0 then [Call.free s.impl.buffers] else []) ++ [calloc_call W p] ++
      (if s.impl.mem ≠ 0 then [Call.pw_memblock_free s.impl.mem] else []) ++
      [memblock_call W p], rfl, ?_, rfl, ?_, ?_, ?_⟩
    · simp [hs1, h0]
    · intro hmem
      simp [hmem]
    · simp [hs1, trace_at_memblock, trace_at_calloc, List.append_assoc]
    · intro c hc
      simp only [List.mem_append, List.mem_singleton] at hc
      rcases hc with (((hc | hc) | hc) | hc) | hc
      · exact hquery c hc
      · exact hfree c hc
      · subst hc
        exact ⟨rfl, rfl⟩
      · exact hrel c hc
      · subst hc
        exact ⟨rfl, rfl⟩

/-- C16 amended, at a concrete input: the sample converter adapter holding
nothing, with an exhausted C allocator. -/
theorem negotiate_buffers_allocation_failure_witness :
    ∃ s3 new, negotiate_buffers (sampleWorld callocFailsReply (sampleParse 4)) 0
        sampleConverter = some (-ENOMEM, s3) ∧
      s3.impl.n_buffers = 0 ∧ s3.impl.mem = sampleConverter.impl.mem ∧
      s3.impl.buffers = 0 ∧ s3.trace = sampleConverter.trace ++ new ∧
      ∀ c ∈ new, c.is_alloc_buffers = false ∧ c.is_use_buffers = false :=
  (negotiate_buffers_allocation_failure (sampleWorld callocFailsReply (sampleParse 4)) 0
    sampleConverter
    { sampleConverter with
      trace := query_calls (sampleWorld callocFailsReply (sampleParse 4)) sampleConverter }
    { param := some 7, in_alloc := false, out_alloc := false }
    { buffers := 4, blocks := 1, size := 1024, align := 16 }
    (by decide) (by rfl) (by rfl)).1 (by decide)

/-- C12, the code at a failing input.  Whatever the layout planner computes,
the size `negotiate_buffers` passes to `pw_memblock_alloc` is a 32-bit product
and so below `2^32`.  With the fixated parameters `buffers = 64`, `blocks = 1`,
`size = 67108864` the claim asks for at least `64 * 1 * 67108864 = 2^32`
bytes; on the sample converter adapter the run succeeds (returns `0`, records
64 buffers) and requests `1024` bytes. -/
theorem memblock_request_wraps :
    (∀ (W : World) (p : BufferParams), memblock_request W p < 4294967296) ∧
    ((64 : Int) * 1 * 67108864 = 4294967296) ∧
    (negotiate_buffers (sampleWorld (sampleReply 0 0 0 0 0) largeParse) 0
      sampleConverter).map (fun r => (r.1, r.2.impl.n_buffers, allocations r.2.trace))
      = some (0, 64,
          [calloc_call (sampleWorld (sampleReply 0 0 0 0 0) largeParse)
              { buffers := 64, blocks := 1, size := 67108864, align := 16 },
            memblock_call (sampleWorld (sampleReply 0 0 0 0 0) largeParse)
              { buffers := 64, blocks := 1, size := 67108864, align := 16 }]) ∧
    memblock_request (sampleWorld (sampleReply 0 0 0 0 0) largeParse)
      { buffers := 64, blocks := 1, size := 67108864, align := 16 } = 1024 := by
  refine ⟨?_, by decide, by decide, by decide⟩
  intro W p
  unfold memblock_request
  exact Nat.mod_lt _ (by decide)

/-- C14, refuted as stated: on the sample converter adapter with an empty pool
the client-facing buffer enumeration, filtered by the graph-facing port's
requirement, returns `0` results; `negotiate_buffers` does not fail with
`-ENOTSUP`: it goes on with the graph-facing port's requirement, calls `calloc`
and `pw_memblock_alloc`, hands the pool to both ports and returns `0`. -/
theorem negotiate_buffers_empty_intersection_allocates :
    sampleConverter.impl.n_buffers = 0 ∧
    (clientNoBuffersReply [buffers_enum_graph (sampleWorld clientNoBuffersReply (sampleParse 4))
        sampleConverter]
      (buffers_enum_client (sampleWorld clientNoBuffersReply (sampleParse 4))
        sampleConverter)).res = 0 ∧
    (negotiate_buffers (sampleWorld clientNoBuffersReply (sampleParse 4)) 0
      sampleConverter).map
      (fun r => (r.1, (allocations r.2.trace).length, (handoffs r.2.trace).length))
      = some (0, 2, 2) := by
  decide

/-- C14, amended. On an empty pool: if the graph-facing buffer enumeration
yields nothing (`<= 0`), `negotiate_buffers` returns `-ENOTSUP`; if it yields a
result and the client-facing enumeration returns a negative code,
`negotiate_buffers` returns that code.  In both cases, the diagnostic
enumeration being finite (it ends within `n` calls) and given at least that
much fuel, the call returns, all it did was `port_enum_params` calls, so no
allocation and no hand-off, and apart from the trace the state is unchanged. -/
theorem negotiate_buffers_enum_failure (W : World) (fuel n : Nat) (s : State)
    (h0 : s.impl.n_buffers = 0) (hn : n ≤ fuel) :
    ((W.reply s.trace (buffers_enum_graph W s)).res ≤ 0 →
      enum_ends W s.impl.adapter_mix (SPA_DIRECTION_REVERSE s.impl.direction) 0
        W.SPA_PARAM_Buffers n (s.trace ++ [buffers_enum_graph W s]) 0 = true →
      ∃ new, negotiate_buffers W fuel s
          = some (-ENOTSUP, { s with trace := s.trace ++ new }) ∧
        ∀ c ∈ new, c.is_enum_params = true) ∧
    (0 < (W.reply s.trace (buffers_enum_graph W s)).res →
      (W.reply (s.trace ++ [buffers_enum_graph W s]) (buffers_enum_client W s)).res < 0 →
      enum_ends W s.impl.cnode s.impl.direction 0 W.SPA_PARAM_Buffers n
        (s.trace ++ [buffers_enum_graph W s] ++ [buffers_enum_client W s]) 0 = true →
      ∃ new, negotiate_buffers W fuel s
          = some ((W.reply (s.trace ++ [buffers_enum_graph W s])
              (buffers_enum_client W s)).res, { s with trace := s.trace ++ new }) ∧
        ∀ c ∈ new, c.is_enum_params = true) := by
  refine ⟨?_, ?_⟩
  · intro h1 hends
    obtain ⟨new, e, hnew⟩ := debug_params_loop_returns W s.impl.adapter_mix
      (SPA_DIRECTION_REVERSE s.impl.direction) 0 W.SPA_PARAM_Buffers n fuel
      { s with trace := s.trace ++ [buffers_enum_graph W s] } 0 hends hn
    refine ⟨buffers_enum_graph W s :: new, ?_, ?_⟩
    · unfold negotiate_buffers negotiate_buffers_query
      simp only [buffers_enum_graph] at h1 e ⊢
      simp only [h0, gt_iff_lt, lt_self_iff_false, if_false, call, h1, if_true,
        debug_params, e]
      simp
    · intro c hc
      rcases List.mem_cons.mp hc with hc | hc
      · subst hc; rfl
      · exact hnew c hc
  · intro h1 h2 hends
    obtain ⟨new, e, hnew⟩ := debug_params_loop_returns W s.impl.cnode
      s.impl.direction 0 W.SPA_PARAM_Buffers n fuel
      { s with trace := s.trace ++ [buffers_enum_graph W s] ++ [buffers_enum_client W s] } 0
      hends hn
    refine ⟨buffers_enum_graph W s :: buffers_enum_client W s :: new, ?_, ?_⟩
    · have h1n : ¬ (W.reply s.trace (buffers_enum_graph W s)).res ≤ 0 := not_le.mpr h1
      unfold negotiate_buffers negotiate_buffers_query
      simp only [buffers_enum_graph, buffers_enum_client] at h1n h2 e ⊢
      simp only [h0, gt_iff_lt, lt_self_iff_false, if_false, call, h1n, h2, if_true,
        debug_params, e]
      simp
    · intro c hc
      rcases List.mem_cons.mp hc with hc | hc
      · subst hc; rfl
      · rcases List.mem_cons.mp hc with hc | hc
        · subst hc; rfl
        · exact hnew c hc

/-- C14 amended, at a concrete input: the sample converter adapter against a
client node that fails every enumeration with `-22`. -/
theorem negotiate_buffers_enum_failure_witness :
    ∃ new, negotiate_buffers (sampleWorld clientEnumFailsReply (sampleParse 4)) 1
        sampleConverter = some (-22, { sampleConverter with
          trace := sampleConverter.trace ++ new }) ∧
      ∀ c ∈ new, c.is_enum_params = true :=
  (negotiate_buffers_enum_failure (sampleWorld clientEnumFailsReply (sampleParse 4)) 1 1
    sampleConverter (by decide) (by decide)).2 (by decide) (by decide) (by decide)

/-- C13, refuted as stated: on the sample converter adapter the graph-facing
port (node `2`) accepts the fixated format `7` and the client-facing port
(node `1`) rejects it with `-22`.  `negotiate_format` returns `-22` after its
four calls and makes no call to undo the first commit: the graph-facing port,
which held no format, is left holding format `7`. -/
theorem negotiate_format_first_commit_stays :
    (negotiate_format (sampleWorld clientRejectsFormatReply (sampleParse 4)) 0
      sampleConverter).map
      (fun r => (r.1, r.2.trace.length,
        port_format (sampleWorld clientRejectsFormatReply (sampleParse 4)) 2
          SPA_DIRECTION_OUTPUT [] r.2.trace none,
        port_format (sampleWorld clientRejectsFormatReply (sampleParse 4)) 1
          SPA_DIRECTION_INPUT [] r.2.trace none))
      = some (-22, 4, some 7, none) := by
  decide

/-- C13, amended. When both format enumerations of `negotiate_format` yield a
result: if the set-format commit on the graph-facing port returns a negative
code, `negotiate_format` returns that code and the client-facing port receives
no set-format call; if the first commit is accepted and the commit on the
client-facing port returns a negative code, `negotiate_format` returns that
code and makes no further call.  In both cases the state is unchanged apart
from the trace, so `n_buffers`, `buffers` and `mem` are as before and no
buffer pool is created. -/
theorem negotiate_format_commit_failure (W : World) (fuel : Nat) (s : State)
    (h1 : 0 < (W.reply s.trace (format_enum_graph W s)).res)
    (h2 : 0 < (W.reply (s.trace ++ [format_enum_graph W s]) (format_enum_client W s)).res) :
    ((W.reply (s.trace ++ [format_enum_graph W s, format_enum_client W s])
        (format_commit_graph W s)).res < 0 →
      negotiate_format W fuel s =
        some ((W.reply (s.trace ++ [format_enum_graph W s, format_enum_client W s])
            (format_commit_graph W s)).res,
          { s with trace := s.trace ++ [format_enum_graph W s, format_enum_client W s,
              format_commit_graph W s] })) ∧
    (0 ≤ (W.reply (s.trace ++ [format_enum_graph W s, format_enum_client W s])
        (format_commit_graph W s)).res →
      (W.reply (s.trace ++ [format_enum_graph W s, format_enum_client W s,
        format_commit_graph W s]) (format_commit_client W s)).res < 0 →
      negotiate_format W fuel s =
        some ((W.reply (s.trace ++ [format_enum_graph W s, format_enum_client W s,
            format_commit_graph W s]) (format_commit_client W s)).res,
          { s with trace := s.trace ++ [format_enum_graph W s, format_enum_client W s,
              format_commit_graph W s, format_commit_client W s] })) := by
  have h1n : ¬ (W.reply s.trace (format_enum_graph W s)).res ≤ 0 := not_le.mpr h1
  have h2n : ¬ (W.reply (s.trace ++ [format_enum_graph W s])
      (format_enum_client W s)).res ≤ 0 := not_le.mpr h2
  refine ⟨?_, ?_⟩
  · intro h3
    unfold negotiate_format
    simp only [format_commit_graph, format_fixated, format_enum_graph, format_enum_client,
      List.append_assoc, List.singleton_append, List.cons_append, List.nil_append]
      at h1n h2n h3 ⊢
    simp only [call, h1n, h2n, h3, if_true, if_false, List.append_assoc,
      List.singleton_append, List.cons_append, List.nil_append]
  · intro h3 h4
    have h3n : ¬ (W.reply (s.trace ++ [format_enum_graph W s, format_enum_client W s])
        (format_commit_graph W s)).res < 0 := not_lt.mpr h3
    unfold negotiate_format
    simp only [format_commit_client, format_commit_graph, format_fixated, format_enum_graph,
      format_enum_client, List.append_assoc, List.singleton_append, List.cons_append,
      List.nil_append] at h1n h2n h3n h4 ⊢
    simp only [call, h1n, h2n, h3n, h4, if_true, if_false, List.append_assoc,
      List.singleton_append, List.cons_append, List.nil_append]

/-- C13 amended, at a concrete input: the sample converter adapter against a
client node that rejects the format with `-22`. -/
theorem negotiate_format_commit_failure_witness :
    negotiate_format (sampleWorld clientRejectsFormatReply (sampleParse 4)) 0 sampleConverter
      = some (-22, { sampleConverter with
          trace := [Call.port_enum_params 2 SPA_DIRECTION_OUTPUT 0 3 0 none,
            Call.port_enum_params 1 SPA_DIRECTION_INPUT 0 3 0 (some 7),
            Call.port_set_param 2 SPA_DIRECTION_OUTPUT 0 4 0 (some 7),
            Call.port_set_param 1 SPA_DIRECTION_INPUT 0 4 0 (some 7)] }) :=
  (negotiate_format_commit_failure (sampleWorld clientRejectsFormatReply (sampleParse 4)) 0
    sampleConverter (by decide) (by decide)).2 (by decide) (by decide)

/-- A run of `negotiate_format` that returns, with whatever code, leaves the
adapter's `struct impl` as it was. -/
theorem negotiate_format_impl (W : World) (fuel : Nat) (s s1 : State) (res : Int)
    (h : negotiate_format W fuel s = some (res, s1)) : s1.impl = s.impl := by
  unfold negotiate_format at h
  simp only [call, debug_params] at h
  split_ifs at h
  all_goals first
    | (simp at h
       obtain ⟨hd, -⟩ := h
       have e := debug_params_loop_impl W _ _ _ _ _ _ _ _ hd
       exact e)
    | (simp at h
       obtain ⟨-, rfl⟩ := h
       rfl)

/-- A run of `negotiate_format` in which both enumerations yield a result and
both commits are accepted makes exactly its four calls and returns the code of
the second commit. -/
theorem negotiate_format_success (W : World) (fuel : Nat) (s : State)
    (h1 : 0 < (W.reply s.trace (format_enum_graph W s)).res)
    (h2 : 0 < (W.reply (s.trace ++ [format_enum_graph W s]) (format_enum_client W s)).res)
    (h3 : 0 ≤ (W.reply (s.trace ++ [format_enum_graph W s, format_enum_client W s])
        (format_commit_graph W s)).res)
    (h4 : 0 ≤ (W.reply (s.trace ++ [format_enum_graph W s, format_enum_client W s,
        format_commit_graph W s]) (format_commit_client W s)).res) :
    negotiate_format W fuel s =
      some ((W.reply (s.trace ++ [format_enum_graph W s, format_enum_client W s,
          format_commit_graph W s]) (format_commit_client W s)).res,
        { s with trace := s.trace ++ [format_enum_graph W s, format_enum_client W s,
            format_commit_graph W s, format_commit_client W s] }) := by
  have h1n : ¬ (W.reply s.trace (format_enum_graph W s)).res ≤ 0 := not_le.mpr h1
  have h2n : ¬ (W.reply (s.trace ++ [format_enum_graph W s])
      (format_enum_client W s)).res ≤ 0 := not_le.mpr h2
  have h3n : ¬ (W.reply (s.trace ++ [format_enum_graph W s, format_enum_client W s])
      (format_commit_graph W s)).res < 0 := not_lt.mpr h3
  have h4n : ¬ (W.reply (s.trace ++ [format_enum_graph W s, format_enum_client W s,
      format_commit_graph W s]) (format_commit_client W s)).res < 0 := not_lt.mpr h4
  unfold negotiate_format
  simp only [format_commit_client, format_commit_graph, format_fixated, format_enum_graph,
    format_enum_client, List.append_assoc, List.singleton_append, List.cons_append,
    List.nil_append] at h1n h2n h3n h4n ⊢
  simp only [call, h1n, h2n, h3n, h4n, if_true, if_false, List.append_assoc,
    List.singleton_append, List.cons_append, List.nil_append]

/-- C15, refuted as stated: the sample converter adapter has a pool of four
buffers.  A `port_set_param` of a new format (pod `9`) on port `0` succeeds
(`negotiate_format` completes and returns `0`) and leaves `n_buffers = 4`; the
next `port_use_buffers` then returns `0` after the forwarded call alone: no
enumeration and no allocation, the pool is not rebuilt. -/
theorem set_format_keeps_pool_count :
    (impl_node_port_set_param (sampleWorld (sampleReply 0 0 0 0 0) (sampleParse 4)) 0
      samplePool SPA_DIRECTION_INPUT 0 4 0 (some 9)).map
      (fun r => (r.1, r.2.impl.n_buffers, r.2.trace.length)) = some (0, 4, 5) ∧
    ((impl_node_port_set_param (sampleWorld (sampleReply 0 0 0 0 0) (sampleParse 4)) 0
      samplePool SPA_DIRECTION_INPUT 0 4 0 (some 9)).bind
      (fun r => impl_node_port_use_buffers (sampleWorld (sampleReply 0 0 0 0 0) (sampleParse 4))
        0 r.2 SPA_DIRECTION_INPUT 0 12288 4)).map
      (fun r => (r.1, r.2.impl.n_buffers, r.2.trace.drop 5))
      = some (0, 4, [Call.port_use_buffers 2 SPA_DIRECTION_INPUT 0 12288 4]) := by
  decide

/-- C15, amended. In converter mode, for the Format parameter and the
adapter's own direction: a `port_set_param` that clears the format
(`param = NULL`, any port id) and whose two forwarded calls are accepted
returns the code of the second and leaves `n_buffers = 0`, so that the next
`negotiate_buffers` does not return at its guard; a `port_set_param` that
commits a format on port `0` (`param` not `NULL`, running `negotiate_format`)
leaves `n_buffers` as it was whenever it returns, and when the forwarded call,
both enumerations and both commits succeed it returns the code of the last
commit after exactly these five calls. -/
theorem set_format_pool_count (W : World) (fuel : Nat) (s : State) (port_id flags : Nat)
    (hc : s.impl.use_converter = true) :
    (0 ≤ (W.reply s.trace (set_format_forward W s port_id flags none)).res →
      0 ≤ (W.reply (s.trace ++ [set_format_forward W s port_id flags none])
        (set_format_clear W s)).res →
      impl_node_port_set_param W fuel s s.impl.direction port_id W.SPA_PARAM_Format flags none
        = some ((W.reply (s.trace ++ [set_format_forward W s port_id flags none])
            (set_format_clear W s)).res,
          { s with
            trace := s.trace ++ [set_format_forward W s port_id flags none,
              set_format_clear W s]
            impl.n_buffers := 0 })) ∧
    (∀ p r s1,
      impl_node_port_set_param W fuel s s.impl.direction 0 W.SPA_PARAM_Format flags (some p)
        = some (r, s1) →
      s1.impl.n_buffers = s.impl.n_buffers) ∧
    (∀ p,
      0 ≤ (W.reply s.trace (set_format_forward W s 0 flags (some p))).res →
      0 < (W.reply (s.after (set_format_forward W s 0 flags (some p))).trace
        (format_enum_graph W (s.after (set_format_forward W s 0 flags (some p))))).res →
      0 < (W.reply ((s.after (set_format_forward W s 0 flags (some p))).trace ++
          [format_enum_graph W (s.after (set_format_forward W s 0 flags (some p)))])
        (format_enum_client W (s.after (set_format_forward W s 0 flags (some p))))).res →
      0 ≤ (W.reply ((s.after (set_format_forward W s 0 flags (some p))).trace ++
          [format_enum_graph W (s.after (set_format_forward W s 0 flags (some p))),
            format_enum_client W (s.after (set_format_forward W s 0 flags (some p)))])
        (format_commit_graph W (s.after (set_format_forward W s 0 flags (some p))))).res →
      0 ≤ (W.reply ((s.after (set_format_forward W s 0 flags (some p))).trace ++
          [format_enum_graph W (s.after (set_format_forward W s 0 flags (some p))),
            format_enum_client W (s.after (set_format_forward W s 0 flags (some p))),
            format_commit_graph W (s.after (set_format_forward W s 0 flags (some p)))])
        (format_commit_client W (s.after (set_format_forward W s 0 flags (some p))))).res →
      ∃ r s1,
        impl_node_port_set_param W fuel s s.impl.direction 0 W.SPA_PARAM_Format flags (some p)
          = some (r, s1) ∧
        0 ≤ r ∧ s1.impl.n_buffers = s.impl.n_buffers ∧
        s1.trace = s.trace ++ [set_format_forward W s 0 flags (some p),
          format_enum_graph W (s.after (set_format_forward W s 0 flags (some p))),
          format_enum_client W (s.after (set_format_forward W s 0 flags (some p))),
          format_commit_graph W (s.after (set_format_forward W s 0 flags (some p))),
          format_commit_client W (s.after (set_format_forward W s 0 flags (some p)))]) := by
  have hset : ∀ p, 0 ≤ (W.reply s.trace (set_format_forward W s 0 flags (some p))).res →
      impl_node_port_set_param W fuel s s.impl.direction 0 W.SPA_PARAM_Format flags (some p)
        = negotiate_format W fuel (s.after (set_format_forward W s 0 flags (some p))) := by
    intro p h
    have hn : ¬ (W.reply s.trace (set_format_forward W s 0 flags (some p))).res < 0 :=
      not_lt.mpr h
    unfold impl_node_port_set_param
    simp only [set_format_forward] at hn ⊢
    simp [call, hn, hc, State.after]
  refine ⟨?_, ?_, ?_⟩
  · intro h1 h2
    have h1n : ¬ (W.reply s.trace (set_format_forward W s port_id flags none)).res < 0 :=
      not_lt.mpr h1
    have h2n : ¬ (W.reply (s.trace ++ [set_format_forward W s port_id flags none])
        (set_format_clear W s)).res < 0 := not_lt.mpr h2
    unfold impl_node_port_set_param
    simp only [set_format_forward, set_format_clear] at h1n h2n ⊢
    simp [call, h1n, h2n, hc]
  · intro p r s1 h
    by_cases hf : (W.reply s.trace (set_format_forward W s 0 flags (some p))).res < 0
    · unfold impl_node_port_set_param at h
      simp only [set_format_forward] at hf
      simp only [call, hf, ne_eq, not_true_eq_false, if_false, if_true, Option.some.injEq,
        Prod.mk.injEq] at h
      obtain ⟨-, rfl⟩ := h
      rfl
    · rw [hset p (not_lt.mp hf)] at h
      have e := negotiate_format_impl W fuel _ s1 r h
      rw [e]
      rfl
  · intro p h0 h1 h2 h3 h4
    rw [hset p h0, negotiate_format_success W fuel _ h1 h2 h3 h4]
    refine ⟨_, _, rfl, h4, rfl, ?_⟩
    simp [State.after]

/-- C15 amended, at a concrete input: clearing the format on the sample
converter adapter with a pool of four buffers resets the count. -/
theorem set_format_pool_count_witness :
    samplePool.impl.use_converter = true ∧
    (impl_node_port_set_param (sampleWorld (sampleReply 0 0 0 0 0) (sampleParse 4)) 0
      samplePool SPA_DIRECTION_INPUT 0 4 0 none).map (fun r => (r.1, r.2.impl.n_buffers))
      = some (0, 0) :=
  ⟨by decide,
    ((set_format_pool_count (sampleWorld (sampleReply 0 0 0 0 0) (sampleParse 4)) 0
      samplePool 0 0 (by decide)).1 (by decide) (by decide)).symm ▸ (by decide)⟩

/-- On an empty pool, when both buffer enumerations yield a result, a negative
code of either `port_get_info` call is what `negotiate_buffers` returns, and
no call follows the failing one. -/
theorem negotiate_buffers_info_error (W : World) (fuel : Nat) (s : State)
    (h0 : s.impl.n_buffers = 0)
    (h1 : 0 < (W.reply s.trace (buffers_enum_graph W s)).res)
    (h2 : 0 ≤ (W.reply (s.trace ++ [buffers_enum_graph W s]) (buffers_enum_client W s)).res) :
    ((W.reply (s.trace ++ [buffers_enum_graph W s, buffers_enum_client W s])
        (info_client s)).res < 0 →
      negotiate_buffers W fuel s =
        some ((W.reply (s.trace ++ [buffers_enum_graph W s, buffers_enum_client W s])
            (info_client s)).res,
          { s with trace := s.trace ++
              [buffers_enum_graph W s, buffers_enum_client W s, info_client s] })) ∧
    (0 ≤ (W.reply (s.trace ++ [buffers_enum_graph W s, buffers_enum_client W s])
        (info_client s)).res →
      (W.reply (s.trace ++ [buffers_enum_graph W s, buffers_enum_client W s, info_client s])
        (info_graph s)).res < 0 →
      negotiate_buffers W fuel s =
        some ((W.reply (s.trace ++ [buffers_enum_graph W s, buffers_enum_client W s,
            info_client s]) (info_graph s)).res,
          { s with trace := s.trace ++ query_calls W s })) := by
  have h1n : ¬ (W.reply s.trace (buffers_enum_graph W s)).res ≤ 0 := not_le.mpr h1
  have h1z : ¬ (W.reply s.trace (buffers_enum_graph W s)).res = 0 := by omega
  have h2n : ¬ (W.reply (s.trace ++ [buffers_enum_graph W s])
      (buffers_enum_client W s)).res < 0 := not_lt.mpr h2
  refine ⟨?_, ?_⟩
  · intro h3
    unfold negotiate_buffers negotiate_buffers_query
    simp only [info_client, buffers_enum_client, buffers_enum_graph, List.append_assoc,
      List.singleton_append, List.cons_append, List.nil_append] at h1n h1z h2n h3 ⊢
    simp only [if_neg h1z] at h2n h3 ⊢
    simp only [h0, gt_iff_lt, lt_self_iff_false, if_false, call, h1n, h1z, h2n, h3, if_true,
      List.append_assoc, List.singleton_append, List.cons_append, List.nil_append]
  · intro h3 h4
    have h3n : ¬ (W.reply (s.trace ++ [buffers_enum_graph W s, buffers_enum_client W s])
        (info_client s)).res < 0 := not_lt.mpr h3
    unfold negotiate_buffers negotiate_buffers_query
    simp only [query_calls, info_graph, info_client, buffers_enum_client, buffers_enum_graph,
      List.append_assoc, List.singleton_append, List.cons_append, List.nil_append]
      at h1n h1z h2n h3n h4 ⊢
    simp only [if_neg h1z] at h2n h3n h4 ⊢
    simp only [h0, gt_iff_lt, lt_self_iff_false, if_false, call, h1n, h1z, h2n, h3n, h4,
      if_true, List.append_assoc, List.singleton_append, List.cons_append, List.nil_append]

/-- On an empty pool, when the graph-facing buffer enumeration yields a result
and the client-facing one returns a negative code, `negotiate_buffers` returns
that code once the diagnostic enumeration has ended. -/
theorem negotiate_buffers_client_enum_error (W : World) (fuel n : Nat) (s : State)
    (h0 : s.impl.n_buffers = 0) (hn : n ≤ fuel)
    (h1 : 0 < (W.reply s.trace (buffers_enum_graph W s)).res)
    (h2 : (W.reply (s.trace ++ [buffers_enum_graph W s]) (buffers_enum_client W s)).res < 0)
    (hends : enum_ends W s.impl.cnode s.impl.direction 0 W.SPA_PARAM_Buffers n
      (s.trace ++ [buffers_enum_graph W s] ++ [buffers_enum_client W s]) 0 = true) :
    ∃ s3, negotiate_buffers W fuel s =
      some ((W.reply (s.trace ++ [buffers_enum_graph W s]) (buffers_enum_client W s)).res,
        s3) := by
  obtain ⟨new, e, -⟩ := debug_params_loop_returns W s.impl.cnode
    s.impl.direction 0 W.SPA_PARAM_Buffers n fuel
    { s with trace := s.trace ++ [buffers_enum_graph W s] ++ [buffers_enum_client W s] } 0
    hends hn
  have h1n : ¬ (W.reply s.trace (buffers_enum_graph W s)).res ≤ 0 := not_le.mpr h1
  refine ⟨{ s with trace := s.trace ++
    (buffers_enum_graph W s :: buffers_enum_client W s :: new) }, ?_⟩
  unfold negotiate_buffers negotiate_buffers_query
  simp only [buffers_enum_graph, buffers_enum_client] at h1n h2 e ⊢
  simp only [h0, gt_iff_lt, lt_self_iff_false, if_false, call, h1n, h2, if_true,
    debug_params, e]
  simp

/-- On an empty pool, in a run whose parameters parse and whose `calloc`
succeeds, a negative code of `pw_memblock_alloc` is what `negotiate_buffers`
returns. -/
theorem negotiate_buffers_memblock_error (W : World) (fuel : Nat) (s s1 : State)
    (q : BufQuery) (p : BufferParams) (h0 : s.impl.n_buffers = 0)
    (hq : negotiate_buffers_query W fuel s = some (Step.next q s1))
    (hp : W.spa_pod_object_parse q.param = some p)
    (hc : (W.reply (trace_at_calloc s1) (calloc_call W p)).ptr ≠ 0)
    (hm : (W.reply (trace_at_memblock W s1 p) (memblock_call W p)).res < 0) :
    ∃ s3, negotiate_buffers W fuel s =
      some ((W.reply (trace_at_memblock W s1 p) (memblock_call W p)).res, s3) := by
  have e : negotiate_buffers W fuel s =
      match negotiate_buffers_alloc W s1 q with
      | Step.ret res s2 => some (res, s2)
      | Step.next q2 s2 => some (negotiate_buffers_handoff W s2 q2) := by
    unfold negotiate_buffers
    simp only [h0, gt_iff_lt, lt_self_iff_false, if_false, hq]
  rw [e, negotiate_buffers_alloc_eq W s1 q p hp, if_neg hc, if_pos hm]
  exact ⟨_, rfl⟩

/-- When both format enumerations yield a result, a negative code of either
set-format commit is what `negotiate_format` returns. -/
theorem negotiate_format_commit_code (W : World) (fuel : Nat) (s : State)
    (h1 : 0 < (W.reply s.trace (format_enum_graph W s)).res)
    (h2 : 0 < (W.reply (s.trace ++ [format_enum_graph W s]) (format_enum_client W s)).res) :
    ((W.reply (s.trace ++ [format_enum_graph W s, format_enum_client W s])
        (format_commit_graph W s)).res < 0 →
      ∃ s1, negotiate_format W fuel s =
        some ((W.reply (s.trace ++ [format_enum_graph W s, format_enum_client W s])
          (format_commit_graph W s)).res, s1)) ∧
    (0 ≤ (W.reply (s.trace ++ [format_enum_graph W s, format_enum_client W s])
        (format_commit_graph W s)).res →
      (W.reply (s.trace ++ [format_enum_graph W s, format_enum_client W s,
        format_commit_graph W s]) (format_commit_client W s)).res < 0 →
      ∃ s1, negotiate_format W fuel s =
        some ((W.reply (s.trace ++ [format_enum_graph W s, format_enum_client W s,
          format_commit_graph W s]) (format_commit_client W s)).res, s1)) := by
  have h1n : ¬ (W.reply s.trace (format_enum_graph W s)).res ≤ 0 := not_le.mpr h1
  have h2n : ¬ (W.reply (s.trace ++ [format_enum_graph W s])
      (format_enum_client W s)).res ≤ 0 := not_le.mpr h2
  refine ⟨?_, ?_⟩
  · intro h3
    refine ⟨{ s with trace := s.trace ++ [format_enum_graph W s, format_enum_client W s,
      format_commit_graph W s] }, ?_⟩
    unfold negotiate_format
    simp only [format_commit_graph, format_fixated, format_enum_graph, format_enum_client,
      List.append_assoc, List.singleton_append, List.cons_append, List.nil_append]
      at h1n h2n h3 ⊢
    simp only [call, h1n, h2n, h3, if_true, if_false, List.append_assoc,
      List.singleton_append, List.cons_append, List.nil_append]
  · intro h3 h4
    have h3n : ¬ (W.reply (s.trace ++ [format_enum_graph W s, format_enum_client W s])
        (format_commit_graph W s)).res < 0 := not_lt.mpr h3
    refine ⟨{ s with trace := s.trace ++ [format_enum_graph W s, format_enum_client W s,
      format_commit_graph W s, format_commit_client W s] }, ?_⟩
    unfold negotiate_format
    simp only [format_commit_client, format_commit_graph, format_fixated, format_enum_graph,
      format_enum_client, List.append_assoc, List.singleton_append, List.cons_append,
      List.nil_append] at h1n h2n h3n h4 ⊢
    simp only [call, h1n, h2n, h3n, h4, if_true, if_false, List.append_assoc,
      List.singleton_append, List.cons_append, List.nil_append]

/-- C18, refuted as stated: on the sample converter adapter the graph-facing
buffer enumeration, a call forwarded by `negotiate_buffers`, returns `-22`,
and `negotiate_buffers` returns `-ENOTSUP`, not `-22`; and the adapter object
answers `get_n_ports` with `-5` while `impl_node_get_n_ports` returns `0`. -/
theorem forwarded_error_not_always_returned :
    (graphEnumFailsReply [] (buffers_enum_graph
      (sampleWorld graphEnumFailsReply (sampleParse 4)) sampleConverter)).res = -22 ∧
    (negotiate_buffers (sampleWorld graphEnumFailsReply (sampleParse 4)) 1
      sampleConverter).map (fun r => r.1) = some (-ENOTSUP) ∧
    (graphEnumFailsReply [] (Call.get_n_ports sampleConverter.impl.adapter)).res = -5 ∧
    (impl_node_get_n_ports (sampleWorld graphEnumFailsReply (sampleParse 4)) sampleConverter
      ⟨some 0, some 0, some 0, some 0⟩).1.1 = 0 := by
  decide

/-- C18, amended. Called with the adapter's own direction and valid pointers,
every adapter operation other than `impl_node_get_n_ports` returns the
negative code of a call it forwards, outside the enumerations that are mapped
to `-ENOTSUP` (the two format enumerations and the graph-facing buffer
enumeration) and the diagnostic enumerations of `debug_params`.  The pure
forwarders `remove_port`, `port_get_info`, `port_enum_params`,
`port_alloc_buffers`, `port_reuse_buffer`, `port_send_command` and
`get_port_ids` return the code of their one call, as do `process` and
`port_set_io` in converter mode; `send_command`, `add_port`, `port_set_param`
and `port_use_buffers` return the negative code of the first of their calls
that fails; and `negotiate_format` and `negotiate_buffers` return the negative
code of a failing commit, client-facing enumeration, get-info call,
shared-memory allocation or hand-off. -/
theorem forwarded_error_returned (W : World) (fuel : Nat) (s : State) :
    (∀ port_id, (impl_node_remove_port W s s.impl.direction port_id).1 =
      (W.reply s.trace (Call.remove_port s.impl.adapter_mix s.impl.direction port_id)).res) ∧
    (∀ port_id info, info ≠ 0 →
      (impl_node_port_get_info W s s.impl.direction port_id info).1 =
        (W.reply s.trace (Call.port_get_info s.impl.adapter s.impl.direction port_id)).res) ∧
    (∀ port_id id index filter builder, builder ≠ 0 →
      (impl_node_port_enum_params W s s.impl.direction port_id id (some index) filter
        builder).1 =
        (W.reply s.trace (Call.port_enum_params s.impl.adapter s.impl.direction port_id id
          index filter)).res) ∧
    (∀ port_id params n_params buffers n_buffers,
      (impl_node_port_alloc_buffers W s s.impl.direction port_id params n_params buffers
        n_buffers).1 =
        (W.reply s.trace (Call.port_alloc_buffers s.impl.adapter_mix s.impl.direction port_id
          params n_params buffers n_buffers)).res) ∧
    (∀ port_id buffer_id, (impl_node_port_reuse_buffer W s port_id buffer_id).1 =
      (W.reply s.trace (Call.port_reuse_buffer s.impl.adapter port_id buffer_id)).res) ∧
    (∀ port_id command, command ≠ 0 →
      (impl_node_port_send_command W s s.impl.direction port_id command).1 =
        (W.reply s.trace (Call.port_send_command s.impl.adapter s.impl.direction port_id
          command)).res) ∧
    (∀ input_ids n_input_ids output_ids n_output_ids, s.impl.adapter ≠ 0 →
      (impl_node_get_port_ids W s input_ids n_input_ids output_ids n_output_ids).1.1 =
        (W.reply s.trace (Call.get_port_ids s.impl.adapter n_input_ids n_output_ids)).res) ∧
    (s.impl.use_converter = true →
      (impl_node_process W s).1 = (W.reply s.trace (Call.process s.impl.adapter)).res) ∧
    (∀ port_id id data size, s.impl.use_converter = true →
      (impl_node_port_set_io W s s.impl.direction port_id id data size).1 =
        (W.reply s.trace (Call.port_set_io s.impl.adapter_mix s.impl.direction port_id id
          data size)).res) ∧
    (∀ command, (W.reply s.trace (Call.send_command s.impl.adapter command)).res < 0 →
      (impl_node_send_command W s command).1 =
        (W.reply s.trace (Call.send_command s.impl.adapter command)).res) ∧
    (∀ command, 0 ≤ (W.reply s.trace (Call.send_command s.impl.adapter command)).res →
      s.impl.adapter ≠ s.impl.cnode →
      (W.reply (s.trace ++ [Call.send_command s.impl.adapter command])
        (Call.send_command s.impl.cnode command)).res < 0 →
      (impl_node_send_command W s command).1 =
        (W.reply (s.trace ++ [Call.send_command s.impl.adapter command])
          (Call.send_command s.impl.cnode command)).res) ∧
    (∀ port_id,
      (W.reply s.trace (Call.add_port s.impl.adapter_mix s.impl.direction port_id)).res < 0 →
      (impl_node_add_port W s s.impl.direction port_id).1 =
        (W.reply s.trace (Call.add_port s.impl.adapter_mix s.impl.direction port_id)).res) ∧
    (∀ port_id,
      0 ≤ (W.reply s.trace (Call.add_port s.impl.adapter_mix s.impl.direction port_id)).res →
      (impl_node_add_port W s s.impl.direction port_id).1 =
        (W.reply (s.trace ++ [Call.add_port s.impl.adapter_mix s.impl.direction port_id])
          (Call.port_set_io s.impl.adapter_mix s.impl.direction port_id W.SPA_IO_Range
            s.range_addr W.sizeof_pointer)).res) ∧
    (∀ port_id id flags param,
      (W.reply s.trace (Call.port_set_param s.impl.adapter_mix s.impl.direction port_id id
        flags param)).res < 0 →
      impl_node_port_set_param W fuel s s.impl.direction port_id id flags param =
        some ((W.reply s.trace (Call.port_set_param s.impl.adapter_mix s.impl.direction
          port_id id flags param)).res,
          s.after (Call.port_set_param s.impl.adapter_mix s.impl.direction port_id id flags
            param))) ∧
    (∀ port_id flags, s.impl.use_converter = true →
      0 ≤ (W.reply s.trace (set_format_forward W s port_id flags none)).res →
      (W.reply (s.trace ++ [set_format_forward W s port_id flags none])
        (set_format_clear W s)).res < 0 →
      (impl_node_port_set_param W fuel s s.impl.direction port_id W.SPA_PARAM_Format flags
        none).map (fun r => r.1) =
        some (W.reply (s.trace ++ [set_format_forward W s port_id flags none])
          (set_format_clear W s)).res) ∧
    (∀ flags p, s.impl.use_converter = true →
      0 ≤ (W.reply s.trace (set_format_forward W s 0 flags (some p))).res →
      impl_node_port_set_param W fuel s s.impl.direction 0 W.SPA_PARAM_Format flags (some p)
        = negotiate_format W fuel (s.after (set_format_forward W s 0 flags (some p)))) ∧
    (0 < (W.reply s.trace (format_enum_graph W s)).res →
      0 < (W.reply (s.trace ++ [format_enum_graph W s]) (format_enum_client W s)).res →
      ((W.reply (s.trace ++ [format_enum_graph W s, format_enum_client W s])
          (format_commit_graph W s)).res < 0 →
        ∃ s1, negotiate_format W fuel s =
          some ((W.reply (s.trace ++ [format_enum_graph W s, format_enum_client W s])
            (format_commit_graph W s)).res, s1)) ∧
      (0 ≤ (W.reply (s.trace ++ [format_enum_graph W s, format_enum_client W s])
          (format_commit_graph W s)).res →
        (W.reply (s.trace ++ [format_enum_graph W s, format_enum_client W s,
          format_commit_graph W s]) (format_commit_client W s)).res < 0 →
        ∃ s1, negotiate_format W fuel s =
          some ((W.reply (s.trace ++ [format_enum_graph W s, format_enum_client W s,
            format_commit_graph W s]) (format_commit_client W s)).res, s1))) ∧
    (∀ port_id buffers n_buffers,
      (W.reply s.trace (Call.port_use_buffers s.impl.adapter_mix s.impl.direction port_id
        buffers n_buffers)).res < 0 →
      impl_node_port_use_buffers W fuel s s.impl.direction port_id buffers n_buffers =
        some ((W.reply s.trace (Call.port_use_buffers s.impl.adapter_mix s.impl.direction
          port_id buffers n_buffers)).res,
          s.after (Call.port_use_buffers s.impl.adapter_mix s.impl.direction port_id buffers
            n_buffers))) ∧
    (∀ buffers n_buffers, s.impl.use_converter = true → 0 < n_buffers →
      0 ≤ (W.reply s.trace (Call.port_use_buffers s.impl.adapter_mix s.impl.direction 0
        buffers n_buffers)).res →
      impl_node_port_use_buffers W fuel s s.impl.direction 0 buffers n_buffers =
        negotiate_buffers W fuel
          (s.after (Call.port_use_buffers s.impl.adapter_mix s.impl.direction 0 buffers
            n_buffers))) ∧
    (∀ n, s.impl.n_buffers = 0 → n ≤ fuel →
      0 < (W.reply s.trace (buffers_enum_graph W s)).res →
      (W.reply (s.trace ++ [buffers_enum_graph W s]) (buffers_enum_client W s)).res < 0 →
      enum_ends W s.impl.cnode s.impl.direction 0 W.SPA_PARAM_Buffers n
        (s.trace ++ [buffers_enum_graph W s] ++ [buffers_enum_client W s]) 0 = true →
      ∃ s3, negotiate_buffers W fuel s =
        some ((W.reply (s.trace ++ [buffers_enum_graph W s])
          (buffers_enum_client W s)).res, s3)) ∧
    (s.impl.n_buffers = 0 →
      0 < (W.reply s.trace (buffers_enum_graph W s)).res →
      0 ≤ (W.reply (s.trace ++ [buffers_enum_graph W s]) (buffers_enum_client W s)).res →
      ((W.reply (s.trace ++ [buffers_enum_graph W s, buffers_enum_client W s])
          (info_client s)).res < 0 →
        ∃ s3, negotiate_buffers W fuel s =
          some ((W.reply (s.trace ++ [buffers_enum_graph W s, buffers_enum_client W s])
            (info_client s)).res, s3)) ∧
      (0 ≤ (W.reply (s.trace ++ [buffers_enum_graph W s, buffers_enum_client W s])
          (info_client s)).res →
        (W.reply (s.trace ++ [buffers_enum_graph W s, buffers_enum_client W s, info_client s])
          (info_graph s)).res < 0 →
        ∃ s3, negotiate_buffers W fuel s =
          some ((W.reply (s.trace ++ [buffers_enum_graph W s, buffers_enum_client W s,
            info_client s]) (info_graph s)).res, s3))) ∧
    (∀ q s1 p, s.impl.n_buffers = 0 →
      negotiate_buffers_query W fuel s = some (Step.next q s1) →
      W.spa_pod_object_parse q.param = some p →
      (W.reply (trace_at_calloc s1) (calloc_call W p)).ptr ≠ 0 →
      (W.reply (trace_at_memblock W s1 p) (memblock_call W p)).res < 0 →
      ∃ s3, negotiate_buffers W fuel s =
        some ((W.reply (trace_at_memblock W s1 p) (memblock_call W p)).res, s3)) ∧
    (∀ q s1 q2 s2, s.impl.n_buffers = 0 →
      negotiate_buffers_query W fuel s = some (Step.next q s1) →
      negotiate_buffers_alloc W s1 q = Step.next q2 s2 →
      ((W.reply s2.trace (handoff_graph W s s2)).res < 0 →
        ∃ s3, negotiate_buffers W fuel s =
          some ((W.reply s2.trace (handoff_graph W s s2)).res, s3)) ∧
      (0 ≤ (W.reply s2.trace (handoff_graph W s s2)).res →
        (W.reply (s2.trace ++ [handoff_graph W s s2]) (handoff_client W s s2)).res < 0 →
        ∃ s3, negotiate_buffers W fuel s =
          some ((W.reply (s2.trace ++ [handoff_graph W s s2])
            (handoff_client W s s2)).res, s3))) := by
  refine ⟨?_, ?_, ?_, ?_, ?_, ?_, ?_, ?_, ?_, ?_, ?_, ?_, ?_, ?_, ?_, ?_, ?_, ?_, ?_, ?_, ?_,
    ?_, ?_⟩
  · intro port_id
    simp [impl_node_remove_port, call]
  · intro port_id info hi
    simp [impl_node_port_get_info, call, hi]
  · intro port_id id index filter builder hb
    simp [impl_node_port_enum_params, call, hb]
  · intro port_id params n_params buffers n_buffers
    simp [impl_node_port_alloc_buffers, call]
  · intro port_id buffer_id
    simp [impl_node_port_reuse_buffer, call]
  · intro port_id command hcmd
    simp [impl_node_port_send_command, call, hcmd]
  · intro input_ids n_input_ids output_ids n_output_ids ha
    simp [impl_node_get_port_ids, call, ha]
  · intro hc
    unfold impl_node_process
    simp only [call, hc]
    split_ifs <;> rfl
  · intro port_id id data size hc
    unfold impl_node_port_set_io
    simp only [call, hc]
    split_ifs <;> simp_all
  · intro command h
    simp [impl_node_send_command, call, h]
  · intro command h1 h2 h3
    have h1n : ¬ (W.reply s.trace (Call.send_command s.impl.adapter command)).res < 0 :=
      not_lt.mpr h1
    simp [impl_node_send_command, call, h1n, h2, h3]
  · intro port_id h
    simp [impl_node_add_port, call, h]
  · intro port_id h
    have hn : ¬ (W.reply s.trace
        (Call.add_port s.impl.adapter_mix s.impl.direction port_id)).res < 0 := not_lt.mpr h
    unfold impl_node_add_port
    simp only [call, hn, ne_eq, not_true_eq_false, if_false]
    split_ifs <;> rfl
  · intro port_id id flags param h
    simp [impl_node_port_set_param, call, h, State.after]
  · intro port_id flags hc h1 h2
    have h1n : ¬ (W.reply s.trace (set_format_forward W s port_id flags none)).res < 0 :=
      not_lt.mpr h1
    unfold impl_node_port_set_param
    simp only [set_format_forward, set_format_clear] at h1n h2 ⊢
    simp [call, h1n, h2, hc]
  · intro flags p hc h
    have hn : ¬ (W.reply s.trace (set_format_forward W s 0 flags (some p))).res < 0 :=
      not_lt.mpr h
    unfold impl_node_port_set_param
    simp only [set_format_forward] at hn ⊢
    simp [call, hn, hc, State.after]
  · intro h1 h2
    exact negotiate_format_commit_code W fuel s h1 h2
  · intro port_id buffers n_buffers h
    simp [impl_node_port_use_buffers, call, h, State.after]
  · intro buffers n_buffers hc hpos h
    have hn : ¬ (W.reply s.trace (Call.port_use_buffers s.impl.adapter_mix s.impl.direction 0
        buffers n_buffers)).res < 0 := not_lt.mpr h
    simp [impl_node_port_use_buffers, call, hn, hc, hpos, State.after]
  · intro n h0 hn h1 h2 hends
    exact negotiate_buffers_client_enum_error W fuel n s h0 hn h1 h2 hends
  · intro h0 h1 h2
    obtain ⟨a, b⟩ := negotiate_buffers_info_error W fuel s h0 h1 h2
    exact ⟨fun h => ⟨_, a h⟩, fun h3 h4 => ⟨_, b h3 h4⟩⟩
  · intro q s1 p h0 hq hp hc hm
    exact negotiate_buffers_memblock_error W fuel s s1 q p h0 hq hp hc hm
  · intro q s1 q2 s2 h0 hq ha
    obtain ⟨e, -, t2⟩ := negotiate_buffers_reaches_handoff W fuel s s1 s2 q q2 h0 hq ha
    refine ⟨?_, ?_⟩
    · intro h
      refine ⟨(negotiate_buffers_handoff W s2 q2).2, ?_⟩
      rw [e, ← if_pos h (t := (W.reply s2.trace (handoff_graph W s s2)).res), ← t2]
    · intro h1 h2
      refine ⟨(negotiate_buffers_handoff W s2 q2).2, ?_⟩
      have h1n : ¬ (W.reply s2.trace (handoff_graph W s s2)).res < 0 := not_lt.mpr h1
      rw [if_neg h1n, if_pos h2] at t2
      rw [e, ← t2]

/-- C18 amended, at a concrete input: on the sample converter adapter the
client node answers `send_command` with `-7` after the converter accepted the
command; `impl_node_send_command` returns `-7`. -/
theorem forwarded_error_returned_witness :
    (impl_node_send_command (sampleWorld (sampleReply 0 0 0 0 (-7)) (sampleParse 4))
      sampleConverter 9).1 = -7 :=
  ((forwarded_error_returned (sampleWorld (sampleReply 0 0 0 0 (-7)) (sampleParse 4)) 0
    sampleConverter).2.2.2.2.2.2.2.2.2.2.1 9 (by decide) (by decide) (by decide)).trans
    (by decide)

/-- The unfiltered enumeration of the list client ends: after the entries of
its own list it answers `0`. -/
theorem listWorld_client_enum_ends (graph client : Ptr) (cands : List Pod)
    (inter : Pod → Option Pod) (own : List Pod) (fix : Option Pod → Option Pod)
    (direction : spa_direction) (id : Nat) :
    ∀ (n : Nat) (tr : List Call) (index : Nat), own.length < index + n → 0 < n →
      enum_ends (listWorld graph client cands inter own fix) client direction 0 id n tr index
        = true := by
  intro n
  induction n with
  | zero =>
    intro tr index _ h
    omega
  | succ n ih =>
    intro tr index h _
    simp only [enum_ends, Bool.or_eq_true, decide_eq_true_eq]
    by_cases hi : index < own.length
    · right
      have e : (listWorld graph client cands inter own fix).reply tr
          (Call.port_enum_params client direction 0 id index none)
          = { res := 1, pod := some own[index], index := index + 1 } := by
        simp [listWorld, sampleWorld, listReply, List.getElem?_eq_getElem hi]
      rw [e]
      exact ih _ (index + 1) (by omega) (by omega)
    · left
      have e : (listWorld graph client cands inter own fix).reply tr
          (Call.port_enum_params client direction 0 id index none)
          = { res := 0, pod := none, index := index } := by
        simp [listWorld, sampleWorld, listReply, List.getElem?_eq_none (not_lt.mp hi)]
      rw [e]

/-- The enumeration of the list graph port ends: after the candidates it
answers `0`. -/
theorem listWorld_graph_enum_ends (graph client : Ptr) (cands : List Pod)
    (inter : Pod → Option Pod) (own : List Pod) (fix : Option Pod → Option Pod)
    (direction : spa_direction) (id : Nat) (hne : graph ≠ client) :
    ∀ (n : Nat) (tr : List Call) (index : Nat), cands.length < index + n → 0 < n →
      enum_ends (listWorld graph client cands inter own fix) graph direction 0 id n tr index
        = true := by
  intro n
  induction n with
  | zero =>
    intro tr index _ h
    omega
  | succ n ih =>
    intro tr index h _
    simp only [enum_ends, Bool.or_eq_true, decide_eq_true_eq]
    by_cases hi : index < cands.length
    · right
      have e : (listWorld graph client cands inter own fix).reply tr
          (Call.port_enum_params graph direction 0 id index none)
          = { res := 1, pod := some cands[index], index := index + 1 } := by
        simp [listWorld, sampleWorld, listReply, List.getElem?_eq_getElem hi, hne]
      rw [e]
      exact ih _ (index + 1) (by omega) (by omega)
    · left
      have e : (listWorld graph client cands inter own fix).reply tr
          (Call.port_enum_params graph direction 0 id index none)
          = { res := 0, pod := none, index := index } := by
        simp [listWorld, sampleWorld, listReply, List.getElem?_eq_none (not_lt.mp hi), hne]
      rw [e]

/-- C20, refuted as stated: the graph-facing port lists the candidates `1`
and `2`, the client's filter intersects only with `2`.  The specification's
negotiation proceeds with the intersection of candidate `2`; the code asks
for the first candidate only and `negotiate_format` returns `-ENOTSUP`. -/
theorem negotiate_format_tries_first_candidate_only :
    spec_negotiate_format [1, 2] (fun c => if c = 2 then some 2 else none) = some 2 ∧
    (negotiate_format
      (listWorld 2 1 [1, 2] (fun c => if c = 2 then some 2 else none) [] (fun p => p)) 3
      sampleConverter).map (fun r => r.1) = some (-ENOTSUP) := by
  decide

/-- C20, amended. With the graph-facing port an ordered list of candidate
formats and the client-facing port a filter: `negotiate_format` fails with
`-ENOTSUP` exactly when the list is empty or its first candidate has an empty
intersection with the client's capabilities; otherwise it commits the fixated
intersection of the first candidate to both ports, in its four calls, and
returns `0`.  Later candidates are never asked for. -/
theorem negotiate_format_first_candidate (W : World) (cands : List Pod)
    (inter : Pod → Option Pod) (own : List Pod) (fix : Option Pod → Option Pod)
    (fuel : Nat) (s : State)
    (hW : W = listWorld s.impl.adapter_mix s.impl.cnode cands inter own fix)
    (hne : s.impl.adapter_mix ≠ s.impl.cnode)
    (hf : cands.length + own.length + 1 ≤ fuel) :
    (cands.head?.bind inter = none →
      ∃ s1, negotiate_format W fuel s = some (-ENOTSUP, s1)) ∧
    (∀ r, cands.head?.bind inter = some r →
      negotiate_format W fuel s = some (0, { s with trace := s.trace ++
        [format_enum_graph W s, format_enum_client W s,
          Call.port_set_param s.impl.adapter_mix (SPA_DIRECTION_REVERSE s.impl.direction) 0
            W.SPA_PARAM_Format 0 (fix (some r)),
          Call.port_set_param s.impl.cnode s.impl.direction 0 W.SPA_PARAM_Format 0
            (fix (some r))] })) ∧
    ((negotiate_format W fuel s).map (fun x => x.1) = some (-ENOTSUP) ↔
      cands.head?.bind inter = none) := by
  have part1 : cands.head?.bind inter = none →
      ∃ s1, negotiate_format W fuel s = some (-ENOTSUP, s1) := by
    intro h
    cases cands with
    | nil =>
      have hEg : W.reply s.trace (format_enum_graph W s)
          = { res := 0, pod := none, index := 0 } := by
        subst hW
        simp [listWorld, sampleWorld, listReply, format_enum_graph, hne]
      have hends := listWorld_graph_enum_ends s.impl.adapter_mix s.impl.cnode [] inter own
        fix (SPA_DIRECTION_REVERSE s.impl.direction) W.SPA_PARAM_EnumFormat hne fuel
        (s.trace ++ [format_enum_graph W s]) 0 (by simp; omega) (by omega)
      rw [← hW] at hends
      obtain ⟨new, e, -⟩ := debug_params_loop_returns W s.impl.adapter_mix
        (SPA_DIRECTION_REVERSE s.impl.direction) 0 W.SPA_PARAM_EnumFormat fuel fuel
        { s with trace := s.trace ++ [format_enum_graph W s] } 0 hends (le_refl _)
      have h1 : (W.reply s.trace (format_enum_graph W s)).res ≤ 0 := by
        simp [hEg]
      refine ⟨{ s with trace := s.trace ++ (format_enum_graph W s :: new) }, ?_⟩
      unfold negotiate_format
      simp only [format_enum_graph] at h1 e ⊢
      simp only [call, h1, if_true, debug_params, e]
      simp
    | cons c rest =>
      have hc : inter c = none := by simpa using h
      have hEg : W.reply s.trace (format_enum_graph W s)
          = { res := 1, pod := some c, index := 1 } := by
        subst hW
        simp [listWorld, sampleWorld, listReply, format_enum_graph, hne]
      have hEc : W.reply (s.trace ++ [format_enum_graph W s]) (format_enum_client W s)
          = { res := 0, pod := some c, index := 0 } := by
        simp only [format_enum_client, hEg]
        subst hW
        simp [listWorld, sampleWorld, listReply, hc]
      have hends := listWorld_client_enum_ends s.impl.adapter_mix s.impl.cnode (c :: rest)
        inter own fix s.impl.direction W.SPA_PARAM_EnumFormat fuel
        (s.trace ++ [format_enum_graph W s] ++ [format_enum_client W s]) 0
        (by simp at hf ⊢; omega) (by omega)
      rw [← hW] at hends
      obtain ⟨new, e, -⟩ := debug_params_loop_returns W s.impl.cnode
        s.impl.direction 0 W.SPA_PARAM_EnumFormat fuel fuel
        { s with trace := s.trace ++ [format_enum_graph W s] ++ [format_enum_client W s] } 0
        hends (le_refl _)
      have h1 : ¬ (W.reply s.trace (format_enum_graph W s)).res ≤ 0 := by
        simp [hEg]
      have h2 : (W.reply (s.trace ++ [format_enum_graph W s])
          (format_enum_client W s)).res ≤ 0 := by
        simp [hEc]
      refine ⟨{ s with trace := s.trace ++
        (format_enum_graph W s :: format_enum_client W s :: new) }, ?_⟩
      unfold negotiate_format
      simp only [format_enum_graph, format_enum_client] at h1 h2 e ⊢
      simp only [call, h1, h2, if_true, if_false, debug_params, e]
      simp
  have part2 : ∀ r, cands.head?.bind inter = some r →
      negotiate_format W fuel s = some (0, { s with trace := s.trace ++
        [format_enum_graph W s, format_enum_client W s,
          Call.port_set_param s.impl.adapter_mix (SPA_DIRECTION_REVERSE s.impl.direction) 0
            W.SPA_PARAM_Format 0 (fix (some r)),
          Call.port_set_param s.impl.cnode s.impl.direction 0 W.SPA_PARAM_Format 0
            (fix (some r))] }) := by
    intro r h
    cases cands with
    | nil => simp at h
    | cons c rest =>
      have hc : inter c = some r := by simpa using h
      have hEg : W.reply s.trace (format_enum_graph W s)
          = { res := 1, pod := some c, index := 1 } := by
        subst hW
        simp [listWorld, sampleWorld, listReply, format_enum_graph, hne]
      have hEc : W.reply (s.trace ++ [format_enum_graph W s]) (format_enum_client W s)
          = { res := 1, pod := some r, index := 1 } := by
        simp only [format_enum_client, hEg]
        subst hW
        simp [listWorld, sampleWorld, listReply, hc]
      have hfix : format_fixated W s = fix (some r) := by
        simp only [format_fixated, hEc]
        subst hW
        rfl
      have hset : ∀ tr n d p i f q, W.reply tr (Call.port_set_param n d p i f q) = { } := by
        intro tr n d p i f q
        subst hW
        rfl
      have e := negotiate_format_success W fuel s (by simp [hEg]) (by simp [hEc])
        (by simp [format_commit_graph, hset])
        (by simp [format_commit_client, hset])
      rw [e]
      simp only [format_commit_graph, format_commit_client, hfix, hset]
  refine ⟨part1, part2, ?_⟩
  constructor
  · intro h
    cases hb : cands.head?.bind inter with
    | none => rfl
    | some r =>
      rw [part2 r hb] at h
      simp [ENOTSUP] at h
  · intro h
    obtain ⟨s1, e⟩ := part1 h
    rw [e]
    rfl

/-- C20 amended, at a concrete input: on the sample converter adapter the
first of the candidates `[2, 1]` intersects, and its intersection `2` is
committed to both ports. -/
theorem negotiate_format_first_candidate_witness :
    negotiate_format
      (listWorld 2 1 [2, 1] (fun c => if c = 2 then some 2 else none) [] (fun p => p)) 3
      sampleConverter
      = some (0, { sampleConverter with trace :=
          [Call.port_enum_params 2 SPA_DIRECTION_OUTPUT 0 3 0 none,
            Call.port_enum_params 1 SPA_DIRECTION_INPUT 0 3 0 (some 2),
            Call.port_set_param 2 SPA_DIRECTION_OUTPUT 0 4 0 (some 2),
            Call.port_set_param 1 SPA_DIRECTION_INPUT 0 4 0 (some 2)] }) :=
  (negotiate_format_first_candidate
    (listWorld 2 1 [2, 1] (fun c => if c = 2 then some 2 else none) [] (fun p => p))
    [2, 1] (fun c => if c = 2 then some 2 else none) [] (fun p => p) 3 sampleConverter
    rfl (by decide) (by decide)).2.1 2 (by decide)

/-- The `cleanup` function, call by call: it makes the calls `cleanup_calls`,
clears `mem`, counts one more run and leaves the hooks alone. -/
theorem cleanup_eq (t : Teardown) :
    (cleanup t).st.trace = t.st.trace ++ cleanup_calls t.st t.impl_addr ∧
    (cleanup t).st.impl.mem = 0 ∧
    (cleanup t).cleanups = t.cleanups + 1 ∧
    (cleanup t).node_listener = t.node_listener ∧
    (cleanup t).client_node_listener = t.client_node_listener := by
  unfold cleanup cleanup_calls
  by_cases h1 : t.st.impl.use_converter = true ∧ t.st.impl.adapter ≠ 0 <;>
    by_cases h2 : t.st.impl.buffers = 0 <;>
    by_cases h3 : t.st.impl.mem = 0 <;>
    simp [Teardown.record, State.after, h1, h2, h3]

/-- A memory block held at teardown is released by exactly one of the calls of
`cleanup`. -/
theorem cleanup_calls_release_once (s : State) (impl_addr : Ptr) (hm : s.impl.mem ≠ 0) :
    (cleanup_calls s impl_addr).count (Call.pw_memblock_free s.impl.mem) = 1 := by
  unfold cleanup_calls
  by_cases h1 : s.impl.use_converter = true ∧ s.impl.adapter ≠ 0 <;>
    by_cases h2 : s.impl.buffers = 0 <;>
    simp [List.count_cons, h1, h2, hm]

/-- C17. With a backing memory block held (and, for `pw_client_stream_destroy`,
the client node's hook attached, as it is from creation on), each teardown
entry point returns (one level of nesting is enough), `cleanup`
has run exactly once, and among the calls made `pw_memblock_free` occurs
exactly once on the block held: `client_node_destroy` makes
`pw_node_set_driver`, `pw_node_destroy` and the calls of `cleanup`;
`node_destroy` makes `pw_client_node_destroy` and the calls of `cleanup`;
`pw_client_stream_destroy` makes `pw_client_node_destroy` and then what
`client_node_destroy` makes.  The destroy event emitted by destroying the
other node runs no handler, both hooks having been removed before, and
afterwards both hooks are off and `mem` is `NULL`. -/
theorem teardown_releases_once (fuel : Nat) (t : Teardown)
    (hc : t.client_node_listener = true) (hm : t.st.impl.mem ≠ 0) :
    (∃ t1 new, (destroy_handlers (fuel + 1)).1 t = some t1 ∧
      new = [Call.pw_node_set_driver, Call.pw_node_destroy] ++
        cleanup_calls t.st t.impl_addr ∧
      t1.st.trace = t.st.trace ++ new ∧
      new.count (Call.pw_memblock_free t.st.impl.mem) = 1 ∧
      t1.cleanups = t.cleanups + 1 ∧ t1.st.impl.mem = 0 ∧
      t1.node_listener = false ∧ t1.client_node_listener = false) ∧
    (∃ t1 new, (destroy_handlers (fuel + 1)).2 t = some t1 ∧
      new = [Call.pw_client_node_destroy] ++ cleanup_calls t.st t.impl_addr ∧
      t1.st.trace = t.st.trace ++ new ∧
      new.count (Call.pw_memblock_free t.st.impl.mem) = 1 ∧
      t1.cleanups = t.cleanups + 1 ∧ t1.st.impl.mem = 0 ∧
      t1.node_listener = false ∧ t1.client_node_listener = false) ∧
    (∃ t1 new, pw_client_stream_destroy (fuel + 1) t = some t1 ∧
      new = [Call.pw_client_node_destroy, Call.pw_node_set_driver, Call.pw_node_destroy] ++
        cleanup_calls t.st t.impl_addr ∧
      t1.st.trace = t.st.trace ++ new ∧
      new.count (Call.pw_memblock_free t.st.impl.mem) = 1 ∧
      t1.cleanups = t.cleanups + 1 ∧ t1.st.impl.mem = 0 ∧
      t1.node_listener = false ∧ t1.client_node_listener = false) := by
  have hcount := cleanup_calls_release_once t.st t.impl_addr hm
  have hclient : ∀ u : Teardown, u.st.impl = t.st.impl → u.impl_addr = t.impl_addr →
      ∃ t1, (destroy_handlers (fuel + 1)).1 u = some t1 ∧
        t1.st.trace = u.st.trace ++ ([Call.pw_node_set_driver, Call.pw_node_destroy] ++
          cleanup_calls t.st t.impl_addr) ∧
        t1.cleanups = u.cleanups + 1 ∧ t1.st.impl.mem = 0 ∧
        t1.node_listener = false ∧ t1.client_node_listener = false := by
    intro u hu ha
    obtain ⟨c1, c2, c3, c4, c5⟩ := cleanup_eq
      ({ u with st := (u.st.after Call.pw_node_set_driver).after Call.pw_node_destroy,
                node_listener := false, client_node_listener := false })
    refine ⟨_, ?_, ?_, c3, c2, c4, c5⟩
    · simp only [destroy_handlers, client_node_destroy, emit_destroy, Teardown.record,
        Bool.false_eq_true, if_false, Option.map_some']
    · rw [c1]
      simp [State.after, cleanup_calls, hu, ha]
  refine ⟨?_, ?_, ?_⟩
  · obtain ⟨t1, e, tr, r⟩ := hclient t rfl rfl
    refine ⟨t1, _, e, rfl, tr, ?_, r⟩
    rw [List.count_append, hcount]
    simp [List.count_cons]
  · obtain ⟨c1, c2, c3, c4, c5⟩ := cleanup_eq
      ({ t with st := t.st.after Call.pw_client_node_destroy,
                node_listener := false, client_node_listener := false })
    refine ⟨_, _, ?_, rfl, ?_, ?_, c3, c2, c4, c5⟩
    · simp only [destroy_handlers, node_destroy, emit_destroy, Teardown.record,
        Bool.false_eq_true, if_false, Option.map_some']
    · rw [c1]
      simp [State.after, cleanup_calls]
    · rw [List.count_append, hcount]
      simp [List.count_cons]
  · obtain ⟨t1, e, tr, r⟩ := hclient (t.record Call.pw_client_node_destroy) rfl rfl
    refine ⟨t1, _, ?_, rfl, ?_, ?_, r⟩
    · simp only [pw_client_stream_destroy, emit_destroy]
      have hc2 : (t.record Call.pw_client_node_destroy).client_node_listener = true := hc
      rw [if_pos hc2]
      exact e
    · rw [tr]
      simp [Teardown.record, State.after]
    · rw [List.count_append, hcount]
      simp [List.count_cons]

/-- C17, at a concrete input: `pw_client_stream_destroy` on the sample adapter
with its pool and both hooks attached. -/
theorem teardown_releases_once_witness :
    (pw_client_stream_destroy 1 sampleTeardown).map
      (fun t => (t.cleanups, t.st.impl.mem, t.st.trace))
      = some (1, 0, [Call.pw_client_node_destroy, Call.pw_node_set_driver, Call.pw_node_destroy,
          Call.pw_unload_spa_interface 2, Call.free 4096, Call.pw_memblock_free 8192,
          Call.free 500]) := by
  obtain ⟨t1, new, e, hnew, tr, -, hcl, hmem, -⟩ :=
    (teardown_releases_once 0 sampleTeardown rfl (by decide)).2.2
  rw [e]
  simp only [Option.map_some', Option.some.injEq, Prod.mk.injEq]
  refine ⟨hcl, hmem, ?_⟩
  rw [tr, hnew]
  decide

/-- C25: in pass-through mode (`use_converter = false`) the functions
`impl_node_port_set_param` and `impl_node_port_use_buffers`, called with the
adapter's own direction, are pure forwarders: whatever the port, the parameter
id, the parameter, the buffers and the fuel, each makes exactly one call, the
forwarded one on the adapter mix, starts no negotiation, leaves the whole
`impl` (in particular `n_buffers`, `buffers` and `mem`) unchanged and returns
exactly the result of the forwarded call. -/
theorem pass_through_pure_forwarders (W : World) (fuel : Nat) (s : State)
    (direction : spa_direction) (port_id id flags : Nat) (param : Option Pod)
    (buffers : Ptr) (n_buffers : Nat)
    (hc : s.impl.use_converter = false) (hd : direction = s.impl.direction) :
    impl_node_port_set_param W fuel s direction port_id id flags param =
      some ((W.reply s.trace
          (Call.port_set_param s.impl.adapter_mix direction port_id id flags param)).res,
        { s with trace := s.trace ++
          [Call.port_set_param s.impl.adapter_mix direction port_id id flags param] }) ∧
    impl_node_port_use_buffers W fuel s direction port_id buffers n_buffers =
      some ((W.reply s.trace
          (Call.port_use_buffers s.impl.adapter_mix direction port_id buffers n_buffers)).res,
        { s with trace := s.trace ++
          [Call.port_use_buffers s.impl.adapter_mix direction port_id buffers n_buffers] }) := by
  subst hd
  constructor
  · unfold impl_node_port_set_param
    simp only [call, hc]
    split_ifs <;> simp_all
  · unfold impl_node_port_use_buffers
    simp only [call, hc]
    split_ifs <;> simp_all

/-- C25 witness: the sample pass-through adapter forwards a format and a pool
of four buffers on its own (output) direction. -/
theorem pass_through_pure_forwarders_witness :
    impl_node_port_set_param (sampleWorld (sampleReply 0 0 0 0 0) (sampleParse 4)) 5
        samplePassThrough SPA_DIRECTION_OUTPUT 0 4 0 (some 7) =
      some (((sampleWorld (sampleReply 0 0 0 0 0) (sampleParse 4)).reply samplePassThrough.trace
          (Call.port_set_param samplePassThrough.impl.adapter_mix SPA_DIRECTION_OUTPUT 0 4 0
            (some 7))).res,
        { samplePassThrough with trace := samplePassThrough.trace ++
          [Call.port_set_param samplePassThrough.impl.adapter_mix SPA_DIRECTION_OUTPUT 0 4 0
            (some 7)] }) ∧
    impl_node_port_use_buffers (sampleWorld (sampleReply 0 0 0 0 0) (sampleParse 4)) 5
        samplePassThrough SPA_DIRECTION_OUTPUT 0 4096 4 =
      some (((sampleWorld (sampleReply 0 0 0 0 0) (sampleParse 4)).reply samplePassThrough.trace
          (Call.port_use_buffers samplePassThrough.impl.adapter_mix SPA_DIRECTION_OUTPUT 0 4096
            4)).res,
        { samplePassThrough with trace := samplePassThrough.trace ++
          [Call.port_use_buffers samplePassThrough.impl.adapter_mix SPA_DIRECTION_OUTPUT 0 4096
            4] }) :=
  pass_through_pure_forwarders (sampleWorld (sampleReply 0 0 0 0 0) (sampleParse 4)) 5
    samplePassThrough SPA_DIRECTION_OUTPUT 0 4 0 (some 7) 4096 4 rfl rfl

/-- C26: `impl_node_port_set_io`, called with the adapter's own direction,
records the caller's IO area in `impl->io` exactly when `id` is
`SPA_IO_Buffers` and `size` is at least `sizeof(struct spa_io_buffers)`, and
leaves `impl->io` and every other field of `impl` alone otherwise; the
recording does not depend on the forwarded result.  In converter mode the call
is forwarded once to the adapter mix and its result returned; in pass-through
mode nothing is forwarded and the result is `0`. -/
theorem set_io_records_io_area (W : World) (s : State) (direction : spa_direction)
    (port_id id : Nat) (data : Ptr) (size : Nat) (hd : direction = s.impl.direction) :
    (impl_node_port_set_io W s direction port_id id data size).2.impl =
      { s.impl with io := if id = W.SPA_IO_Buffers ∧ W.sizeof_spa_io_buffers ≤ size
          then data else s.impl.io } ∧
    (s.impl.use_converter = true →
      (impl_node_port_set_io W s direction port_id id data size).1 =
        (W.reply s.trace
          (Call.port_set_io s.impl.adapter_mix direction port_id id data size)).res ∧
      (impl_node_port_set_io W s direction port_id id data size).2.trace =
        s.trace ++ [Call.port_set_io s.impl.adapter_mix direction port_id id data size]) ∧
    (s.impl.use_converter = false →
      (impl_node_port_set_io W s direction port_id id data size).1 = 0 ∧
      (impl_node_port_set_io W s direction port_id id data size).2.trace = s.trace) := by
  subst hd
  unfold impl_node_port_set_io
  simp only [call, ne_eq, not_true_eq_false, if_false]
  refine ⟨?_, ?_, ?_⟩
  · by_cases h : id = W.SPA_IO_Buffers ∧ W.sizeof_spa_io_buffers ≤ size
    · simp only [ge_iff_le, h, and_self, if_true]
      split_ifs <;> rfl
    · simp only [ge_iff_le, h, if_false]
      split_ifs <;> rfl
  · split_ifs <;> simp_all
  · split_ifs <;> simp_all

/-- C26 witness: the sample converter records the IO area `500` although the
converter rejects the call with `-22`. -/
theorem set_io_records_io_area_witness :
    (impl_node_port_set_io (sampleWorld (fun _ _ => { res := -22 }) (sampleParse 4))
        sampleConverter SPA_DIRECTION_INPUT 0 1 500 8).2.impl.io = 500 ∧
    (impl_node_port_set_io (sampleWorld (fun _ _ => { res := -22 }) (sampleParse 4))
        sampleConverter SPA_DIRECTION_INPUT 0 1 500 8).1 = -22 := by
  have h := set_io_records_io_area (sampleWorld (fun _ _ => { res := -22 }) (sampleParse 4))
    sampleConverter SPA_DIRECTION_INPUT 0 1 500 8 rfl
  refine ⟨?_, ?_⟩
  · rw [h.1]; rfl
  · rw [(h.2.1 rfl).1]; rfl

/-- C21, counterexample to the claim as stated.  For an input-side adapter
`impl_node_get_n_ports` reports no output port, yet `impl_node_get_port_ids`,
given an output array of capacity one holding `9`, leaves an id in it: without
an adapter object it writes id `0` itself, and with the sample converter set it
hands the array to the converter, which writes the id of its own output
port. -/
theorem get_port_ids_writes_opposite_direction :
    sampleNoAdapter.impl.direction = SPA_DIRECTION_INPUT ∧
    (impl_node_get_n_ports (sampleWorld bothIdsReply (sampleParse 4)) sampleNoAdapter
      ⟨some 0, some 0, some 0, some 0⟩).1.2 = ⟨some 1, some 1, some 0, some 0⟩ ∧
    (impl_node_get_port_ids (sampleWorld bothIdsReply (sampleParse 4)) sampleNoAdapter
      (some [9]) 1 (some [9]) 1).1 = (0, some [0], some [0]) ∧
    sampleConverter.impl.direction = SPA_DIRECTION_INPUT ∧
    (impl_node_get_n_ports (sampleWorld bothIdsReply (sampleParse 4)) sampleConverter
      ⟨some 0, some 0, some 0, some 0⟩).1.2 = ⟨some 5, some 6, some 0, some 0⟩ ∧
    (impl_node_get_port_ids (sampleWorld bothIdsReply (sampleParse 4)) sampleConverter
      (some [9]) 1 (some [9]) 1).1 = (0, some [0], some [0]) := by
  decide

/-- C21, amended.  `impl_node_get_port_ids` does not look at the adapter's
direction.  With an adapter object set it forwards the call once, with the
caller's capacities, and the return code and the contents of both arrays are
the adapter object's.  Without an adapter object it makes no call, returns `0`
and writes id `0` into the first cell of each array of capacity above zero,
leaving an array of capacity zero (and a `NULL` array) alone; so no id is
written for the opposite direction when the caller passes as capacity the
count `impl_node_get_n_ports` reports for it, which is zero. -/
theorem get_port_ids_by_capacity (W : World) (s : State)
    (input_ids output_ids : Option (List Nat)) (n_input_ids n_output_ids : Nat) :
    (s.impl.adapter ≠ 0 →
      impl_node_get_port_ids W s input_ids n_input_ids output_ids n_output_ids =
        (((W.reply s.trace (Call.get_port_ids s.impl.adapter n_input_ids n_output_ids)).res,
          input_ids.map (fun _ =>
            (W.reply s.trace
              (Call.get_port_ids s.impl.adapter n_input_ids n_output_ids)).input_ids),
          output_ids.map (fun _ =>
            (W.reply s.trace
              (Call.get_port_ids s.impl.adapter n_input_ids n_output_ids)).output_ids)),
         { s with trace := s.trace ++
            [Call.get_port_ids s.impl.adapter n_input_ids n_output_ids] })) ∧
    (s.impl.adapter = 0 →
      (impl_node_get_port_ids W s input_ids n_input_ids output_ids n_output_ids).2 = s ∧
      (impl_node_get_port_ids W s input_ids n_input_ids output_ids n_output_ids).1.1 = 0 ∧
      (impl_node_get_port_ids W s input_ids n_input_ids output_ids n_output_ids).1.2.1 =
        (if 0 < n_input_ids then input_ids.map (fun l => l.set 0 0) else input_ids) ∧
      (impl_node_get_port_ids W s input_ids n_input_ids output_ids n_output_ids).1.2.2 =
        (if 0 < n_output_ids then output_ids.map (fun l => l.set 0 0) else output_ids) ∧
      (impl_node_get_n_ports W s ⟨some 0, some 0, some 0, some 0⟩).1.2 =
        (if s.impl.direction = SPA_DIRECTION_OUTPUT then ⟨some 0, some 0, some 1, some 1⟩
         else ⟨some 1, some 1, some 0, some 0⟩)) := by
  constructor
  · intro h
    unfold impl_node_get_port_ids
    simp only [call, h, ne_eq, not_false_eq_true, if_true]
  · intro h
    unfold impl_node_get_port_ids impl_node_get_n_ports
    simp only [h, ne_eq, not_true_eq_false, if_false, gt_iff_lt, Option.map_some']
    refine ⟨trivial, trivial, trivial, trivial, ?_⟩
    split_ifs <;> rfl

/-- C21, amended, at a concrete input: the sample input-side adapter without an
adapter object, asked with the capacities `impl_node_get_n_ports` reports (one
input, no output), writes id `0` for its input port and leaves the output
array as it was. -/
theorem get_port_ids_by_capacity_witness :
    sampleNoAdapter.impl.adapter = 0 ∧
    (impl_node_get_port_ids (sampleWorld bothIdsReply (sampleParse 4)) sampleNoAdapter
      (some [9]) 1 (some [9]) 0).1 = (0, some [0], some [9]) := by
  have h := (get_port_ids_by_capacity (sampleWorld bothIdsReply (sampleParse 4))
    sampleNoAdapter (some [9]) (some [9]) 1 0).2 rfl
  refine ⟨rfl, ?_⟩
  rw [Prod.ext_iff, Prod.ext_iff, h.2.1, h.2.2.1, h.2.2.2.1]
  decide

/-- The live blocks after two runs of calls in a row. -/
theorem live_blocks_append (W : World) (a b : List Call) :
    ∀ (pre : List Call) (live : List Ptr),
      live_blocks W pre (a ++ b) live = live_blocks W (pre ++ a) b (live_blocks W pre a live) := by
  induction a with
  | nil => intro pre live; simp [live_blocks]
  | cons c a ih =>
    intro pre live
    simp only [List.cons_append, live_blocks, List.append_eq]
    rw [ih]
    simp

/-- The peak is at least the number of blocks live at the start. -/
theorem le_peak_blocks (W : World) (pre cs : List Call) (live : List Ptr) :
    live.length ≤ peak_blocks W pre cs live := by
  cases cs with
  | nil => simp [peak_blocks]
  | cons c cs => simp [peak_blocks]

/-- The peak over two runs of calls in a row. -/
theorem peak_blocks_append (W : World) (a b : List Call) :
    ∀ (pre : List Call) (live : List Ptr),
      peak_blocks W pre (a ++ b) live =
        max (peak_blocks W pre a live)
          (peak_blocks W (pre ++ a) b (live_blocks W pre a live)) := by
  induction a with
  | nil =>
    intro pre live
    simp only [List.nil_append, peak_blocks, live_blocks, List.append_nil]
    exact (max_eq_right (le_peak_blocks W pre b live)).symm
  | cons c a ih =>
    intro pre live
    simp only [List.cons_append, peak_blocks, live_blocks, List.append_eq]
    rw [ih, max_assoc]
    simp

/-- Calls that are not on the shared-memory allocator leave the live blocks
alone. -/
theorem live_blocks_other (W : World) (cs : List Call) :
    ∀ (pre : List Call) (live : List Ptr), (∀ c ∈ cs, c.is_memblock = false) →
      live_blocks W pre cs live = live ∧ peak_blocks W pre cs live = live.length := by
  induction cs with
  | nil => intro pre live _; simp [live_blocks, peak_blocks]
  | cons c cs ih =>
    intro pre live h
    have hc : block_step W pre c live = live := by
      have hm := h c (List.mem_cons_self _ _)
      cases c <;> first | rfl | (simp [Call.is_memblock] at hm)
    have e := ih (pre ++ [c]) live (fun d hd => h d (List.mem_cons_of_mem _ hd))
    simp only [live_blocks, peak_blocks, hc, e.1, e.2, max_self, and_self]

/-- The blocks live around a release of the held block followed by a request
for a new one, with calls that are not on the shared-memory allocator before
and after: none is live when the allocator is asked, afterwards the one it
stored (none if it failed), and never more than one. -/
theorem pool_calls_blocks (W : World) (pre a tail : List Call) (m : Ptr) (f n : Nat)
    (ha : ∀ c ∈ a, c.is_memblock = false) (ht : ∀ c ∈ tail, c.is_memblock = false) :
    live_blocks W pre (a ++ (if m ≠ 0 then [Call.pw_memblock_free m] else [])) (held m) = [] ∧
    live_blocks W pre (a ++ (if m ≠ 0 then [Call.pw_memblock_free m] else []) ++
        Call.pw_memblock_alloc f n :: tail) (held m) =
      (if (W.reply (pre ++ a ++ (if m ≠ 0 then [Call.pw_memblock_free m] else []))
          (Call.pw_memblock_alloc f n)).res < 0 then []
       else [(W.reply (pre ++ a ++ (if m ≠ 0 then [Call.pw_memblock_free m] else []))
          (Call.pw_memblock_alloc f n)).ptr]) ∧
    peak_blocks W pre (a ++ (if m ≠ 0 then [Call.pw_memblock_free m] else []) ++
        Call.pw_memblock_alloc f n :: tail) (held m) ≤ 1 := by
  have hl : (held m).length ≤ 1 := by
    unfold held; split_ifs <;> simp
  have h1 : live_blocks W pre (a ++ (if m ≠ 0 then [Call.pw_memblock_free m] else []))
      (held m) = [] := by
    rw [live_blocks_append, (live_blocks_other W a pre (held m) ha).1]
    by_cases hm : m = 0 <;> simp [hm, held, live_blocks, block_step]
  have h2 : peak_blocks W pre (a ++ (if m ≠ 0 then [Call.pw_memblock_free m] else []))
      (held m) ≤ 1 := by
    rw [peak_blocks_append, (live_blocks_other W a pre (held m) ha).1,
      (live_blocks_other W a pre (held m) ha).2]
    by_cases hm : m = 0 <;> simp [hm, held, peak_blocks, block_step]
  refine ⟨h1, ?_, ?_⟩
  · rw [live_blocks_append, h1]
    simp only [live_blocks]
    rw [(live_blocks_other W tail _ _ ht).1]
    simp only [block_step, List.append_assoc]
  · rw [peak_blocks_append, h1]
    simp only [peak_blocks]
    rw [(live_blocks_other W tail _ _ ht).2]
    have key : ∀ (b : Prop) [Decidable b] (x : Ptr),
        (if b then ([] : List Ptr) else [x]).length ≤ 1 := by
      intro b _ x
      split <;> simp
    exact max_le h2 (max_le (by simp) (key _ _))

/-- The hand-off stretch leaves `impl->buffers` and `impl->mem` alone. -/
theorem negotiate_buffers_handoff_pointers (W : World) (s : State) (q : BufQuery) :
    (negotiate_buffers_handoff W s q).2.impl.buffers = s.impl.buffers ∧
    (negotiate_buffers_handoff W s q).2.impl.mem = s.impl.mem := by
  unfold negotiate_buffers_handoff
  simp only [call]
  split_ifs <;> exact ⟨rfl, rfl⟩

/-- A hand-off call is a `port_alloc_buffers` or a `port_use_buffers` call and
not a call on the shared-memory allocator. -/
theorem handoff_call_kind (alloc : Bool) (node : Ptr) (d : spa_direction) (b : Ptr) (n : Nat) :
    ((handoff_call alloc node d b n).is_alloc_buffers = true ∨
      (handoff_call alloc node d b n).is_use_buffers = true) ∧
    (handoff_call alloc node d b n).is_memblock = false := by
  cases alloc <;> simp [handoff_call, Call.is_alloc_buffers, Call.is_use_buffers,
    Call.is_memblock]

/-- The calls of the hand-off stretch are hand-off calls. -/
theorem negotiate_buffers_handoff_only (W : World) (s : State) (q : BufQuery) :
    ∃ hs, (negotiate_buffers_handoff W s q).2.trace = s.trace ++ hs ∧
      ∀ c ∈ hs, (c.is_alloc_buffers = true ∨ c.is_use_buffers = true) ∧
        c.is_memblock = false := by
  refine ⟨_, (negotiate_buffers_handoff_calls W s q).1, ?_⟩
  intro c hc
  simp only [List.mem_cons] at hc
  rcases hc with rfl | hc
  · exact handoff_call_kind _ _ _ _ _
  · split_ifs at hc
    · simp at hc
    · simp only [List.mem_singleton] at hc
      subst hc
      exact handoff_call_kind _ _ _ _ _

/-- C22, amended.  A run of `negotiate_buffers` on an empty pool whose
parameters parse returns, and its calls are, in order: the four queries; the release of the
previous array (if any); `calloc` for the new array; and, unless `calloc`
returned `NULL`, the release of the previous memory block (if any),
`pw_memblock_alloc` for the new block, and then only the layout call and
hand-offs.  So the previous array is released before the new array is
allocated and the previous block before the new block is requested (the
release of the block follows the `calloc` of the array).  Afterwards
`impl->buffers` is what `calloc` returned (`NULL` on failure, not the released
array) and `impl->mem` is the untouched previous block when `calloc` failed and
what the allocator stored otherwise.  No block is live when the allocator is
asked, the block live afterwards is the one it stored (none if it failed), and
at no time of the run is more than one block live. -/
theorem pool_replaced_in_order (W : World) (fuel : Nat) (s s1 : State)
    (q : BufQuery) (p : BufferParams) (h0 : s.impl.n_buffers = 0)
    (hq : negotiate_buffers_query W fuel s = some (Step.next q s1))
    (hp : W.spa_pod_object_parse (query_param W s) = some p) :
    ∃ r s3 tail, negotiate_buffers W fuel s = some (r, s3) ∧
      s3.trace = s.trace ++ rebuild_calls W s s1 p tail ∧
      (∀ c ∈ tail, c = layout_call W s1 p ∨ c.is_alloc_buffers = true ∨
        c.is_use_buffers = true) ∧
      s3.impl.buffers = (W.reply (trace_at_calloc s1) (calloc_call W p)).ptr ∧
      s3.impl.mem = (if (W.reply (trace_at_calloc s1) (calloc_call W p)).ptr = 0
        then s.impl.mem
        else (W.reply (trace_at_memblock W s1 p) (memblock_call W p)).ptr) ∧
      ((W.reply (trace_at_calloc s1) (calloc_call W p)).ptr ≠ 0 →
        trace_at_memblock W s1 p = s.trace ++ (query_calls W s ++
          (if s.impl.buffers ≠ 0 then [Call.free s.impl.buffers] else []) ++
          [calloc_call W p] ++
          (if s.impl.mem ≠ 0 then [Call.pw_memblock_free s.impl.mem] else [])) ∧
        live_blocks W s.trace (query_calls W s ++
          (if s.impl.buffers ≠ 0 then [Call.free s.impl.buffers] else []) ++
          [calloc_call W p] ++
          (if s.impl.mem ≠ 0 then [Call.pw_memblock_free s.impl.mem] else []))
          (held s.impl.mem) = []) ∧
      live_blocks W s.trace (rebuild_calls W s s1 p tail) (held s.impl.mem) =
        (if (W.reply (trace_at_calloc s1) (calloc_call W p)).ptr = 0 then held s.impl.mem
         else if (W.reply (trace_at_memblock W s1 p) (memblock_call W p)).res < 0 then []
         else [(W.reply (trace_at_memblock W s1 p) (memblock_call W p)).ptr]) ∧
      peak_blocks W s.trace (rebuild_calls W s s1 p tail) (held s.impl.mem) ≤ 1 := by
  obtain ⟨hs1, hqv⟩ := negotiate_buffers_query_next W fuel s s1 q hq
  have hp2 : W.spa_pod_object_parse q.param = some p := by
    rw [hqv]; exact hp
  have hrun : negotiate_buffers W fuel s =
      match negotiate_buffers_alloc W s1 q with
      | Step.ret res s2 => some (res, s2)
      | Step.next q2 s2 => some (negotiate_buffers_handoff W s2 q2) := by
    unfold negotiate_buffers
    simp only [h0, gt_iff_lt, lt_self_iff_false, if_false, hq]
  have hA : ∀ c ∈ query_calls W s ++
      (if s.impl.buffers ≠ 0 then [Call.free s.impl.buffers] else []) ++ [calloc_call W p],
      c.is_memblock = false := by
    intro c hc
    simp only [List.mem_append, List.mem_singleton] at hc
    rcases hc with (hc | hc) | hc
    · simp only [query_calls, buffers_enum_graph, buffers_enum_client, info_client,
        info_graph, List.mem_cons, List.mem_singleton, List.not_mem_nil, or_false] at hc
      rcases hc with rfl | rfl | rfl | rfl <;> rfl
    · split_ifs at hc
      · simp only [List.mem_singleton] at hc
        subst hc
        rfl
      · simp at hc
    · subst hc
      rfl
  have hl : (held s.impl.mem).length ≤ 1 := by
    unfold held; split_ifs <;> simp
  have htm : trace_at_memblock W s1 p = s.trace ++ (query_calls W s ++
      (if s.impl.buffers ≠ 0 then [Call.free s.impl.buffers] else []) ++ [calloc_call W p]) ++
      (if s.impl.mem ≠ 0 then [Call.pw_memblock_free s.impl.mem] else []) := by
    simp [trace_at_memblock, trace_at_calloc, hs1, List.append_assoc]
  have htc : trace_at_calloc s1 = s.trace ++ (query_calls W s ++
      (if s.impl.buffers ≠ 0 then [Call.free s.impl.buffers] else [])) := by
    simp [trace_at_calloc, hs1, List.append_assoc]
  have hmem1 : s1.impl.mem = s.impl.mem := by rw [hs1]
  by_cases hcp : (W.reply (trace_at_calloc s1) (calloc_call W p)).ptr = 0
  · rw [hrun, negotiate_buffers_alloc_eq W s1 q p hp2, if_pos hcp]
    refine ⟨_, _, [], rfl, ?_, ?_, ?_, ?_, ?_, ?_, ?_⟩
    · dsimp only
      rw [rebuild_calls, if_pos hcp, htc]
      simp only [List.append_assoc, List.append_nil]
    · simp
    · dsimp only
      rw [hcp]
    · dsimp only
      rw [if_pos hcp, hmem1]
    · intro h
      exact absurd hcp h
    · simp only [rebuild_calls, hcp, if_true, List.append_nil]
      exact (live_blocks_other W _ s.trace (held s.impl.mem) hA).1
    · simp only [rebuild_calls, hcp, if_true, List.append_nil]
      rw [(live_blocks_other W _ s.trace (held s.impl.mem) hA).2]
      exact hl
  · have hmc : memblock_call W p = Call.pw_memblock_alloc
        (W.PW_MEMBLOCK_FLAG_WITH_FD ||| W.PW_MEMBLOCK_FLAG_MAP_READWRITE |||
          W.PW_MEMBLOCK_FLAG_SEAL) (memblock_request W p) := rfl
    have hask : trace_at_memblock W s1 p = s.trace ++ (query_calls W s ++
          (if s.impl.buffers ≠ 0 then [Call.free s.impl.buffers] else []) ++
          [calloc_call W p] ++
          (if s.impl.mem ≠ 0 then [Call.pw_memblock_free s.impl.mem] else [])) := by
      rw [htm]
      simp only [List.append_assoc]
    by_cases hmr : (W.reply (trace_at_memblock W s1 p) (memblock_call W p)).res < 0
    · have hB := pool_calls_blocks W s.trace _ [] s.impl.mem
        (W.PW_MEMBLOCK_FLAG_WITH_FD ||| W.PW_MEMBLOCK_FLAG_MAP_READWRITE |||
          W.PW_MEMBLOCK_FLAG_SEAL) (memblock_request W p) hA (by simp)
      rw [← hmc, ← htm] at hB
      rw [hrun, negotiate_buffers_alloc_eq W s1 q p hp2, if_neg hcp, if_pos hmr]
      refine ⟨_, _, [], rfl, ?_, ?_, rfl, ?_, ?_, ?_, ?_⟩
      · dsimp only
        rw [rebuild_calls, if_neg hcp, htm]
        simp only [List.append_assoc]
      · simp
      · dsimp only
        rw [if_neg hcp]
      · intro _
        exact ⟨hask, hB.1⟩
      · rw [rebuild_calls, if_neg hcp, ← List.append_assoc, hB.2.1, if_neg hcp]
      · rw [rebuild_calls, if_neg hcp, ← List.append_assoc]
        exact hB.2.2
    · rw [hrun, negotiate_buffers_alloc_eq W s1 q p hp2, if_neg hcp, if_neg hmr]
      obtain ⟨hs, hht, hk⟩ := negotiate_buffers_handoff_only W
        { s1 with
          trace := trace_at_memblock W s1 p ++ [memblock_call W p, layout_call W s1 p]
          impl.buffers := (W.reply (trace_at_calloc s1) (calloc_call W p)).ptr
          impl.mem := (W.reply (trace_at_memblock W s1 p) (memblock_call W p)).ptr
          impl.n_buffers := toU32 p.buffers } q
      obtain ⟨hbuf, hmem⟩ := negotiate_buffers_handoff_pointers W
        { s1 with
          trace := trace_at_memblock W s1 p ++ [memblock_call W p, layout_call W s1 p]
          impl.buffers := (W.reply (trace_at_calloc s1) (calloc_call W p)).ptr
          impl.mem := (W.reply (trace_at_memblock W s1 p) (memblock_call W p)).ptr
          impl.n_buffers := toU32 p.buffers } q
      have ht : ∀ c ∈ layout_call W s1 p :: hs, c.is_memblock = false := by
        intro c hc
        simp only [List.mem_cons] at hc
        rcases hc with rfl | hc
        · rfl
        · exact (hk c hc).2
      have hB := pool_calls_blocks W s.trace _ (layout_call W s1 p :: hs) s.impl.mem
        (W.PW_MEMBLOCK_FLAG_WITH_FD ||| W.PW_MEMBLOCK_FLAG_MAP_READWRITE |||
          W.PW_MEMBLOCK_FLAG_SEAL) (memblock_request W p) hA ht
      rw [← hmc, ← htm] at hB
      refine ⟨_, _, layout_call W s1 p :: hs, rfl, ?_, ?_, hbuf, ?_, ?_, ?_, ?_⟩
      · refine hht.trans ?_
        dsimp only
        rw [rebuild_calls, if_neg hcp, htm]
        simp only [List.append_assoc, List.cons_append, List.nil_append]
      · intro c hc
        simp only [List.mem_cons] at hc
        rcases hc with rfl | hc
        · exact Or.inl rfl
        · exact Or.inr (hk c hc).1
      · refine hmem.trans ?_
        dsimp only
        rw [if_neg hcp]
      · intro _
        exact ⟨hask, hB.1⟩
      · rw [rebuild_calls, if_neg hcp, ← List.append_assoc, hB.2.1, if_neg hcp, if_neg hmr]
      · rw [rebuild_calls, if_neg hcp, ← List.append_assoc]
        exact hB.2.2

/-- C22, amended, at a concrete input: the sample converter adapter holding a
stale array and block rebuilds its pool of four buffers. -/
theorem pool_replaced_in_order_witness :
    ∃ r s3 tail, negotiate_buffers (sampleWorld (sampleReply 0 0 0 0 0) (sampleParse 4)) 0
        sampleStalePool = some (r, s3) ∧
      s3.trace = sampleStalePool.trace ++
        rebuild_calls (sampleWorld (sampleReply 0 0 0 0 0) (sampleParse 4)) sampleStalePool
          { sampleStalePool with
            trace := query_calls (sampleWorld (sampleReply 0 0 0 0 0) (sampleParse 4))
              sampleStalePool }
          { buffers := 4, blocks := 1, size := 1024, align := 16 } tail ∧
      peak_blocks (sampleWorld (sampleReply 0 0 0 0 0) (sampleParse 4)) sampleStalePool.trace
        (rebuild_calls (sampleWorld (sampleReply 0 0 0 0 0) (sampleParse 4)) sampleStalePool
          { sampleStalePool with
            trace := query_calls (sampleWorld (sampleReply 0 0 0 0 0) (sampleParse 4))
              sampleStalePool }
          { buffers := 4, blocks := 1, size := 1024, align := 16 } tail)
        (held sampleStalePool.impl.mem) ≤ 1 := by
  obtain ⟨r, s3, tail, h1, h2, -, -, -, -, -, h8⟩ :=
    pool_replaced_in_order (sampleWorld (sampleReply 0 0 0 0 0) (sampleParse 4)) 0
      sampleStalePool
      { sampleStalePool with
        trace := query_calls (sampleWorld (sampleReply 0 0 0 0 0) (sampleParse 4))
          sampleStalePool }
      { param := some 7, in_alloc := false, out_alloc := false }
      { buffers := 4, blocks := 1, size := 1024, align := 16 }
      (by decide) (by rfl) (by rfl)
  exact ⟨r, s3, tail, h1, h2, h8⟩

/-- A walk over a list that makes one call per element records those calls in
order and changes nothing else. -/
theorem foldl_calls {α : Type} (W : World) (f : α → Call) (l : List α) :
    ∀ s : State, l.foldl (fun st x => (call W st (f x)).2) s =
      { s with trace := s.trace ++ l.map f } := by
  induction l with
  | nil => intro s; simp
  | cons x l ih =>
    intro s
    rw [List.foldl_cons, ih]
    simp [call]

/-- A walk over a list that records a run of calls per element records the
runs in order. -/
theorem foldl_traces {α : Type} (g : α → List Call) (l : List α) :
    ∀ s : State, l.foldl (fun st x => { st with trace := st.trace ++ g x }) s =
      { s with trace := s.trace ++ l.flatMap g } := by
  induction l with
  | nil => intro s; simp
  | cons x l ih =>
    intro s
    rw [List.foldl_cons, ih]
    simp

/-- The function `try_link_controls` makes exactly the attempts of
`spec_link_attempts`, in that order, and changes nothing else. -/
theorem try_link_controls_eq (W : World) (s : State) (port target : pw_port) :
    try_link_controls W s port target =
      { s with trace := s.trace ++ spec_link_attempts port target } := by
  unfold try_link_controls spec_link_attempts
  simp only [foldl_calls, foldl_traces, List.append_assoc]

/-- One call per pair: the number of calls is the product of the lengths. -/
theorem length_flatMap_pairs {α β : Type} (g : α → β → Call) (m : List β) (l : List α) :
    (l.flatMap (fun x => m.map (g x))).length = l.length * m.length := by
  induction l with
  | nil => simp
  | cons x l ih =>
    simp only [List.flatMap_cons, List.length_append, List.length_map, ih, List.length_cons]
    ring

/-- C23.  `try_link_controls (port, target)` makes exactly one
`pw_control_link (cout, cin)` attempt for every output control of `port` paired
with every input control of `target`, then one for every input control of
`port` paired with every output control of `target`, whatever the attempts
return: `|out(port)| * |in(target)| + |in(port)| * |out(target)|` attempts, and
nothing else.  The last stretch of `client_node_initialized` makes link
attempts only with a converter: in pass-through mode its calls are the
registration and the activation; in converter mode, once the IO area is
attached to the converter, they are the registration, the lookup of the
adapter's port, the attempts between the client port and that port (none when
the lookup returns `NULL`), and then the activation, whatever the attempts
returned. -/
theorem link_controls_only_with_converter (W : World) (s : State) (media_type : Nat)
    (port target : pw_port) :
    try_link_controls W s port target =
      { s with trace := s.trace ++ spec_link_attempts port target } ∧
    (spec_link_attempts port target).length =
      port.control_list_output.length * target.control_list_input.length +
      port.control_list_input.length * target.control_list_output.length ∧
    (s.impl.use_converter = false →
      client_node_initialized_finish W s media_type =
        { s with trace := s.trace ++
          [Call.pw_node_register s.impl.direction (stream_type W media_type),
           Call.pw_node_set_active true] }) ∧
    (s.impl.use_converter = true → 0 ≤ (W.reply s.trace (converter_set_io W s)).res →
      client_node_initialized_finish W s media_type =
        { s with trace := s.trace ++
          [converter_set_io W s,
           Call.pw_node_register s.impl.direction (stream_type W media_type),
           Call.pw_node_find_port pw_node_ref.this_node s.impl.direction 0] ++
          (adapter_port W s media_type).elim [] (spec_link_attempts s.impl.client_port) ++
          [Call.pw_node_set_active true] }) := by
  refine ⟨try_link_controls_eq W s port target, ?_, ?_, ?_⟩
  · simp only [spec_link_attempts, List.length_append, length_flatMap_pairs]
  · intro hc
    unfold client_node_initialized_finish
    simp [hc, call, stream_type]
  · intro hc hr
    have hr2 : ¬ (W.reply s.trace (converter_set_io W s)).res < 0 := by omega
    unfold client_node_initialized_finish
    simp only [hc, call, if_true]
    unfold converter_set_io at hr2
    simp only [hr2, if_false]
    cases hp : adapter_port W s media_type with
    | none =>
      simp only [adapter_port, converter_set_io, stream_type] at hp
      simp [hp, hc, stream_type, converter_set_io]
    | some ap =>
      simp only [adapter_port, converter_set_io, stream_type] at hp
      simp [hp, hc, stream_type, converter_set_io, try_link_controls_eq]

/-- C23, at a concrete input: between the sample client port and the sample
adapter port five attempts are made, although every attempt fails with `-22`;
and the whole bring-up of a raw-audio client on these collaborators ends with
the five attempts followed by the activation. -/
theorem link_controls_only_with_converter_witness :
    try_link_controls (sampleWorld (bringUpReply 0 1 1 2 (-22)) (sampleParse 4)) sampleFresh
        sampleClientPort sampleAdapterPort =
      { sampleFresh with trace :=
        [Call.pw_control_link 31 40, Call.pw_control_link 31 41, Call.pw_control_link 32 40,
         Call.pw_control_link 32 41, Call.pw_control_link 42 30] } ∧
    (client_node_initialized (sampleWorld (bringUpReply 0 1 1 2 (-22)) (sampleParse 4))
        sampleFresh).trace.drop 12 =
      [Call.pw_control_link 31 40, Call.pw_control_link 31 41, Call.pw_control_link 32 40,
       Call.pw_control_link 32 41, Call.pw_control_link 42 30, Call.pw_node_set_active true] :=
  ⟨(link_controls_only_with_converter (sampleWorld (bringUpReply 0 1 1 2 (-22)) (sampleParse 4))
      sampleFresh 1 sampleClientPort sampleAdapterPort).1.trans rfl, by decide⟩

/-- The last stretch of `client_node_initialized` leaves `impl` alone. -/
theorem client_node_initialized_finish_impl (W : World) (s : State) (media_type : Nat) :
    (client_node_initialized_finish W s media_type).impl = s.impl := by
  unfold client_node_initialized_finish
  simp only [call, try_link_controls_eq]
  by_cases hc : s.impl.use_converter = true
  · by_cases hr : (W.reply s.trace (Call.port_set_io s.impl.adapter_mix
        (SPA_DIRECTION_REVERSE s.impl.direction) 0 W.SPA_IO_Buffers
        s.impl.client_port_mix.io W.sizeof_pointer)).res < 0
    · simp [hc, hr]
    · simp only [hc, hr, if_true, if_false]
      split <;> rfl
  · simp [hc]

/-- The selection stretch of `client_node_initialized`, case by case. -/
theorem client_node_initialized_select_eq (W : World) (s : State) (exclusive : Bool) :
    client_node_initialized_select W s exclusive =
      if (first_format W s).res ≤ 0 then
        Flow.stop { s with
          trace := s.trace ++ [first_format_call W s]
          impl.adapter := s.impl.cnode
          impl.adapter_mix := s.impl.client_port.mix
          impl.use_converter := false }
      else if (parsed_format W s).res < 0 then
        Flow.stop { s with
          trace := s.trace ++ [first_format_call W s,
            Call.spa_format_parse (first_format W s).pod] }
      else if wants_converter W s exclusive then
        if loaded_converter W s = 0 then
          Flow.stop { s with
            trace := s.trace ++ [first_format_call W s,
              Call.spa_format_parse (first_format W s).pod, Call.pw_load_spa_interface]
            impl.adapter := 0 }
        else
          Flow.go (parsed_format W s).media_type { s with
            trace := s.trace ++ [first_format_call W s,
              Call.spa_format_parse (first_format W s).pod, Call.pw_load_spa_interface]
            impl.adapter := loaded_converter W s
            impl.adapter_mix := loaded_converter W s
            impl.use_converter := true }
      else
        Flow.go (parsed_format W s).media_type { s with
          trace := s.trace ++ [first_format_call W s,
            Call.spa_format_parse (first_format W s).pod]
          impl.adapter := s.impl.cnode
          impl.adapter_mix := s.impl.client_port.mix
          impl.use_converter := false } := by
  unfold client_node_initialized_select
  simp only [call, wants_converter, loaded_converter, parsed_format, first_format,
    first_format_call, List.append_assoc, List.singleton_append, List.cons_append,
    List.nil_append]
  split_ifs with h1 h2 h3 h4 <;> first | rfl | rw [h4]

/-- C24, counterexample to the claim as stated.  A client that is not
exclusive offers raw audio, so the converter is asked for, but
`pw_load_spa_interface` returns `NULL`: `client_node_initialized` returns with
`use_converter = false` and `adapter = NULL`, which is not the client node `1`.
The same holds when the first format does not parse (`spa_format_parse`
returns `-22`): no adapter is selected at all. -/
theorem converter_load_failure_leaves_no_adapter :
    Call.pw_load_spa_interface ∈
      (client_node_initialized (sampleWorld (bringUpReply 0 1 1 0 0) (sampleParse 4))
        sampleFresh).trace ∧
    (client_node_initialized (sampleWorld (bringUpReply 0 1 1 0 0) (sampleParse 4))
      sampleFresh).impl.use_converter = false ∧
    (client_node_initialized (sampleWorld (bringUpReply 0 1 1 0 0) (sampleParse 4))
      sampleFresh).impl.adapter = 0 ∧
    (client_node_initialized (sampleWorld (bringUpReply 0 1 1 0 0) (sampleParse 4))
      sampleFresh).impl.cnode = 1 ∧
    (client_node_initialized (sampleWorld (bringUpReply (-22) 1 1 2 0) (sampleParse 4))
      sampleFresh).impl.use_converter = false ∧
    (client_node_initialized (sampleWorld (bringUpReply (-22) 1 1 2 0) (sampleParse 4))
      sampleFresh).impl.adapter = 0 ∧
    (client_node_initialized (sampleWorld (bringUpReply (-22) 1 1 2 0) (sampleParse 4))
      sampleFresh).impl.cnode = 1 := by
  decide

/-- A first stretch of `client_node_initialized` that goes on hands on the
client's `exclusive` property as read from the client node's properties, has
stored the client node and chosen no adapter yet, and has made the lookup of
the client node, the port count query, the property calls, the port lookup
and the two calls that attach the IO area. -/
theorem client_node_initialized_setup_go (W : World) (s s1 : State) (ex : Bool)
    (h : client_node_initialized_setup W s = Flow.go ex s1) :
    ex = client_exclusive W s ∧
    s1.impl.cnode = setup_cnode W s ∧
    s1.impl.adapter = s.impl.adapter ∧
    s1.impl.adapter_mix = s.impl.adapter_mix ∧
    s1.impl.use_converter = s.impl.use_converter ∧
    s1.trace = trace_at_properties W s ++ property_calls W s ++
      [Call.pw_node_find_port pw_node_ref.client_node s1.impl.direction 0,
       Call.pw_port_init_mix s1.impl.client_port,
       Call.port_set_io s1.impl.client_port.mix s1.impl.direction 0 W.SPA_IO_Buffers
         s1.impl.client_port_mix.io W.sizeof_pointer] := by
  unfold client_node_initialized_setup at h
  simp only [call] at h
  by_cases hp : client_props W s = 0 <;> by_cases hstr : client_exclusive_str W s = 0 <;>
    simp only [client_props, client_exclusive_str, trace_at_properties, setup_cnode,
      List.append_assoc, List.singleton_append, List.cons_append, List.nil_append] at hp hstr <;>
    simp only [hp, hstr, ne_eq, not_true_eq_false, not_false_eq_true, if_true, if_false,
      List.append_assoc, List.singleton_append, List.cons_append, List.nil_append] at h <;>
    split_ifs at h <;> (try split at h) <;> (try split_ifs at h) <;>
    first
      | (simp at h; done)
      | (simp only [Flow.go.injEq] at h
         obtain ⟨rfl, rfl⟩ := h
         simp_all [client_exclusive, client_props, client_exclusive_str, trace_at_properties,
           setup_cnode, property_calls])

/-- A first stretch of `client_node_initialized` that returns has chosen no
adapter: `adapter`, `adapter_mix` and `use_converter` are what they were. -/
theorem client_node_initialized_setup_stop (W : World) (s s1 : State)
    (h : client_node_initialized_setup W s = Flow.stop s1) :
    s1.impl.adapter = s.impl.adapter ∧ s1.impl.adapter_mix = s.impl.adapter_mix ∧
    s1.impl.use_converter = s.impl.use_converter := by
  unfold client_node_initialized_setup at h
  simp only [call] at h
  split_ifs at h <;> (try split at h) <;> (try split_ifs at h) <;>
    first
      | (simp at h; done)
      | (simp only [Flow.stop.injEq] at h
         subst h
         exact ⟨rfl, rfl, rfl⟩)

/-- After a first stretch that went on, `impl` at the end of
`client_node_initialized` is `impl` at the end of the selection stretch. -/
theorem client_node_initialized_impl (W : World) (s s1 : State) (ex : Bool)
    (h : client_node_initialized_setup W s = Flow.go ex s1) :
    (client_node_initialized W s).impl =
      match client_node_initialized_select W s1 ex with
      | Flow.stop s2 => s2.impl
      | Flow.go _ s2 => s2.impl := by
  unfold client_node_initialized
  rw [h]
  simp only
  cases client_node_initialized_select W s1 ex with
  | stop s2 => rfl
  | go m s2 => exact client_node_initialized_finish_impl W s2 m

/-- After a first stretch that went on with the flag `ex`, `impl` at the end
of `client_node_initialized`, case by case. -/
theorem client_node_initialized_impl_eq (W : World) (s s1 : State) (ex : Bool)
    (h : client_node_initialized_setup W s = Flow.go ex s1) :
    (client_node_initialized W s).impl =
      if (first_format W s1).res ≤ 0 then
        { s1.impl with adapter := s1.impl.cnode
                       adapter_mix := s1.impl.client_port.mix
                       use_converter := false }
      else if (parsed_format W s1).res < 0 then s1.impl
      else if wants_converter W s1 ex then
        if loaded_converter W s1 = 0 then { s1.impl with adapter := 0 }
        else
          { s1.impl with adapter := loaded_converter W s1
                         adapter_mix := loaded_converter W s1
                         use_converter := true }
      else
        { s1.impl with adapter := s1.impl.cnode
                       adapter_mix := s1.impl.client_port.mix
                       use_converter := false } := by
  rw [client_node_initialized_impl W s s1 ex h, client_node_initialized_select_eq]
  split_ifs <;> rfl

/-- C24, amended.  `client_node_initialized` first looks the client node up,
reads its `exclusive` property and attaches the IO area; if that stretch
returns, no adapter is chosen.  Otherwise the client counts as exclusive
exactly when its node has properties, they hold `PW_NODE_PROP_EXCLUSIVE` and
the value parses as true, and a converter is wanted when the client is not
exclusive and its first format is raw audio.  Then, `impl` being what the
first stretch left: when the client offers no format the node is pass-through
(`use_converter = false`, `adapter` the client node, `adapter_mix` the client
port's mix); when the format does not parse, `impl` stays what the first
stretch left, so `adapter`, `adapter_mix` and `use_converter` are what they
were on entry; when a converter is wanted and cannot be loaded, `adapter` is
`NULL` and nothing else changes; when it could be loaded,
`use_converter = true` and `adapter = adapter_mix =` the loaded converter; when
the format parses and no converter is wanted, the node is pass-through.  So on
an adapter that starts with `use_converter = false` a converter is interposed
only if the client offers a format that parses, is not exclusive, the format
is raw audio and the converter could be loaded; and after a selection that
found no format or was not abandoned, `use_converter = false` implies
`adapter = cnode`. -/
theorem adapter_selection (W : World) (s : State) :
    (∀ s1, client_node_initialized_setup W s = Flow.stop s1 →
      client_node_initialized W s = s1 ∧
      s1.impl.adapter = s.impl.adapter ∧ s1.impl.adapter_mix = s.impl.adapter_mix ∧
      s1.impl.use_converter = s.impl.use_converter) ∧
    (∀ ex s1, client_node_initialized_setup W s = Flow.go ex s1 →
      ex = client_exclusive W s ∧
      s1.impl.cnode = setup_cnode W s ∧
      s1.impl.adapter = s.impl.adapter ∧ s1.impl.adapter_mix = s.impl.adapter_mix ∧
      s1.impl.use_converter = s.impl.use_converter ∧
      ((first_format W s1).res ≤ 0 →
        (client_node_initialized W s).impl =
          { s1.impl with adapter := s1.impl.cnode
                         adapter_mix := s1.impl.client_port.mix
                         use_converter := false }) ∧
      (0 < (first_format W s1).res → (parsed_format W s1).res < 0 →
        (client_node_initialized W s).impl = s1.impl) ∧
      (0 < (first_format W s1).res → 0 ≤ (parsed_format W s1).res →
        wants_converter W s1 (client_exclusive W s) → loaded_converter W s1 = 0 →
        (client_node_initialized W s).impl = { s1.impl with adapter := 0 }) ∧
      (0 < (first_format W s1).res → 0 ≤ (parsed_format W s1).res →
        wants_converter W s1 (client_exclusive W s) → loaded_converter W s1 ≠ 0 →
        (client_node_initialized W s).impl =
          { s1.impl with adapter := loaded_converter W s1
                         adapter_mix := loaded_converter W s1
                         use_converter := true }) ∧
      (0 < (first_format W s1).res → 0 ≤ (parsed_format W s1).res →
        ¬ wants_converter W s1 (client_exclusive W s) →
        (client_node_initialized W s).impl =
          { s1.impl with adapter := s1.impl.cnode
                         adapter_mix := s1.impl.client_port.mix
                         use_converter := false }) ∧
      (s.impl.use_converter = false →
        (client_node_initialized W s).impl.use_converter = true →
        0 < (first_format W s1).res ∧ 0 ≤ (parsed_format W s1).res ∧
        wants_converter W s1 (client_exclusive W s) ∧ loaded_converter W s1 ≠ 0) ∧
      (((first_format W s1).res ≤ 0 ∨
          (0 ≤ (parsed_format W s1).res ∧
            (wants_converter W s1 (client_exclusive W s) → loaded_converter W s1 ≠ 0))) →
        (client_node_initialized W s).impl.use_converter = false →
        (client_node_initialized W s).impl.adapter = (client_node_initialized W s).impl.cnode ∧
        (client_node_initialized W s).impl.adapter_mix =
          (client_node_initialized W s).impl.client_port.mix)) := by
  refine ⟨?_, ?_⟩
  · intro s1 h
    refine ⟨?_, client_node_initialized_setup_stop W s s1 h⟩
    unfold client_node_initialized
    rw [h]
  · intro ex s1 h
    obtain ⟨hex, hc, ha, hm, hu, -⟩ := client_node_initialized_setup_go W s s1 ex h
    have hi := client_node_initialized_impl_eq W s s1 ex h
    rw [hex] at hi
    refine ⟨hex, hc, ha, hm, hu, ?_, ?_, ?_, ?_, ?_, ?_, ?_⟩
    · intro h1
      rw [hi, if_pos h1]
    · intro h1 h2
      rw [hi, if_neg (by omega), if_pos h2]
    · intro h1 h2 h3 h4
      rw [hi, if_neg (by omega), if_neg (by omega), if_pos h3, if_pos h4]
    · intro h1 h2 h3 h4
      rw [hi, if_neg (by omega), if_neg (by omega), if_pos h3, if_neg h4]
    · intro h1 h2 h3
      rw [hi, if_neg (by omega), if_neg (by omega), if_neg h3]
    · intro h0 hconv
      rw [hi] at hconv
      by_cases h1 : (first_format W s1).res ≤ 0
      · rw [if_pos h1] at hconv
        simp at hconv
      · rw [if_neg h1] at hconv
        by_cases h2 : (parsed_format W s1).res < 0
        · rw [if_pos h2, hu, h0] at hconv
          simp at hconv
        · rw [if_neg h2] at hconv
          by_cases h3 : wants_converter W s1 (client_exclusive W s)
          · rw [if_pos h3] at hconv
            by_cases h4 : loaded_converter W s1 = 0
            · rw [if_pos h4] at hconv
              have hconv2 : s1.impl.use_converter = true := hconv
              rw [hu, h0] at hconv2
              simp at hconv2
            · exact ⟨by omega, by omega, h3, h4⟩
          · rw [if_neg h3] at hconv
            simp at hconv
    · intro hsel hconv
      rw [hi] at hconv ⊢
      by_cases h1 : (first_format W s1).res ≤ 0
      · rw [if_pos h1]
        exact ⟨rfl, rfl⟩
      · rw [if_neg h1] at hconv ⊢
        have hsel2 := hsel.resolve_left h1
        have h2 : ¬ (parsed_format W s1).res < 0 := by omega
        rw [if_neg h2] at hconv ⊢
        by_cases h3 : wants_converter W s1 (client_exclusive W s)
        · rw [if_pos h3, if_neg (hsel2.2 h3)] at hconv
          simp at hconv
        · rw [if_neg h3]
          exact ⟨rfl, rfl⟩

/-- C24, amended, at a concrete input: the bring-up of a fresh adapter for an
exclusive client that offers raw audio.  The first stretch goes on with
`exclusive = true`, and the node ends pass-through, the adapter being the
client node `1` and the adapter mix the client port's mix `3`. -/
theorem adapter_selection_witness :
    client_exclusive (sampleWorld exclusiveReply (sampleParse 4)) sampleFresh = true ∧
    (client_node_initialized (sampleWorld exclusiveReply (sampleParse 4)) sampleFresh).impl =
      { sampleSetUp.impl with adapter := 1, adapter_mix := 3, use_converter := false } :=
  ⟨by decide,
    ((adapter_selection (sampleWorld exclusiveReply (sampleParse 4)) sampleFresh).2 true
      { sampleSetUp with trace :=
        [Call.pw_node_get_implementation, Call.get_n_ports 1, Call.pw_node_get_properties,
         Call.pw_properties_get 50, Call.pw_properties_parse_bool 51,
         Call.pw_node_find_port pw_node_ref.client_node SPA_DIRECTION_INPUT 0,
         Call.pw_port_init_mix sampleClientPort,
         Call.port_set_io 3 SPA_DIRECTION_INPUT 0 1 100 8] }
      rfl).2.2.2.2.2.2.2.2.2.1 (by decide) (by decide)
      (fun h => absurd h.1 (by decide))⟩

/-- C22, counterexample to the claim as stated.  The sample converter adapter
holds the array `4096` and the memory block `8192` of an earlier pool and
rebuilds its pool of four buffers.  The releases and allocations of the run
are, in this order: the release of the old array, the `calloc` of the new
array, the release of the old block, the request for the new block.  The new
array is allocated while the previous block is still held. -/
theorem pool_block_released_after_new_array :
    (negotiate_buffers (sampleWorld (sampleReply 0 0 0 0 0) (sampleParse 4)) 0
      sampleStalePool).map (fun r => (r.1, r.2.trace.filter Call.is_pool_call)) =
    some (0, [Call.free 4096,
      calloc_call (sampleWorld (sampleReply 0 0 0 0 0) (sampleParse 4))
        { buffers := 4, blocks := 1, size := 1024, align := 16 },
      Call.pw_memblock_free 8192,
      memblock_call (sampleWorld (sampleReply 0 0 0 0 0) (sampleParse 4))
        { buffers := 4, blocks := 1, size := 1024, align := 16 }]) := by
  decide

end ClientStream

namespace FmtOps

/-! ## Theorems on the sample-format routines -/

/-- The loop of `find_conv_info` returns the first entry that matches. -/
theorem find_conv_info_loop_first (af : spa_type_audio_format) (src dst : Nat) :
    ∀ (l : List conv_info) (e : conv_info), find_conv_info_loop af src dst l = some e →
      af e.src_fmt = src ∧ af e.dst_fmt = dst ∧
      ∃ before after, l = before ++ e :: after ∧
        ∀ x ∈ before, ¬ (af x.src_fmt = src ∧ af x.dst_fmt = dst) := by
  intro l
  induction l with
  | nil => intro e h; simp [find_conv_info_loop] at h
  | cons x l ih =>
    intro e h
    unfold find_conv_info_loop at h
    split_ifs at h with hx
    · simp only [Option.some.injEq] at h
      subst h
      exact ⟨hx.1, hx.2, [], l, rfl, by simp⟩
    · obtain ⟨h1, h2, before, after, h3, h4⟩ := ih e h
      refine ⟨h1, h2, x :: before, after, by rw [h3]; rfl, ?_⟩
      intro y hy
      simp only [List.mem_cons] at hy
      rcases hy with rfl | hy
      · exact hx
      · exact h4 y hy

/-- The loop of `find_conv_info` returns `NULL` exactly when no entry
matches. -/
theorem find_conv_info_loop_none (af : spa_type_audio_format) (src dst : Nat) :
    ∀ (l : List conv_info), find_conv_info_loop af src dst l = none ↔
      ∀ x ∈ l, ¬ (af x.src_fmt = src ∧ af x.dst_fmt = dst) := by
  intro l
  induction l with
  | nil => simp [find_conv_info_loop]
  | cons x l ih =>
    unfold find_conv_info_loop
    split_ifs with hx
    · constructor
      · intro h
        simp at h
      · intro h
        exact absurd hx (h x (List.mem_cons_self _ _))
    · rw [ih]
      simp only [List.mem_cons, forall_eq_or_imp]
      exact ⟨fun h => ⟨hx, h⟩, fun h => h.2⟩

/-- With pairwise distinct ids, a lookup by the ids of two members is a lookup
by the members. -/
theorem find_conv_info_loop_members (af : spa_type_audio_format)
    (hinj : Function.Injective af) (a b : audio_format_member) :
    ∀ (l : List conv_info), find_conv_info_loop af (af a) (af b) l =
      l.find? (fun e => decide (e.src_fmt = a ∧ e.dst_fmt = b)) := by
  intro l
  induction l with
  | nil => rfl
  | cons x l ih =>
    unfold find_conv_info_loop
    rw [List.find?_cons, ih]
    by_cases hx : x.src_fmt = a ∧ x.dst_fmt = b
    · simp [hx]
    · have hx2 : ¬ (af x.src_fmt = af a ∧ af x.dst_fmt = af b) := by
        intro h
        exact hx ⟨hinj h.1, hinj h.2⟩
      simp [hx, hx2]

/-- C27.  If the six format ids are pairwise distinct, then for every pair of
them `find_conv_info` returns an entry exactly when the two are the same or one
of them is `F32`, and the entry it returns is the entry of `conv_table` for
that pair of members; whatever the ids, an entry it returns matches the two ids
and no entry before it in `conv_table` does; and when `src_fmt` or `dst_fmt` is
none of the six ids, it returns `NULL`. -/
theorem find_conv_info_table (af : spa_type_audio_format) (hinj : Function.Injective af) :
    (∀ a b : audio_format_member,
      (find_conv_info af (af a) (af b)).isSome = true ↔
        (a = b ∨ a = audio_format_member.F32 ∨ b = audio_format_member.F32)) ∧
    (∀ (a b : audio_format_member) (e : conv_info),
      find_conv_info af (af a) (af b) = some e → e.src_fmt = a ∧ e.dst_fmt = b) ∧
    (∀ (src dst : Nat) (e : conv_info), find_conv_info af src dst = some e →
      af e.src_fmt = src ∧ af e.dst_fmt = dst ∧
      ∃ before after, conv_table = before ++ e :: after ∧
        ∀ x ∈ before, ¬ (af x.src_fmt = src ∧ af x.dst_fmt = dst)) ∧
    (∀ src dst : Nat, ((∀ m, af m ≠ src) ∨ (∀ m, af m ≠ dst)) →
      find_conv_info af src dst = none) := by
  refine ⟨?_, ?_, ?_, ?_⟩
  · intro a b
    unfold find_conv_info
    rw [find_conv_info_loop_members af hinj a b]
    cases a <;> cases b <;> decide
  · intro a b e h
    obtain ⟨h1, h2, -⟩ := find_conv_info_loop_first af (af a) (af b) conv_table e h
    exact ⟨hinj h1, hinj h2⟩
  · intro src dst e h
    exact find_conv_info_loop_first af src dst conv_table e h
  · intro src dst h
    unfold find_conv_info
    rw [find_conv_info_loop_none]
    intro x _ hx
    rcases h with h | h
    · exact h x.src_fmt hx.1
    · exact h x.dst_fmt hx.2

/-- C27 at a concrete input: with the ids `1` to `6`, the pair (`F32`, `S24`),
ids `6` and `3`, finds the tenth entry of the table. -/
theorem find_conv_info_table_witness :
    find_conv_info sampleAudioFormat 6 3 =
      some ⟨.F32, .S24, .conv_f32_to_s24, .conv_f32_to_s24d, .conv_f32d_to_s24⟩ ∧
    ∀ e, find_conv_info sampleAudioFormat (sampleAudioFormat .F32) (sampleAudioFormat .S24)
      = some e → e.src_fmt = .F32 ∧ e.dst_fmt = .S24 :=
  ⟨by decide, (find_conv_info_table sampleAudioFormat (by
    intro a b h
    cases a <;> cases b <;> first | rfl | (simp [sampleAudioFormat] at h)
    )).2.1 .F32 .S24⟩

/-- Reading a cell through the signed type and storing it through the unsigned
type of the same width keeps the bit pattern. -/
theorem as_unsigned_as_signed (bits b : Nat) (hb : b < 2 ^ bits) :
    as_unsigned bits (as_signed bits b) = b := by
  unfold as_unsigned as_signed
  have hpos : (0 : Int) < 2 ^ bits := by positivity
  have hb2 : (b : Int) < 2 ^ bits := by exact_mod_cast hb
  split_ifs with h
  · rw [Int.emod_eq_of_lt (by omega) hb2]
    simp
  · have e : ((b : Int) - 2 ^ bits) % 2 ^ bits = (b : Int) := by
      rw [Int.sub_emod, Int.emod_self, sub_zero, Int.emod_emod_of_dvd _ (dvd_refl _),
        Int.emod_eq_of_lt (by omega) hb2]
    rw [e]
    simp

/-- The inner loop of a deinterleave routine: `m` samples, read from `p` on,
go to index `j` of the channels `0` to `m - 1`. -/
theorem deinterleave_inner (s : Nat → Nat) (j : Nat) :
    ∀ (m p : Nat) (d : Nat → Nat → Nat),
      for_loop (fun i (st2 : Nat × (Nat → Nat → Nat)) =>
          (st2.1 + 1, store2 st2.2 i j (s st2.1))) m (p, d) =
        (p + m, fun a b => if a < m ∧ b = j then s (p + a) else d a b) := by
  intro m
  induction m with
  | zero => intro p d; simp [for_loop]
  | succ m ih =>
    intro p d
    simp only [for_loop, ih]
    refine Prod.ext (by simp only; omega) ?_
    funext a b
    simp only [store2]
    by_cases h1 : a = m <;> by_cases h2 : b = j <;> by_cases h3 : a < m <;>
      by_cases h4 : a < m + 1 <;> simp [h1, h2, h3, h4] <;> omega

/-- The two loops of a deinterleave routine over `m` frames. -/
theorem deinterleave_outer (s : Nat → Nat) (n_dst : Nat) (d : Nat → Nat → Nat) :
    ∀ m : Nat,
      for_loop (fun j (st : Nat × (Nat → Nat → Nat)) =>
          for_loop (fun i (st2 : Nat × (Nat → Nat → Nat)) =>
            (st2.1 + 1, store2 st2.2 i j (s st2.1))) n_dst st) m (0, d) =
        (m * n_dst, fun a b => if a < n_dst ∧ b < m then s (b * n_dst + a) else d a b) := by
  intro m
  induction m with
  | zero => simp [for_loop]
  | succ m ih =>
    simp only [for_loop, ih, deinterleave_inner]
    refine Prod.ext (by simp only; ring) ?_
    funext a b
    by_cases h1 : a < n_dst <;> by_cases h2 : b = m <;> by_cases h3 : b < m <;>
      by_cases h4 : b < m + 1 <;> simp [h1, h2, h3, h4] <;> omega

/-- The inner loop of an interleave routine: `m` samples, index `j` of the
channels `0` to `m - 1`, converted by `cv`, go to the cells `p` to
`p + m - 1`. -/
theorem interleave_inner (cv : Nat → Nat) (src : Nat → Nat → Nat) (j : Nat) :
    ∀ (m p : Nat) (d : Nat → Nat),
      for_loop (fun i (st2 : Nat × (Nat → Nat)) =>
          (st2.1 + 1, store st2.2 st2.1 (cv (src i j)))) m (p, d) =
        (p + m, fun k => if p ≤ k ∧ k < p + m then cv (src (k - p) j) else d k) := by
  intro m
  induction m with
  | zero =>
    intro p d
    simp only [for_loop, Nat.add_zero]
    refine Prod.ext rfl ?_
    funext k
    have : ¬ (p ≤ k ∧ k < p) := by omega
    simp [this]
  | succ m ih =>
    intro p d
    simp only [for_loop, ih]
    refine Prod.ext (by simp only; omega) ?_
    funext k
    simp only [store]
    by_cases h1 : k = p + m
    · subst h1
      simp
    · by_cases h2 : p ≤ k ∧ k < p + m
      · have h3 : p ≤ k ∧ k < p + (m + 1) := by omega
        simp [h1, h2, h3]
      · have h3 : ¬ (p ≤ k ∧ k < p + (m + 1)) := by omega
        simp [h1, h2, h3]

/-- The two loops of an interleave routine over `m` frames: sample `j` of
channel `i` goes to cell `j * n_src + i`, and the cells from `m * n_src` on are
left alone. -/
theorem interleave_outer (cv : Nat → Nat) (src : Nat → Nat → Nat) (n_src : Nat)
    (d : Nat → Nat) :
    ∀ m : Nat,
      (for_loop (fun j (st : Nat × (Nat → Nat)) =>
          for_loop (fun i (st2 : Nat × (Nat → Nat)) =>
            (st2.1 + 1, store st2.2 st2.1 (cv (src i j)))) n_src st) m (0, d)).1 =
        m * n_src ∧
      (∀ i j, i < n_src → j < m →
        (for_loop (fun j (st : Nat × (Nat → Nat)) =>
          for_loop (fun i (st2 : Nat × (Nat → Nat)) =>
            (st2.1 + 1, store st2.2 st2.1 (cv (src i j)))) n_src st) m (0, d)).2
          (j * n_src + i) = cv (src i j)) ∧
      (∀ k, m * n_src ≤ k →
        (for_loop (fun j (st : Nat × (Nat → Nat)) =>
          for_loop (fun i (st2 : Nat × (Nat → Nat)) =>
            (st2.1 + 1, store st2.2 st2.1 (cv (src i j)))) n_src st) m (0, d)).2 k = d k) := by
  intro m
  induction m with
  | zero => simp [for_loop]
  | succ m ih =>
    obtain ⟨h1, h2, h3⟩ := ih
    simp only [for_loop]
    generalize for_loop (fun j (st : Nat × (Nat → Nat)) =>
          for_loop (fun i (st2 : Nat × (Nat → Nat)) =>
            (st2.1 + 1, store st2.2 st2.1 (cv (src i j)))) n_src st) m (0, d) = r at h1 h2 h3
    obtain ⟨p, f⟩ := r
    simp only at h1 h2 h3
    subst h1
    rw [interleave_inner]
    have hs : (m + 1) * n_src = m * n_src + n_src := Nat.succ_mul m n_src
    refine ⟨hs.symm, ?_, ?_⟩
    · intro i j hi hj
      simp only
      by_cases hjm : j = m
      · subst hjm
        have hr : j * n_src ≤ j * n_src + i ∧ j * n_src + i < j * n_src + n_src := by omega
        simp [hr]
      · have hlt : j + 1 ≤ m := by omega
        have hm := Nat.mul_le_mul_right n_src hlt
        rw [Nat.succ_mul] at hm
        have hr : ¬ (m * n_src ≤ j * n_src + i ∧ j * n_src + i < m * n_src + n_src) := by
          omega
        simp only [hr, if_false]
        exact h2 i j hi (by omega)
    · intro k hk
      simp only
      have hr : ¬ (m * n_src ≤ k ∧ k < m * n_src + n_src) := by omega
      simp only [hr, if_false]
      exact h3 k (by omega)

/-- A deinterleave routine on `n` whole frames of `C` channels, cell by
cell. -/
theorem deinterleave_n_eq (size C n : Nat) (hsize : 0 < size) (hC : 1 ≤ C)
    (flat : Nat → Nat) (d : Nat → Nat → Nat) :
    deinterleave_n size C (n * C * size) flat d =
      fun a b => if a < C ∧ b < n then flat (b * C + a) else d a b := by
  have hdiv : n * C * size / (size * C) = n := by
    have e : n * C * size = n * (size * C) := by ring
    rw [e]
    exact Nat.mul_div_cancel n (Nat.mul_pos hsize hC)
  unfold deinterleave_n
  simp only [hdiv, deinterleave_outer]

/-- An interleave routine on `n` samples for each of `C` channels: the cell
`j * C + i` gets sample `j` of channel `i`, read as signed and stored as
unsigned. -/
theorem interleave_n_at (size C n : Nat) (hsize : 0 < size)
    (planes : Nat → Nat → Nat) (d : Nat → Nat) (i j : Nat) (hi : i < C) (hj : j < n) :
    interleave_n size C (n * size) planes d (j * C + i) =
      as_unsigned (8 * size) (as_signed (8 * size) (planes i j)) := by
  unfold interleave_n
  simp only [Nat.mul_div_cancel n hsize]
  exact (interleave_outer (fun v => as_unsigned (8 * size) (as_signed (8 * size) v))
    planes C d n).2.1 i j hi hj

/-- The layout of the claim holds for the common text of the routines, for
every sample size above zero. -/
theorem spec_layout_n (size : Nat) (hsize : 0 < size) :
    spec_layout size (deinterleave_n size) (interleave_n size) := by
  intro C n flat d2 planes d1 hC hflat hplanes
  refine ⟨?_, ?_, ?_, ?_⟩
  · intro i j hi hj
    rw [deinterleave_n_eq size C n hsize hC]
    simp [hi, hj]
  · intro i j hi hj
    rw [interleave_n_at size C n hsize planes d2 i j hi hj]
    exact as_unsigned_as_signed _ _ (hplanes i j)
  · intro k hk
    have hi : k % C < C := Nat.mod_lt k (by omega)
    have hj : k / C < n := by
      rw [Nat.div_lt_iff_lt_mul (by omega)]
      exact hk
    have hkd : k / C * C + k % C = k := Nat.div_add_mod' k C
    have e := interleave_n_at size C n hsize (deinterleave_n size C (n * C * size) flat d1) d2
      (k % C) (k / C) hi hj
    rw [hkd] at e
    rw [e, deinterleave_n_eq size C n hsize hC]
    simp only [hi, hj, and_self, if_true, hkd]
    exact as_unsigned_as_signed _ _ (hflat k)
  · intro i j hi hj
    rw [deinterleave_n_eq size C n hsize hC]
    simp only [hi, hj, and_self, if_true]
    rw [interleave_n_at size C n hsize planes d2 i j hi hj]
    exact as_unsigned_as_signed _ _ (hplanes i j)

/-- C28.  For the sample sizes of 1, 2 and 4 bytes, every channel count
`C >= 1` and every frame count `n`: `deinterleave_8`, `deinterleave_16` and
`deinterleave_32`, called with `n_dst = C` and `n_bytes = n * C * size`, store
sample (frame `j`, channel `i`) of the interleaved source at index `j` of
destination channel `i`; `interleave_8`, `interleave_16` and `interleave_32`,
called with `n_src = C` and `n_bytes = n * size`, store sample `j` of source
channel `i` at index `j * C + i` of the destination; so interleaving the result
of a deinterleave gives back the `n * C` samples bit for bit, and
deinterleaving the result of an interleave gives back the channels. -/
theorem interleave_deinterleave_layout :
    spec_layout 1 deinterleave_8 interleave_8 ∧
    spec_layout 2 deinterleave_16 interleave_16 ∧
    spec_layout 4 deinterleave_32 interleave_32 :=
  ⟨spec_layout_n 1 (by decide), spec_layout_n 2 (by decide), spec_layout_n 4 (by decide)⟩

/-- C28 at a concrete input: two channels, two frames of 16-bit samples;
the fourth sample comes back from a deinterleave followed by an interleave. -/
theorem interleave_deinterleave_layout_witness :
    interleave_16 2 (2 * 2)
      (deinterleave_16 2 (2 * 2 * 2) (fun k => k % 7) (fun _ _ => 0)) (fun _ => 0) 3 = 3 % 7 :=
  (interleave_deinterleave_layout.2.1 2 2 (fun k => k % 7) (fun _ => 0) (fun _ _ => 0)
    (fun _ _ => 0) (by decide)
    (by intro k; exact lt_trans (Nat.mod_lt k (by decide)) (by norm_num))
    (by intro _ _; norm_num)).2.2.1 3 (by decide)

/-- C29, the code at failing inputs.  `deinterleave_24` on one frame of two
channels (`n_dst = 2`, `n_bytes = 6`, source bytes `1` to `6`, destinations
zeroed) stores the first sample at bytes `0..2` of channel `0`, leaves channel
`1` untouched and stores the second sample through the slot `4` of the table,
which lies behind the table.  `interleave_24` on one frame of two channels
(`n_src = 2`, `n_bytes = 3`) stores the sample of channel `0` at bytes `0..2`
and then, at bytes `3..5`, what the slot `4` points to, not the sample of
channel `1`.  On a single channel whose sample is the bytes `1, 2, 128` it
stores `255, 255, 128`: the bytes are read as signed and sign-extended before
they are combined. -/
theorem deinterleave_24_misplaces :
    (List.range 3).map (deinterleave_24 2 6 sampleBytes (fun _ _ => 0) 0) = [1, 2, 3] ∧
    (List.range 3).map (deinterleave_24 2 6 sampleBytes (fun _ _ => 0) 1) = [0, 0, 0] ∧
    (List.range 3).map (deinterleave_24 2 6 sampleBytes (fun _ _ => 0) 4) = [4, 5, 6] ∧
    (List.range 6).map (interleave_24 2 3 sampleChannels (fun _ => 0)) =
      [1, 2, 3, 41, 42, 43] ∧
    (List.range 3).map (sampleChannels 1) = [11, 12, 13] ∧
    (List.range 3).map (interleave_24 1 3 sampleHighByte (fun _ => 0)) = [255, 255, 128] :=
  ⟨by decide, by decide, by decide, by decide, by decide, by decide⟩

/-- The function `conv_f32_to_s24` on one channel of two samples: both
samples are written at the start of the channel, one over the other. -/
theorem conv_f32_to_s24_two_samples {α : Type} (F32_TO_S24 : α → Nat)
    (src : Nat → Nat → α) (dst : Nat → Nat → Nat) :
    conv_f32_to_s24 F32_TO_S24 1 8 src dst =
      Function.update (Function.update dst 0 (WRITE24 (dst 0) 0 (F32_TO_S24 (src 0 0)))) 0
        (WRITE24 (Function.update dst 0 (WRITE24 (dst 0) 0 (F32_TO_S24 (src 0 0))) 0) 0
          (F32_TO_S24 (src 0 1))) := rfl

/-- C30, the code at a failing input.  On one channel of two samples
(`n_src = 1`, `n_bytes = 8`), whatever the samples, the conversion and the
destination: bytes `0..2` of the destination hold the conversion of the second
sample, most significant byte first, and bytes `3..5` are what they were. -/
theorem conv_f32_to_s24_overwrites {α : Type} (F32_TO_S24 : α → Nat)
    (src : Nat → Nat → α) (dst : Nat → Nat → Nat) :
    conv_f32_to_s24 F32_TO_S24 1 8 src dst 0 0 = (F32_TO_S24 (src 0 1) >>> 16) % 256 ∧
    conv_f32_to_s24 F32_TO_S24 1 8 src dst 0 1 = (F32_TO_S24 (src 0 1) >>> 8) % 256 ∧
    conv_f32_to_s24 F32_TO_S24 1 8 src dst 0 2 = F32_TO_S24 (src 0 1) % 256 ∧
    conv_f32_to_s24 F32_TO_S24 1 8 src dst 0 3 = dst 0 3 ∧
    conv_f32_to_s24 F32_TO_S24 1 8 src dst 0 4 = dst 0 4 ∧
    conv_f32_to_s24 F32_TO_S24 1 8 src dst 0 5 = dst 0 5 := by
  rw [conv_f32_to_s24_two_samples]
  simp only [Function.update_same, WRITE24, store]
  refine ⟨?_, ?_, ?_, ?_, ?_, ?_⟩ <;> simp

end FmtOps
